import Mathlib

/-!
# MKL-DNN convolution kernels of the nGraph CPU transformer

A shallow embedding of `src/ngraph/transformers/cpu/convolution.c`:

* `create_mkldnn_conv_fprop_kernel`, `run_mkldnn_conv_fprop_kernel`,
* `create_mkldnn_conv_bprop_data_kernel`, `run_mkldnn_conv_bprop_data_kernel`.

The MKL-DNN library is an external collaborator.  Every decision it takes
(which calls it accepts, which layouts it requires, when two layouts are equal)
is a field of `mkldnn_engine_t`, so each theorem holds for every engine.  What
the C file itself does with the answers (which tensor it creates, which handle
it stores where, what it appends to `net`) is modelled step by step on an
explicit state `World`.

`MKL_CHECK` terminates the process on a non-success status; a terminated run
is the result `Res.exit`, carrying the state at that moment.
-/

namespace Conv

/-! ## Types of the MKL-DNN C interface used by the file -/

/-- Element types: the file only ever names `mkldnn_f32`. -/
inductive mkldnn_data_type_t
  | mkldnn_f32
  | other_data_type (code : Nat)
deriving DecidableEq, Repr

/-- Memory format tags named by the file, and the remaining ones by code. -/
inductive mkldnn_memory_format_t
  | mkldnn_any
  | mkldnn_chwn
  | mkldnn_ihwo
  | other_format (code : Nat)
deriving DecidableEq, Repr

inductive mkldnn_prop_kind_t
  | mkldnn_forward
deriving DecidableEq, Repr

inductive mkldnn_alg_kind_t
  | mkldnn_convolution_direct
deriving DecidableEq, Repr

inductive mkldnn_padding_kind_t
  | mkldnn_padding_zero
deriving DecidableEq, Repr

/-- Queries the two builders send to a compute descriptor. -/
inductive mkldnn_query_t
  | mkldnn_query_src_pd
  | mkldnn_query_weights_pd
  | mkldnn_query_dst_pd
  | mkldnn_query_diff_src_pd
  | mkldnn_query_diff_dst_pd
deriving DecidableEq, Repr

/-- A memory descriptor: rank, dimensions, element type and layout tag. -/
structure mkldnn_memory_desc_t where
  ndims : Int
  dims : List Int
  data_type : mkldnn_data_type_t
  format : mkldnn_memory_format_t
deriving DecidableEq, Repr

/-- A convolution descriptor, as filled in by one of the two `desc_init`
calls.  The field names are those of the MKL-DNN parameters. -/
inductive mkldnn_convolution_desc_t
  | forward (prop_kind : mkldnn_prop_kind_t) (alg_kind : mkldnn_alg_kind_t)
      (src_desc weights_desc : mkldnn_memory_desc_t)
      (bias_desc : Option mkldnn_memory_desc_t) (dst_desc : mkldnn_memory_desc_t)
      (strides padding_l padding_r : List Int) (padding_kind : mkldnn_padding_kind_t)
  | backward_data (alg_kind : mkldnn_alg_kind_t)
      (diff_src_desc weights_desc diff_dst_desc : mkldnn_memory_desc_t)
      (strides padding_l padding_r : List Int) (padding_kind : mkldnn_padding_kind_t)
deriving DecidableEq, Repr

/-- A primitive descriptor pointer; `null` is the C `NULL`. -/
inductive mkldnn_primitive_desc_t
  | null
  | memory (md : mkldnn_memory_desc_t)
  | convolution (cd : mkldnn_convolution_desc_t) (src weights dst : mkldnn_memory_desc_t)
  | reorder (input output : mkldnn_memory_desc_t)
deriving DecidableEq, Repr

/-- A primitive handle: `0` is `NULL`, `n + 1` names the `n`-th primitive the
engine created. -/
abbrev mkldnn_primitive_t := Nat

/-- A data pointer: `0` is `NULL`. -/
abbrev void_ptr := Nat

/-- The pair `{primitive, output_index}`. -/
structure mkldnn_primitive_at_t where
  primitive : mkldnn_primitive_t
  output_index : Nat
deriving DecidableEq, Repr

/-- Builds the pair, as the MKL-DNN function of the same name. -/
def mkldnn_primitive_at (primitive : mkldnn_primitive_t) (output_index : Nat) :
    mkldnn_primitive_at_t :=
  ⟨primitive, output_index⟩

/-- The object behind a primitive handle: its descriptor, the primitives it
reads and writes, and (for a memory primitive) the buffer bound to it. -/
structure mkldnn_primitive where
  desc : mkldnn_primitive_desc_t
  inputs : List mkldnn_primitive_at_t
  outputs : List mkldnn_primitive_t
  data_handle : void_ptr
deriving DecidableEq, Repr

/-- Every MKL-DNN entry point the file calls, as an injected capability.
`none` (or `false`) stands for a status other than `mkldnn_success`. -/
structure mkldnn_engine_t where
  memory_desc_init : (ndims : Int) → (dims : List Int) → mkldnn_data_type_t →
    mkldnn_memory_format_t → Option mkldnn_memory_desc_t
  convolution_forward_desc_init : mkldnn_prop_kind_t → mkldnn_alg_kind_t →
    (src_desc weights_desc : mkldnn_memory_desc_t) →
    (bias_desc : Option mkldnn_memory_desc_t) → (dst_desc : mkldnn_memory_desc_t) →
    (strides padding_l padding_r : List Int) → mkldnn_padding_kind_t →
    Option mkldnn_convolution_desc_t
  convolution_backward_data_desc_init : mkldnn_alg_kind_t →
    (diff_src_desc weights_desc diff_dst_desc : mkldnn_memory_desc_t) →
    (strides padding_l padding_r : List Int) → mkldnn_padding_kind_t →
    Option mkldnn_convolution_desc_t
  primitive_desc_create : mkldnn_convolution_desc_t → Option mkldnn_primitive_desc_t
  primitive_desc_query_pd : mkldnn_primitive_desc_t → mkldnn_query_t → Int →
    mkldnn_primitive_desc_t
  primitive_desc_query_memory_d : mkldnn_primitive_desc_t → mkldnn_memory_desc_t
  memory_primitive_desc_create : mkldnn_memory_desc_t → Option mkldnn_primitive_desc_t
  memory_primitive_desc_equal : mkldnn_primitive_desc_t → mkldnn_primitive_desc_t → Bool
  reorder_primitive_desc_create : (input output : mkldnn_primitive_desc_t) →
    Option mkldnn_primitive_desc_t
  primitive_create : mkldnn_primitive_desc_t → List mkldnn_primitive_at_t →
    List mkldnn_primitive_t → Bool
  memory_set_data_handle : mkldnn_primitive → void_ptr → Bool
  stream_submit : List mkldnn_primitive_t → List mkldnn_primitive → Bool

/-! ## The kernel structure -/

/-- Modelled from the spec: the Tensor Descriptor `mkldnn_tensor` of
`mkldnn_engine.h` (not under src/), with the fields the file uses: shape, layout,
memory primitive and the buffer the kernel owns for it. -/
structure mkldnn_tensor where
  ndims : Int
  sizes : List Int
  desc : mkldnn_primitive_desc_t
  prim : mkldnn_primitive_t
  buffer : void_ptr
deriving DecidableEq, Repr

/-- Modelled from the spec: the Kernel `mkldnn_opkernel` of `mkldnn_engine.h` (not
under src/), with the fields the file uses.  C arrays are total maps from the
index; the array capacities are declared outside the file and are not modelled. -/
structure mkldnn_opkernel where
  num_inputs : Int
  num_outputs : Int
  inputs : Nat → mkldnn_tensor
  outputs : Nat → mkldnn_tensor
  internal_inputs : Nat → mkldnn_tensor
  op_desc : mkldnn_primitive_desc_t
  op_prim : mkldnn_primitive_t
  reorder_i : Nat → mkldnn_primitive_t
  reorder_o : Nat → mkldnn_primitive_t
  net : Nat → mkldnn_primitive_t
  net_size : Nat

/-- One call of `calloc`: what was asked for and the pointer returned. -/
structure calloc_record where
  nmemb : Int
  size : Nat
  result : void_ptr
deriving DecidableEq, Repr

/-- One execution of a plan: the submitted steps and the engine's primitives
(with their buffer bindings) at that moment. -/
structure submit_record where
  net : List mkldnn_primitive_t
  primitives : List mkldnn_primitive
deriving DecidableEq, Repr

/-- The state the C functions act on. -/
structure World where
  opkernel : mkldnn_opkernel
  primitives : List mkldnn_primitive
  callocs : List calloc_record
  submitted : List submit_record

/-- The five arrays `set_mkl_dimensions` fills in. -/
structure mkl_dimensions where
  mkl_src_sizes : List Int
  mkl_dst_sizes : List Int
  mkl_weights_sizes : List Int
  mkl_strides : List Int
  mkl_padding : List Int
deriving DecidableEq, Repr

/-- The host services declared in `mkldnn_util.h` and the C library whose
bodies are not in the file: the layout translation called with the name
"convolution", and the allocator (a function of the earlier calls, the count
and the element size; `0` is a failed allocation). -/
structure host_t where
  set_mkl_dimensions : (primitive_src_sizes primitive_dst_sizes primitive_weights_sizes
    primitive_strides primitive_padding : List Int) → mkl_dimensions
  calloc : List calloc_record → Int → Nat → void_ptr

/-! ## Running C statements on the state -/

/-- Result of running a C function: it returned, or the process ended. -/
inductive Res (α : Type)
  | ok (a : α) (w : World)
  | exit (w : World)

/-- A C statement sequence acting on `World`. -/
def K (α : Type) : Type := World → Res α

instance : Monad K where
  pure a := fun w => Res.ok a w
  bind x f := fun w =>
    match x w with
    | Res.ok a w1 => f a w1
    | Res.exit w1 => Res.exit w1

/-- State in which a run ended. -/
def Res.world {α : Type} : Res α → World
  | Res.ok _ w => w
  | Res.exit w => w

/-- Reads `*opkernel`. -/
def opkernel : K mkldnn_opkernel := fun w => Res.ok w.opkernel w

/-- Writes to `*opkernel`. -/
def assign (f : mkldnn_opkernel → mkldnn_opkernel) : K Unit :=
  fun w => Res.ok () { w with opkernel := f w.opkernel }

/-- Modelled from the spec: the macro `MKL_CHECK` of `mkldnn_util.h` (not under
src/).  An engine call that reports a status other than `mkldnn_success` is fatal:
it is not retried and the run ends there, in the state reached so far. -/
def MKL_CHECK {α : Type} (f : K (Option α)) : K α := fun w =>
  match f w with
  | Res.ok (some a) w1 => Res.ok a w1
  | Res.ok none w1 => Res.exit w1
  | Res.exit w1 => Res.exit w1

/-- The primitive a handle points to, if any. -/
def deref (primitives : List mkldnn_primitive) (p : mkldnn_primitive_t) :
    Option mkldnn_primitive :=
  if p = 0 then none else primitives[p - 1]?

/-! ## MKL-DNN calls -/

/-- The MKL-DNN calls below only ask the engine; they do not change the state. -/
def mkldnn_memory_desc_init (engine : mkldnn_engine_t) (ndims : Int) (dims : List Int)
    (data_type : mkldnn_data_type_t) (format : mkldnn_memory_format_t) :
    K (Option mkldnn_memory_desc_t) :=
  pure (engine.memory_desc_init ndims dims data_type format)

def mkldnn_convolution_forward_desc_init (engine : mkldnn_engine_t)
    (prop_kind : mkldnn_prop_kind_t) (alg_kind : mkldnn_alg_kind_t)
    (src_desc weights_desc : mkldnn_memory_desc_t) (bias_desc : Option mkldnn_memory_desc_t)
    (dst_desc : mkldnn_memory_desc_t) (strides padding_l padding_r : List Int)
    (padding_kind : mkldnn_padding_kind_t) : K (Option mkldnn_convolution_desc_t) :=
  pure (engine.convolution_forward_desc_init prop_kind alg_kind src_desc weights_desc
    bias_desc dst_desc strides padding_l padding_r padding_kind)

def mkldnn_convolution_backward_data_desc_init (engine : mkldnn_engine_t)
    (alg_kind : mkldnn_alg_kind_t)
    (diff_src_desc weights_desc diff_dst_desc : mkldnn_memory_desc_t)
    (strides padding_l padding_r : List Int) (padding_kind : mkldnn_padding_kind_t) :
    K (Option mkldnn_convolution_desc_t) :=
  pure (engine.convolution_backward_data_desc_init alg_kind diff_src_desc weights_desc
    diff_dst_desc strides padding_l padding_r padding_kind)

def mkldnn_primitive_desc_create (engine : mkldnn_engine_t)
    (op_desc : mkldnn_convolution_desc_t) : K (Option mkldnn_primitive_desc_t) :=
  pure (engine.primitive_desc_create op_desc)

def mkldnn_primitive_desc_query_pd (engine : mkldnn_engine_t)
    (primitive_desc : mkldnn_primitive_desc_t) (what : mkldnn_query_t) (index : Int) :
    mkldnn_primitive_desc_t :=
  engine.primitive_desc_query_pd primitive_desc what index

def mkldnn_primitive_desc_query_memory_d (engine : mkldnn_engine_t)
    (primitive_desc : mkldnn_primitive_desc_t) : mkldnn_memory_desc_t :=
  engine.primitive_desc_query_memory_d primitive_desc

def mkldnn_memory_primitive_desc_create (engine : mkldnn_engine_t)
    (memory_desc : mkldnn_memory_desc_t) : K (Option mkldnn_primitive_desc_t) :=
  pure (engine.memory_primitive_desc_create memory_desc)

def mkldnn_memory_primitive_desc_equal (engine : mkldnn_engine_t)
    (lhs rhs : mkldnn_primitive_desc_t) : Bool :=
  engine.memory_primitive_desc_equal lhs rhs

def mkldnn_reorder_primitive_desc_create (engine : mkldnn_engine_t)
    (input output : mkldnn_primitive_desc_t) : K (Option mkldnn_primitive_desc_t) :=
  pure (engine.reorder_primitive_desc_create input output)

/-- The MKL-DNN call `mkldnn_primitive_create`: when the engine accepts, a new
object with no buffer bound is added to the engine's store and its (non-null)
handle is returned; otherwise nothing changes. -/
def mkldnn_primitive_create (engine : mkldnn_engine_t)
    (primitive_desc : mkldnn_primitive_desc_t) (inputs : List mkldnn_primitive_at_t)
    (outputs : List mkldnn_primitive_t) : K (Option mkldnn_primitive_t) := fun w =>
  if engine.primitive_create primitive_desc inputs outputs then
    Res.ok (some (w.primitives.length + 1))
      { w with primitives := w.primitives ++ [⟨primitive_desc, inputs, outputs, 0⟩] }
  else
    Res.ok none w

/-- The MKL-DNN call `mkldnn_memory_set_data_handle`: when the handle names a
primitive and the engine accepts, the buffer bound to that primitive is
overwritten, whatever was bound before; nothing else changes and no data is
copied. -/
def mkldnn_memory_set_data_handle (engine : mkldnn_engine_t) (memory : mkldnn_primitive_t)
    (handle : void_ptr) : K (Option Unit) := fun w =>
  match deref w.primitives memory with
  | none => Res.ok none w
  | some p =>
    if engine.memory_set_data_handle p handle then
      Res.ok (some ())
        { w with primitives := w.primitives.set (memory - 1) { p with data_handle := handle } }
    else
      Res.ok none w

/-! ## Helpers of `mkldnn_util` and the C library -/

/-- The slot a `mkldnn_tensor*` argument points to. -/
inductive tensor_ref
  | inputs (k : Nat)
  | internal_inputs (k : Nat)
  | outputs (k : Nat)
deriving DecidableEq, Repr

/-- The kernel structure after `*r = f(*r)` for a `mkldnn_tensor* r`. -/
def tensor_ref.modify (r : tensor_ref) (f : mkldnn_tensor → mkldnn_tensor)
    (o : mkldnn_opkernel) : mkldnn_opkernel :=
  match r with
  | tensor_ref.inputs k => { o with inputs := Function.update o.inputs k (f (o.inputs k)) }
  | tensor_ref.internal_inputs k =>
    { o with internal_inputs := Function.update o.internal_inputs k (f (o.internal_inputs k)) }
  | tensor_ref.outputs k => { o with outputs := Function.update o.outputs k (f (o.outputs k)) }

/-- Writes through a `mkldnn_tensor*`. -/
def tensor_ref.assign (r : tensor_ref) (f : mkldnn_tensor → mkldnn_tensor) : K Unit :=
  Conv.assign (r.modify f)

/-- Modelled from the spec: `create_mkldnn_tensor_from_pd` of `mkldnn_util` (its
body is not under src/).  A Tensor Descriptor is a shape, a layout and an engine
handle for a buffer slot; binding a descriptor "to that exact layout" records the
shape, creates the memory primitive descriptor of the given memory descriptor and
a memory primitive for it.  The `buffer` field is not touched. -/
def create_mkldnn_tensor_from_pd (ndims : Int) (dim_sizes : List Int)
    (md : mkldnn_memory_desc_t) (engine : mkldnn_engine_t) (tensor : tensor_ref) : K Unit := do
  tensor.assign fun t => { t with ndims := ndims, sizes := dim_sizes }
  let desc ← MKL_CHECK (mkldnn_memory_primitive_desc_create engine md)
  tensor.assign fun t => { t with desc := desc }
  let prim ← MKL_CHECK (mkldnn_primitive_create engine desc [] [])
  tensor.assign fun t => { t with prim := prim }

/-- Modelled from the spec: `create_mkldnn_tensor` of `mkldnn_util` (its body is
not under src/).  As `create_mkldnn_tensor_from_pd`, for the memory descriptor
initialised from the given element type and default layout tag. -/
def create_mkldnn_tensor (ndims : Int) (dim_sizes : List Int)
    (data_type : mkldnn_data_type_t) (fmt : mkldnn_memory_format_t)
    (engine : mkldnn_engine_t) (tensor : tensor_ref) : K Unit := do
  tensor.assign fun t => { t with ndims := ndims, sizes := dim_sizes }
  let md ← MKL_CHECK (mkldnn_memory_desc_init engine ndims dim_sizes data_type fmt)
  let desc ← MKL_CHECK (mkldnn_memory_primitive_desc_create engine md)
  tensor.assign fun t => { t with desc := desc }
  let prim ← MKL_CHECK (mkldnn_primitive_create engine desc [] [])
  tensor.assign fun t => { t with prim := prim }

/-- Modelled from the spec: `product` of `mkldnn_util` (its body is not under
src/): the total element count of the first `size` entries of `arr`, over the
integers (no wrap-around is modelled). -/
def product (arr : List Int) (size : Int) : Int :=
  (arr.take size.toNat).foldl (fun acc d => acc * d) 1

/-- The C `sizeof(float)`. -/
def sizeof_float : Nat := 4

/-- The C library `calloc`: the call and its result are recorded. -/
def calloc (host : host_t) (nmemb : Int) (size : Nat) : K void_ptr := fun w =>
  let p := host.calloc w.callocs nmemb size
  Res.ok p { w with callocs := w.callocs ++ [⟨nmemb, size, p⟩] }

/-- The entries `net[0 .. net_size - 1]`: the execution plan. -/
def mkldnn_opkernel.plan (o : mkldnn_opkernel) : List mkldnn_primitive_t :=
  (List.range o.net_size).map o.net

/-- Modelled from the spec: `run_mkldnn_opkernel` of `mkldnn_util` (its body is
not under src/): the ordered operation list is executed once, in sequence, with
the buffer bindings current at that moment; a failing step ends the process. -/
def run_mkldnn_opkernel (engine : mkldnn_engine_t) : K Unit := fun w =>
  if engine.stream_submit w.opkernel.plan w.primitives then
    Res.ok () { w with submitted := w.submitted ++ [⟨w.opkernel.plan, w.primitives⟩] }
  else
    Res.exit w

/-! ## The functions of `convolution.c` -/

/-- The forward builder, `convolution.c` lines 19-163. -/
def create_mkldnn_conv_fprop_kernel (host : host_t) (engine : mkldnn_engine_t)
    (src_dims weights_dims dst_dims stride_dims pad_dims : Int)
    (conv_src_sizes conv_weights_sizes conv_dst_sizes conv_strides conv_padding : List Int)
    (input_src_pd input_weights_pd : mkldnn_primitive_desc_t) : K Unit := do
  -- Only 2-D convolution is supported for now
  let mkl_src_dims : Int := 4
  let mkl_weights_dims : Int := 4
  let mkl_dst_dims : Int := 4
  let mkl := host.set_mkl_dimensions conv_src_sizes conv_dst_sizes conv_weights_sizes
    conv_strides conv_padding
  -- Let MKL pick the best format (mkldnn_any)
  let mkldnn_memory_desc_src_md ← MKL_CHECK (mkldnn_memory_desc_init engine mkl_src_dims
    mkl.mkl_src_sizes .mkldnn_f32 .mkldnn_any)
  let mkldnn_memory_desc_weights_md ← MKL_CHECK (mkldnn_memory_desc_init engine
    mkl_weights_dims mkl.mkl_weights_sizes .mkldnn_f32 .mkldnn_any)
  let mkldnn_memory_desc_dst_md ← MKL_CHECK (mkldnn_memory_desc_init engine mkl_dst_dims
    mkl.mkl_dst_sizes .mkldnn_f32 .mkldnn_any)
  let conv_desc ← MKL_CHECK (mkldnn_convolution_forward_desc_init engine
    .mkldnn_forward .mkldnn_convolution_direct
    mkldnn_memory_desc_src_md mkldnn_memory_desc_weights_md none
    mkldnn_memory_desc_dst_md mkl.mkl_strides mkl.mkl_padding mkl.mkl_padding
    .mkldnn_padding_zero)
  let op_desc ← MKL_CHECK (mkldnn_primitive_desc_create engine conv_desc)
  assign fun o => { o with op_desc := op_desc }
  let kernel_src_pd :=
    mkldnn_primitive_desc_query_pd engine (← opkernel).op_desc .mkldnn_query_src_pd 0
  let kernel_weights_pd :=
    mkldnn_primitive_desc_query_pd engine (← opkernel).op_desc .mkldnn_query_weights_pd 0
  let kernel_dst_pd :=
    mkldnn_primitive_desc_query_pd engine (← opkernel).op_desc .mkldnn_query_dst_pd 0
  (if input_src_pd ≠ .null then
    let md := mkldnn_primitive_desc_query_memory_d engine input_src_pd
    create_mkldnn_tensor_from_pd mkl_src_dims mkl.mkl_src_sizes md engine (.inputs 0)
  else
    create_mkldnn_tensor mkl_src_dims mkl.mkl_src_sizes .mkldnn_f32 .mkldnn_chwn
      engine (.inputs 0))
  (if input_weights_pd ≠ .null then
    let md := mkldnn_primitive_desc_query_memory_d engine input_weights_pd
    create_mkldnn_tensor_from_pd mkl_weights_dims mkl.mkl_weights_sizes md engine (.inputs 1)
  else
    create_mkldnn_tensor mkl_weights_dims mkl.mkl_weights_sizes .mkldnn_f32 .mkldnn_ihwo
      engine (.inputs 1))
  let dst_md := mkldnn_primitive_desc_query_memory_d engine kernel_dst_pd
  create_mkldnn_tensor_from_pd mkl_dst_dims mkl.mkl_dst_sizes dst_md engine (.outputs 0)
  assign fun o => { o with num_inputs := 2 }
  assign fun o => { o with num_outputs := 1 }
  -- Reorder inputs
  (if !mkldnn_memory_primitive_desc_equal engine ((← opkernel).inputs 0).desc kernel_src_pd then do
    let md := mkldnn_primitive_desc_query_memory_d engine kernel_src_pd
    create_mkldnn_tensor_from_pd mkl_src_dims mkl.mkl_src_sizes md engine (.internal_inputs 0)
    let reorder_pd ← MKL_CHECK (mkldnn_reorder_primitive_desc_create engine
      ((← opkernel).inputs 0).desc kernel_src_pd)
    let inputs := [mkldnn_primitive_at ((← opkernel).inputs 0).prim 0]
    let outputs := [((← opkernel).internal_inputs 0).prim]
    let r ← MKL_CHECK (mkldnn_primitive_create engine reorder_pd inputs outputs)
    assign fun o => { o with reorder_i := Function.update o.reorder_i 0 r }
  else
    assign fun o => { o with reorder_i := Function.update o.reorder_i 0 0 })
  (if !mkldnn_memory_primitive_desc_equal engine ((← opkernel).inputs 1).desc
      kernel_weights_pd then do
    let md := mkldnn_primitive_desc_query_memory_d engine kernel_weights_pd
    create_mkldnn_tensor_from_pd mkl_weights_dims mkl.mkl_weights_sizes md engine
      (.internal_inputs 1)
    let reorder_pd ← MKL_CHECK (mkldnn_reorder_primitive_desc_create engine
      ((← opkernel).inputs 1).desc kernel_weights_pd)
    let inputs := [mkldnn_primitive_at ((← opkernel).inputs 1).prim 0]
    let outputs := [((← opkernel).internal_inputs 1).prim]
    let r ← MKL_CHECK (mkldnn_primitive_create engine reorder_pd inputs outputs)
    assign fun o => { o with reorder_i := Function.update o.reorder_i 1 r }
  else
    assign fun o => { o with reorder_i := Function.update o.reorder_i 1 0 })
  -- No reorder on the output side
  assign fun o => { o with reorder_o := Function.update o.reorder_o 0 0 }
  -- Allocate memory for internal format conversions
  (if (← opkernel).reorder_i 0 ≠ 0 then do
    let tmp_buf ← calloc host (product conv_src_sizes src_dims) sizeof_float
    (tensor_ref.internal_inputs 0).assign fun t => { t with buffer := tmp_buf }
    MKL_CHECK (mkldnn_memory_set_data_handle engine ((← opkernel).internal_inputs 0).prim
      tmp_buf)
  else pure ())
  (if (← opkernel).reorder_i 1 ≠ 0 then do
    let tmp_buf ← calloc host (product conv_weights_sizes weights_dims) sizeof_float
    (tensor_ref.internal_inputs 1).assign fun t => { t with buffer := tmp_buf }
    MKL_CHECK (mkldnn_memory_set_data_handle engine ((← opkernel).internal_inputs 1).prim
      tmp_buf)
  else pure ())
  -- select input and output primitives for convolution
  let o ← opkernel
  let mkldnn_memory_prim_src :=
    if o.reorder_i 0 ≠ 0 then (o.internal_inputs 0).prim else (o.inputs 0).prim
  let mkldnn_memory_prim_weights :=
    if o.reorder_i 1 ≠ 0 then (o.internal_inputs 1).prim else (o.inputs 0).prim
  let mkldnn_memory_prim_dst := (o.outputs 0).prim
  let conv_dsts := [mkldnn_memory_prim_dst]
  -- create a convolution primitive
  let conv_srcs := [mkldnn_primitive_at mkldnn_memory_prim_src 0,
    mkldnn_primitive_at mkldnn_memory_prim_weights 0]
  let p ← MKL_CHECK (mkldnn_primitive_create engine (← opkernel).op_desc conv_srcs conv_dsts)
  assign fun o => { o with op_prim := p }
  (if (← opkernel).reorder_i 0 ≠ 0 then
    assign fun o =>
      { o with net := Function.update o.net o.net_size (o.reorder_i 0),
               net_size := o.net_size + 1 }
  else pure ())
  (if (← opkernel).reorder_i 1 ≠ 0 then
    assign fun o =>
      { o with net := Function.update o.net o.net_size (o.reorder_i 1),
               net_size := o.net_size + 1 }
  else pure ())
  assign fun o =>
    { o with net := Function.update o.net o.net_size o.op_prim, net_size := o.net_size + 1 }

/-- The forward runner, `convolution.c` lines 165-172. -/
def run_mkldnn_conv_fprop_kernel (engine : mkldnn_engine_t)
    (conv_src conv_weights conv_dst : void_ptr) : K Unit := do
  MKL_CHECK (mkldnn_memory_set_data_handle engine ((← opkernel).inputs 0).prim conv_src)
  MKL_CHECK (mkldnn_memory_set_data_handle engine ((← opkernel).inputs 1).prim conv_weights)
  MKL_CHECK (mkldnn_memory_set_data_handle engine ((← opkernel).outputs 0).prim conv_dst)
  run_mkldnn_opkernel engine

/-- The backward-data builder, `convolution.c` lines 174-314. -/
def create_mkldnn_conv_bprop_data_kernel (host : host_t) (engine : mkldnn_engine_t)
    (src_dims weights_dims dst_dims stride_dims pad_dims : Int)
    (conv_src_sizes conv_weights_sizes conv_dst_sizes conv_strides conv_padding : List Int)
    (input_src_pd input_weights_pd : mkldnn_primitive_desc_t) : K Unit := do
  let mkl_src_dims : Int := 4
  let mkl_weights_dims : Int := 4
  let mkl_dst_dims : Int := 4
  let mkl := host.set_mkl_dimensions conv_src_sizes conv_dst_sizes conv_weights_sizes
    conv_strides conv_padding
  let mkldnn_memory_desc_src_md ← MKL_CHECK (mkldnn_memory_desc_init engine mkl_src_dims
    mkl.mkl_src_sizes .mkldnn_f32 .mkldnn_any)
  let mkldnn_memory_desc_weights_md ← MKL_CHECK (mkldnn_memory_desc_init engine
    mkl_weights_dims mkl.mkl_weights_sizes .mkldnn_f32 .mkldnn_any)
  let mkldnn_memory_desc_dst_md ← MKL_CHECK (mkldnn_memory_desc_init engine mkl_dst_dims
    mkl.mkl_dst_sizes .mkldnn_f32 .mkldnn_any)
  let conv_desc_data ← MKL_CHECK (mkldnn_convolution_backward_data_desc_init engine
    .mkldnn_convolution_direct mkldnn_memory_desc_dst_md
    mkldnn_memory_desc_weights_md mkldnn_memory_desc_src_md mkl.mkl_strides
    mkl.mkl_padding mkl.mkl_padding .mkldnn_padding_zero)
  let op_desc ← MKL_CHECK (mkldnn_primitive_desc_create engine conv_desc_data)
  assign fun o => { o with op_desc := op_desc }
  let kernel_src_pd :=
    mkldnn_primitive_desc_query_pd engine (← opkernel).op_desc .mkldnn_query_diff_dst_pd 0
  let kernel_weights_pd :=
    mkldnn_primitive_desc_query_pd engine (← opkernel).op_desc .mkldnn_query_weights_pd 0
  let kernel_dst_pd :=
    mkldnn_primitive_desc_query_pd engine (← opkernel).op_desc .mkldnn_query_diff_src_pd 0
  (if input_src_pd ≠ .null then
    let md := mkldnn_primitive_desc_query_memory_d engine input_src_pd
    create_mkldnn_tensor_from_pd mkl_src_dims mkl.mkl_src_sizes md engine (.inputs 0)
  else
    create_mkldnn_tensor mkl_src_dims mkl.mkl_src_sizes .mkldnn_f32 .mkldnn_chwn
      engine (.inputs 0))
  (if input_weights_pd ≠ .null then
    let md := mkldnn_primitive_desc_query_memory_d engine input_weights_pd
    create_mkldnn_tensor_from_pd mkl_weights_dims mkl.mkl_weights_sizes md engine (.inputs 1)
  else
    create_mkldnn_tensor mkl_weights_dims mkl.mkl_weights_sizes .mkldnn_f32 .mkldnn_ihwo
      engine (.inputs 1))
  let dst_md := mkldnn_primitive_desc_query_memory_d engine kernel_dst_pd
  create_mkldnn_tensor_from_pd mkl_dst_dims mkl.mkl_dst_sizes dst_md engine (.outputs 0)
  assign fun o => { o with num_inputs := 2 }
  assign fun o => { o with num_outputs := 1 }
  -- Reorder inputs
  (if !mkldnn_memory_primitive_desc_equal engine ((← opkernel).inputs 0).desc kernel_src_pd then do
    let md := mkldnn_primitive_desc_query_memory_d engine kernel_src_pd
    create_mkldnn_tensor_from_pd mkl_src_dims mkl.mkl_src_sizes md engine (.internal_inputs 0)
    let reorder_pd ← MKL_CHECK (mkldnn_reorder_primitive_desc_create engine
      ((← opkernel).inputs 0).desc kernel_src_pd)
    let inputs := [mkldnn_primitive_at ((← opkernel).inputs 0).prim 0]
    let outputs := [((← opkernel).internal_inputs 0).prim]
    let r ← MKL_CHECK (mkldnn_primitive_create engine reorder_pd inputs outputs)
    assign fun o => { o with reorder_i := Function.update o.reorder_i 0 r }
  else
    assign fun o => { o with reorder_i := Function.update o.reorder_i 0 0 })
  (if !mkldnn_memory_primitive_desc_equal engine ((← opkernel).inputs 1).desc
      kernel_weights_pd then do
    let md := mkldnn_primitive_desc_query_memory_d engine kernel_weights_pd
    create_mkldnn_tensor_from_pd mkl_weights_dims mkl.mkl_weights_sizes md engine
      (.internal_inputs 1)
    let reorder_pd ← MKL_CHECK (mkldnn_reorder_primitive_desc_create engine
      ((← opkernel).inputs 1).desc kernel_weights_pd)
    let inputs := [mkldnn_primitive_at ((← opkernel).inputs 1).prim 0]
    let outputs := [((← opkernel).internal_inputs 1).prim]
    let r ← MKL_CHECK (mkldnn_primitive_create engine reorder_pd inputs outputs)
    assign fun o => { o with reorder_i := Function.update o.reorder_i 1 r }
  else
    assign fun o => { o with reorder_i := Function.update o.reorder_i 1 0 })
  -- No reorder on the output side
  assign fun o => { o with reorder_o := Function.update o.reorder_o 0 0 }
  -- Allocate memory for internal format conversions
  (if (← opkernel).reorder_i 0 ≠ 0 then do
    let tmp_buf ← calloc host (product conv_src_sizes src_dims) sizeof_float
    (tensor_ref.internal_inputs 0).assign fun t => { t with buffer := tmp_buf }
    MKL_CHECK (mkldnn_memory_set_data_handle engine ((← opkernel).internal_inputs 0).prim
      tmp_buf)
  else pure ())
  (if (← opkernel).reorder_i 1 ≠ 0 then do
    let tmp_buf ← calloc host (product conv_weights_sizes weights_dims) sizeof_float
    (tensor_ref.internal_inputs 1).assign fun t => { t with buffer := tmp_buf }
    MKL_CHECK (mkldnn_memory_set_data_handle engine ((← opkernel).internal_inputs 1).prim
      tmp_buf)
  else pure ())
  -- select input and output primitives for convolution
  let o ← opkernel
  let mkldnn_memory_prim_src :=
    if o.reorder_i 0 ≠ 0 then (o.internal_inputs 0).prim else (o.inputs 0).prim
  let mkldnn_memory_prim_weights :=
    if o.reorder_i 1 ≠ 0 then (o.internal_inputs 1).prim else (o.inputs 0).prim
  let mkldnn_memory_prim_dst := (o.outputs 0).prim
  let conv_dsts := [mkldnn_memory_prim_dst]
  -- create a convolution primitive
  let conv_srcs := [mkldnn_primitive_at mkldnn_memory_prim_src 0,
    mkldnn_primitive_at mkldnn_memory_prim_weights 0]
  let p ← MKL_CHECK (mkldnn_primitive_create engine (← opkernel).op_desc conv_srcs conv_dsts)
  assign fun o => { o with op_prim := p }
  (if (← opkernel).reorder_i 0 ≠ 0 then
    assign fun o =>
      { o with net := Function.update o.net o.net_size (o.reorder_i 0),
               net_size := o.net_size + 1 }
  else pure ())
  (if (← opkernel).reorder_i 1 ≠ 0 then
    assign fun o =>
      { o with net := Function.update o.net o.net_size (o.reorder_i 1),
               net_size := o.net_size + 1 }
  else pure ())
  assign fun o =>
    { o with net := Function.update o.net o.net_size o.op_prim, net_size := o.net_size + 1 }

/-- The backward-data runner, `convolution.c` lines 316-323. -/
def run_mkldnn_conv_bprop_data_kernel (engine : mkldnn_engine_t)
    (conv_src conv_weights conv_dst : void_ptr) : K Unit := do
  MKL_CHECK (mkldnn_memory_set_data_handle engine ((← opkernel).inputs 0).prim conv_src)
  MKL_CHECK (mkldnn_memory_set_data_handle engine ((← opkernel).inputs 1).prim conv_weights)
  MKL_CHECK (mkldnn_memory_set_data_handle engine ((← opkernel).outputs 0).prim conv_dst)
  run_mkldnn_opkernel engine

/-! ## The state a successful build ends in

The builders are straight-line code apart from four decisions.  The functions
below give, phase by phase, the state reached when every engine call is
accepted, as a function of the engine's answers; `fprop_ok` and `bprop_data_ok`
prove that the builders reach exactly this state. -/

/-- The engine's answers a builder stores: the compute descriptor, the layouts
bound to `inputs[0]`, `inputs[1]`, `outputs[0]`, and per input slot the internal
layout and reorder descriptor when a conversion is created. -/
structure build_answers where
  op_desc : mkldnn_primitive_desc_t
  desc0 : mkldnn_primitive_desc_t
  desc1 : mkldnn_primitive_desc_t
  desc_out : mkldnn_primitive_desc_t
  r0 : Option (mkldnn_primitive_desc_t × mkldnn_primitive_desc_t)
  r1 : Option (mkldnn_primitive_desc_t × mkldnn_primitive_desc_t)

/-- How a builder obtains the layout it binds to an input slot: from the
inherited descriptor when one is supplied, else from the default format tag. -/
def layout_bound (engine : mkldnn_engine_t) (input_pd : mkldnn_primitive_desc_t)
    (ndims : Int) (sizes : List Int) (fmt : mkldnn_memory_format_t)
    (desc : mkldnn_primitive_desc_t) : Prop :=
  (input_pd ≠ .null ∧
    engine.memory_primitive_desc_create (engine.primitive_desc_query_memory_d input_pd) =
      some desc) ∨
  (input_pd = .null ∧ ∃ md, engine.memory_desc_init ndims sizes .mkldnn_f32 fmt = some md ∧
    engine.memory_primitive_desc_create md = some desc)

/-- The decision taken for one input slot: no conversion when the engine's
equality check holds, else an internal layout and a reorder descriptor. -/
def conversion_decided (engine : mkldnn_engine_t) (desc kernel_pd : mkldnn_primitive_desc_t)
    (r : Option (mkldnn_primitive_desc_t × mkldnn_primitive_desc_t)) : Prop :=
  (engine.memory_primitive_desc_equal desc kernel_pd = true ∧ r = none) ∨
  (engine.memory_primitive_desc_equal desc kernel_pd = false ∧
    ∃ idesc rpd, r = some (idesc, rpd) ∧
      engine.memory_primitive_desc_create (engine.primitive_desc_query_memory_d kernel_pd) =
        some idesc ∧
      engine.reorder_primitive_desc_create desc kernel_pd = some rpd)

/-- State after lines 62-91 (174-242): compute descriptor stored, the three
tensors created, the counts set. -/
def built_tensors (mkl : mkl_dimensions) (a : build_answers) (w : World) : World :=
  { w with
    opkernel :=
      { w.opkernel with
        num_inputs := 2
        num_outputs := 1
        op_desc := a.op_desc
        inputs :=
          Function.update
            (Function.update w.opkernel.inputs 0
              ⟨4, mkl.mkl_src_sizes, a.desc0, w.primitives.length + 1,
                (w.opkernel.inputs 0).buffer⟩)
            1 ⟨4, mkl.mkl_weights_sizes, a.desc1, w.primitives.length + 2,
                (w.opkernel.inputs 1).buffer⟩
        outputs :=
          Function.update w.opkernel.outputs 0
            ⟨4, mkl.mkl_dst_sizes, a.desc_out, w.primitives.length + 3,
              (w.opkernel.outputs 0).buffer⟩ }
    primitives :=
      w.primitives ++ [⟨a.desc0, [], [], 0⟩, ⟨a.desc1, [], [], 0⟩, ⟨a.desc_out, [], [], 0⟩] }

/-- State after the reorder decision for input slot `k` (lines 94-105, 108-119). -/
def built_reorder (k : Nat) (sizes : List Int)
    (r : Option (mkldnn_primitive_desc_t × mkldnn_primitive_desc_t)) (w : World) : World :=
  match r with
  | none =>
    { w with opkernel := { w.opkernel with reorder_i := Function.update w.opkernel.reorder_i k 0 } }
  | some (idesc, rpd) =>
    { w with
      opkernel :=
        { w.opkernel with
          internal_inputs :=
            Function.update w.opkernel.internal_inputs k
              ⟨4, sizes, idesc, w.primitives.length + 1, (w.opkernel.internal_inputs k).buffer⟩
          reorder_i := Function.update w.opkernel.reorder_i k (w.primitives.length + 2) }
      primitives :=
        w.primitives ++
          [⟨idesc, [], [], 0⟩,
           ⟨rpd, [⟨(w.opkernel.inputs k).prim, 0⟩], [w.primitives.length + 1], 0⟩] }

/-- State after line 122: no reorder on the output side. -/
def built_reorder_o (w : World) : World :=
  { w with opkernel := { w.opkernel with reorder_o := Function.update w.opkernel.reorder_o 0 0 } }

/-- State after the scratch allocation for input slot `k` (lines 125-131, 132-138). -/
def built_scratch (host : host_t) (k : Nat) (nmemb : Int) (w : World) : World :=
  if w.opkernel.reorder_i k ≠ 0 then
    match deref w.primitives (w.opkernel.internal_inputs k).prim with
    | none => w
    | some q =>
      { w with
        opkernel :=
          { w.opkernel with
            internal_inputs :=
              Function.update w.opkernel.internal_inputs k
                { w.opkernel.internal_inputs k with
                  buffer := host.calloc w.callocs nmemb sizeof_float } }
        primitives :=
          w.primitives.set ((w.opkernel.internal_inputs k).prim - 1)
            { q with data_handle := host.calloc w.callocs nmemb sizeof_float }
        callocs :=
          w.callocs ++ [⟨nmemb, sizeof_float, host.calloc w.callocs nmemb sizeof_float⟩] }
  else w

/-- State after lines 140-156: the compute primitive is created. -/
def built_compute (w : World) : World :=
  { w with
    opkernel := { w.opkernel with op_prim := w.primitives.length + 1 }
    primitives :=
      w.primitives ++
        [⟨w.opkernel.op_desc,
          [⟨if w.opkernel.reorder_i 0 ≠ 0 then (w.opkernel.internal_inputs 0).prim
              else (w.opkernel.inputs 0).prim, 0⟩,
           ⟨if w.opkernel.reorder_i 1 ≠ 0 then (w.opkernel.internal_inputs 1).prim
              else (w.opkernel.inputs 0).prim, 0⟩],
          [(w.opkernel.outputs 0).prim], 0⟩] }

/-- The statement `net[net_size++] = x`. -/
def push_net (x : mkldnn_primitive_t) (o : mkldnn_opkernel) : mkldnn_opkernel :=
  { o with net := Function.update o.net o.net_size x, net_size := o.net_size + 1 }

/-- The statement `if (reorder_i[k]) net[net_size++] = reorder_i[k]`. -/
def push_reorder (k : Nat) (o : mkldnn_opkernel) : mkldnn_opkernel :=
  if o.reorder_i k ≠ 0 then push_net (o.reorder_i k) o else o

/-- State after lines 158-162: the plan is appended. -/
def built_net (w : World) : World :=
  { w with
    opkernel :=
      push_net (push_reorder 1 (push_reorder 0 w.opkernel)).op_prim
        (push_reorder 1 (push_reorder 0 w.opkernel)) }

/-- The state a successful build ends in. -/
def built_world (host : host_t) (src_dims weights_dims : Int)
    (conv_src_sizes conv_weights_sizes : List Int) (mkl : mkl_dimensions)
    (a : build_answers) (w : World) : World :=
  built_net (built_compute
    (built_scratch host 1 (product conv_weights_sizes weights_dims)
      (built_scratch host 0 (product conv_src_sizes src_dims)
        (built_reorder_o
          (built_reorder 1 mkl.mkl_weights_sizes a.r1
            (built_reorder 0 mkl.mkl_src_sizes a.r0 (built_tensors mkl a w)))))))

/-- The engine answers consistent with the code path a builder took. -/
structure build_accepted (engine : mkldnn_engine_t) (mkl : mkl_dimensions)
    (input_src_pd input_weights_pd : mkldnn_primitive_desc_t) (q_src q_dst : mkldnn_query_t)
    (a : build_answers) : Prop where
  bound0 : layout_bound engine input_src_pd 4 mkl.mkl_src_sizes .mkldnn_chwn a.desc0
  bound1 : layout_bound engine input_weights_pd 4 mkl.mkl_weights_sizes .mkldnn_ihwo a.desc1
  bound_out : engine.memory_primitive_desc_create (engine.primitive_desc_query_memory_d
    (engine.primitive_desc_query_pd a.op_desc q_dst 0)) = some a.desc_out
  decided0 : conversion_decided engine a.desc0
    (engine.primitive_desc_query_pd a.op_desc q_src 0) a.r0
  decided1 : conversion_decided engine a.desc1
    (engine.primitive_desc_query_pd a.op_desc .mkldnn_query_weights_pd 0) a.r1

/-- Either builder returned normally with final state `w'`.  `q_src` and `q_dst`
are the queries that builder sends to its compute descriptor for input slot 0
and for the output slot: `src`/`dst` forward, `diff_dst`/`diff_src`
backward-data (the weights query is the same in both). -/
def built_by (host : host_t) (engine : mkldnn_engine_t)
    (src_dims weights_dims dst_dims stride_dims pad_dims : Int)
    (conv_src_sizes conv_weights_sizes conv_dst_sizes conv_strides conv_padding : List Int)
    (input_src_pd input_weights_pd : mkldnn_primitive_desc_t)
    (q_src q_dst : mkldnn_query_t) (w w' : World) : Prop :=
  (create_mkldnn_conv_fprop_kernel host engine src_dims weights_dims dst_dims stride_dims
      pad_dims conv_src_sizes conv_weights_sizes conv_dst_sizes conv_strides conv_padding
      input_src_pd input_weights_pd w = Res.ok () w' ∧
    q_src = .mkldnn_query_src_pd ∧ q_dst = .mkldnn_query_dst_pd) ∨
  (create_mkldnn_conv_bprop_data_kernel host engine src_dims weights_dims dst_dims stride_dims
      pad_dims conv_src_sizes conv_weights_sizes conv_dst_sizes conv_strides conv_padding
      input_src_pd input_weights_pd w = Res.ok () w' ∧
    q_src = .mkldnn_query_diff_dst_pd ∧ q_dst = .mkldnn_query_diff_src_pd)

/-- The buffer bound to the primitive behind a handle (`0` when there is none). -/
def data_handle_of (primitives : List mkldnn_primitive) (p : mkldnn_primitive_t) : void_ptr :=
  match deref primitives p with
  | some q => q.data_handle
  | none => 0

/-- Number of primitives a conversion adds to the engine's store. -/
def conv_prims (r : Option (mkldnn_primitive_desc_t × mkldnn_primitive_desc_t)) : Nat :=
  if r.isSome then 2 else 0

/-! ## A concrete engine and host, for evaluating the functions -/

/-- Modelled from the spec: the layout-translation utility `set_mkl_dimensions`
of `mkldnn_util` (its body is not under src/), on the shapes evaluated here: a
5-axis logical shape (C, D, H, W, N) whose depth D is 1 is flattened and
reordered into the engine's 4 axes (N, C, H, W); the depth axis is dropped. -/
def flatten5 (s : List Int) : List Int :=
  [s.getD 4 0, s.getD 0 0, s.getD 2 0, s.getD 3 0]

/-- A host whose allocator hands out block `n + 1` at the `n`-th call. -/
def demo_host : host_t where
  set_mkl_dimensions src dst weights strides padding :=
    ⟨flatten5 src, flatten5 dst, flatten5 weights, strides.drop 1, padding.drop 1⟩
  calloc log _ _ := log.length + 1

/-- A memory descriptor with another layout tag. -/
def with_format (md : mkldnn_memory_desc_t) (f : mkldnn_memory_format_t) :
    mkldnn_memory_desc_t :=
  { md with format := f }

/-- An engine that requires layout `fs` for the primary operand and the result
and layout `fw` for the weights, and compares layouts structurally. -/
def demo_engine (fs fw : mkldnn_memory_format_t) : mkldnn_engine_t where
  memory_desc_init n dims dt f :=
    if n = dims.length ∧ dims.all (fun d => decide (0 < d)) then some ⟨n, dims, dt, f⟩ else none
  convolution_forward_desc_init pk ak s w b d st pl pr kind :=
    some (.forward pk ak s w b d st pl pr kind)
  convolution_backward_data_desc_init ak ds w dd st pl pr kind :=
    some (.backward_data ak ds w dd st pl pr kind)
  primitive_desc_create cd :=
    match cd with
    | .forward _ _ s w _ d _ _ _ _ =>
      some (.convolution cd (with_format s fs) (with_format w fw) (with_format d fs))
    | .backward_data _ ds w dd _ _ _ _ =>
      some (.convolution cd (with_format dd fs) (with_format w fw) (with_format ds fs))
  primitive_desc_query_pd pd what _ :=
    match pd, what with
    | .convolution _ s _ _, .mkldnn_query_src_pd => .memory s
    | .convolution _ s _ _, .mkldnn_query_diff_dst_pd => .memory s
    | .convolution _ _ w _, .mkldnn_query_weights_pd => .memory w
    | .convolution _ _ _ d, .mkldnn_query_dst_pd => .memory d
    | .convolution _ _ _ d, .mkldnn_query_diff_src_pd => .memory d
    | _, _ => .null
  primitive_desc_query_memory_d pd :=
    match pd with
    | .memory md => md
    | _ => ⟨0, [], .mkldnn_f32, .mkldnn_any⟩
  memory_primitive_desc_create md := some (.memory md)
  memory_primitive_desc_equal a b := decide (a = b)
  reorder_primitive_desc_create i o :=
    match i, o with
    | .memory a, .memory b => some (.reorder a b)
    | _, _ => none
  primitive_create _ _ _ := true
  memory_set_data_handle p _ :=
    match p.desc with
    | .memory _ => true
    | _ => false
  stream_submit _ _ := true

/-- A zero-initialised tensor. -/
def mkldnn_tensor.zero : mkldnn_tensor := ⟨0, [], .null, 0, 0⟩

/-- A zero-initialised kernel structure. -/
def mkldnn_opkernel.zero : mkldnn_opkernel where
  num_inputs := 0
  num_outputs := 0
  inputs _ := mkldnn_tensor.zero
  outputs _ := mkldnn_tensor.zero
  internal_inputs _ := mkldnn_tensor.zero
  op_desc := .null
  op_prim := 0
  reorder_i _ := 0
  reorder_o _ := 0
  net _ := 0
  net_size := 0

/-- A fresh process: zeroed kernel, no primitives, no allocations. -/
def World.fresh : World := ⟨mkldnn_opkernel.zero, [], [], []⟩

/-- An engine preferring a blocked layout for data and the default for weights. -/
def engine_a : mkldnn_engine_t := demo_engine (.other_format 8) .mkldnn_ihwo

/-- An engine preferring blocked layouts for data and for weights. -/
def engine_b : mkldnn_engine_t := demo_engine (.other_format 8) (.other_format 9)

/-- Forward build on a fresh kernel, engine `engine_a`, no inherited layouts:
source (C, D, H, W, N) = (3, 1, 8, 8, 2), weights (3, 1, 3, 3, 4). -/
def demo_fprop : Res Unit :=
  create_mkldnn_conv_fprop_kernel demo_host engine_a 5 5 5 3 3
    [3, 1, 8, 8, 2] [3, 1, 3, 3, 4] [4, 1, 8, 8, 2] [1, 1, 1] [0, 1, 1] .null .null World.fresh

/-- Backward-data build on a fresh kernel, engine `engine_b`, no inherited
layouts, same shapes. -/
def demo_bprop_data : Res Unit :=
  create_mkldnn_conv_bprop_data_kernel demo_host engine_b 5 5 5 3 3
    [3, 1, 8, 8, 2] [3, 1, 3, 3, 4] [4, 1, 8, 8, 2] [1, 1, 1] [0, 1, 1] .null .null World.fresh

/-- Backward-data build on a fresh kernel with engine `engine_a`. -/
def demo_bprop_data_a : Res Unit :=
  create_mkldnn_conv_bprop_data_kernel demo_host engine_a 5 5 5 3 3
    [3, 1, 8, 8, 2] [3, 1, 3, 3, 4] [4, 1, 8, 8, 2] [1, 1, 1] [0, 1, 1] .null .null World.fresh

/-- Forward build with an inherited source layout equal to the one `engine_b`
requires, and no inherited weights layout. -/
def demo_fprop_inherited : Res Unit :=
  create_mkldnn_conv_fprop_kernel demo_host engine_b 5 5 5 3 3
    [3, 1, 8, 8, 2] [3, 1, 3, 3, 4] [4, 1, 8, 8, 2] [1, 1, 1] [0, 1, 1]
    (.memory ⟨4, [2, 3, 8, 8], .mkldnn_f32, .other_format 8⟩) .null World.fresh

/-- Forward build called with rank argument `src_dims = 4` for 5 logical source
sizes. -/
def demo_fprop_rank : Res Unit :=
  create_mkldnn_conv_fprop_kernel demo_host engine_a 4 5 5 3 3
    [3, 1, 8, 8, 2] [3, 1, 3, 3, 4] [4, 1, 8, 8, 2] [1, 1, 1] [0, 1, 1] .null .null World.fresh

/-- The backward-data runner on the kernel of `demo_bprop_data`, with caller
buffers 101, 102, 103. -/
def demo_run : Res Unit :=
  run_mkldnn_conv_bprop_data_kernel engine_b 101 102 103 demo_bprop_data.world

/-- An engine that accepts every call and reports every pair of layouts
different, so that both inputs are converted. -/
def engine_any : mkldnn_engine_t where
  memory_desc_init n dims dt f := some ⟨n, dims, dt, f⟩
  convolution_forward_desc_init pk ak s w b d st pl pr kind :=
    some (.forward pk ak s w b d st pl pr kind)
  convolution_backward_data_desc_init ak ds w dd st pl pr kind :=
    some (.backward_data ak ds w dd st pl pr kind)
  primitive_desc_create cd :=
    match cd with
    | .forward _ _ s w _ d _ _ _ _ => some (.convolution cd s w d)
    | .backward_data _ ds w dd _ _ _ _ => some (.convolution cd dd w ds)
  primitive_desc_query_pd _ _ _ := .null
  primitive_desc_query_memory_d _ := ⟨0, [], .mkldnn_f32, .mkldnn_any⟩
  memory_primitive_desc_create md := some (.memory md)
  memory_primitive_desc_equal _ _ := false
  reorder_primitive_desc_create _ _ := some .null
  primitive_create _ _ _ := true
  memory_set_data_handle _ _ := true
  stream_submit _ _ := true

/-- The claim C8 for slot 0 and a given layout translation: whenever a
conversion is created for slot 0, the first scratch allocation of the build has
as many elements as the product of the 4 sizes of `inputs[0]`. -/
def scratch_holds_flattened_count (host : host_t) : Prop :=
  ∀ (engine : mkldnn_engine_t) (src_dims weights_dims dst_dims stride_dims pad_dims : Int)
    (conv_src_sizes conv_weights_sizes conv_dst_sizes conv_strides conv_padding : List Int)
    (input_src_pd input_weights_pd : mkldnn_primitive_desc_t)
    (q_src q_dst : mkldnn_query_t) (w w' : World),
    built_by host engine src_dims weights_dims dst_dims stride_dims pad_dims
      conv_src_sizes conv_weights_sizes conv_dst_sizes conv_strides conv_padding
      input_src_pd input_weights_pd q_src q_dst w w' →
    w'.opkernel.reorder_i 0 ≠ 0 →
    ∀ r, w'.callocs[w.callocs.length]? = some r →
      r.nmemb = product (w'.opkernel.inputs 0).sizes 4

/-! ## Failing builds, and the calls a returning build was granted -/

/-- The plan is untouched between two states: `net` and `net_size` are the same. -/
def keeps_net (w w' : World) : Prop :=
  w'.opkernel.net = w.opkernel.net ∧ w'.opkernel.net_size = w.opkernel.net_size

/-- A statement that leaves the plan untouched, whether it returns or exits. -/
def K.quiet {α : Type} (x : K α) : Prop := ∀ w, keeps_net w (x w).world

/-- A statement that leaves the plan untouched whenever it exits. -/
def K.exit_quiet {α : Type} (x : K α) : Prop := ∀ w w', x w = Res.exit w' → keeps_net w w'

/-- A statement that always returns. -/
def K.returns {α : Type} (x : K α) : Prop := ∀ w, ∃ a w', x w = Res.ok a w'

/-- The engine accepts the two primitives a conversion of input slot `k` creates
from state `w`: the internal memory primitive and the reorder primitive. -/
def reorder_accepted (engine : mkldnn_engine_t) (k : Nat)
    (r : Option (mkldnn_primitive_desc_t × mkldnn_primitive_desc_t)) (w : World) : Prop :=
  ∀ idesc rpd, r = some (idesc, rpd) →
    engine.primitive_create idesc [] [] = true ∧
    engine.primitive_create rpd [⟨(w.opkernel.inputs k).prim, 0⟩] [w.primitives.length + 1] = true

/-- The engine accepts the data-handle binding of the scratch buffer of input
slot `k` requested from state `w`, when that slot has a conversion. -/
def scratch_accepted (host : host_t) (engine : mkldnn_engine_t) (k : Nat) (nmemb : Int)
    (w : World) : Prop :=
  w.opkernel.reorder_i k ≠ 0 →
    ∃ q, deref w.primitives (w.opkernel.internal_inputs k).prim = some q ∧
      engine.memory_set_data_handle q (host.calloc w.callocs nmemb sizeof_float) = true

/-- The engine accepts the compute primitive created from state `w`. -/
def compute_accepted (engine : mkldnn_engine_t) (w : World) : Prop :=
  engine.primitive_create w.opkernel.op_desc
    [⟨if w.opkernel.reorder_i 0 ≠ 0 then (w.opkernel.internal_inputs 0).prim
        else (w.opkernel.inputs 0).prim, 0⟩,
     ⟨if w.opkernel.reorder_i 1 ≠ 0 then (w.opkernel.internal_inputs 1).prim
        else (w.opkernel.inputs 0).prim, 0⟩]
    [(w.opkernel.outputs 0).prim] = true

/-- Every `mkldnn_primitive_create` and `mkldnn_memory_set_data_handle` call on
the path of a build with answers `a` from state `w` is accepted by the engine. -/
structure calls_accepted (host : host_t) (engine : mkldnn_engine_t)
    (src_dims weights_dims : Int) (conv_src_sizes conv_weights_sizes : List Int)
    (mkl : mkl_dimensions) (a : build_answers) (w : World) : Prop where
  tensor0 : engine.primitive_create a.desc0 [] [] = true
  tensor1 : engine.primitive_create a.desc1 [] [] = true
  tensor_out : engine.primitive_create a.desc_out [] [] = true
  reorder0 : reorder_accepted engine 0 a.r0 (built_tensors mkl a w)
  reorder1 : reorder_accepted engine 1 a.r1
    (built_reorder 0 mkl.mkl_src_sizes a.r0 (built_tensors mkl a w))
  scratch0 : scratch_accepted host engine 0 (product conv_src_sizes src_dims)
    (built_reorder_o (built_reorder 1 mkl.mkl_weights_sizes a.r1
      (built_reorder 0 mkl.mkl_src_sizes a.r0 (built_tensors mkl a w))))
  scratch1 : scratch_accepted host engine 1 (product conv_weights_sizes weights_dims)
    (built_scratch host 0 (product conv_src_sizes src_dims)
      (built_reorder_o (built_reorder 1 mkl.mkl_weights_sizes a.r1
        (built_reorder 0 mkl.mkl_src_sizes a.r0 (built_tensors mkl a w)))))
  compute : compute_accepted engine
    (built_scratch host 1 (product conv_weights_sizes weights_dims)
      (built_scratch host 0 (product conv_src_sizes src_dims)
        (built_reorder_o (built_reorder 1 mkl.mkl_weights_sizes a.r1
          (built_reorder 0 mkl.mkl_src_sizes a.r0 (built_tensors mkl a w))))))


/-- Every engine call the forward builder makes from state `w` returns success:
the three memory-descriptor initialisations, the convolution-descriptor
initialisation, the primitive-descriptor creation, and the calls recorded by
`build_accepted` and `calls_accepted`. -/
def fprop_calls_accepted (host : host_t) (engine : mkldnn_engine_t)
    (src_dims weights_dims : Int)
    (conv_src_sizes conv_weights_sizes conv_dst_sizes conv_strides conv_padding : List Int)
    (input_src_pd input_weights_pd : mkldnn_primitive_desc_t) (w : World) : Prop :=
  ∃ src_md weights_md dst_md conv_desc a,
    engine.memory_desc_init 4 (host.set_mkl_dimensions conv_src_sizes conv_dst_sizes
      conv_weights_sizes conv_strides conv_padding).mkl_src_sizes .mkldnn_f32 .mkldnn_any =
        some src_md ∧
    engine.memory_desc_init 4 (host.set_mkl_dimensions conv_src_sizes conv_dst_sizes
      conv_weights_sizes conv_strides conv_padding).mkl_weights_sizes .mkldnn_f32 .mkldnn_any =
        some weights_md ∧
    engine.memory_desc_init 4 (host.set_mkl_dimensions conv_src_sizes conv_dst_sizes
      conv_weights_sizes conv_strides conv_padding).mkl_dst_sizes .mkldnn_f32 .mkldnn_any =
        some dst_md ∧
    engine.convolution_forward_desc_init .mkldnn_forward .mkldnn_convolution_direct
      src_md weights_md none dst_md
      (host.set_mkl_dimensions conv_src_sizes conv_dst_sizes
        conv_weights_sizes conv_strides conv_padding).mkl_strides
      (host.set_mkl_dimensions conv_src_sizes conv_dst_sizes
        conv_weights_sizes conv_strides conv_padding).mkl_padding
      (host.set_mkl_dimensions conv_src_sizes conv_dst_sizes
        conv_weights_sizes conv_strides conv_padding).mkl_padding
      .mkldnn_padding_zero = some conv_desc ∧
    engine.primitive_desc_create conv_desc = some a.op_desc ∧
    build_accepted engine (host.set_mkl_dimensions conv_src_sizes conv_dst_sizes
      conv_weights_sizes conv_strides conv_padding) input_src_pd input_weights_pd
      .mkldnn_query_src_pd .mkldnn_query_dst_pd a ∧
    calls_accepted host engine src_dims weights_dims conv_src_sizes conv_weights_sizes
      (host.set_mkl_dimensions conv_src_sizes conv_dst_sizes
        conv_weights_sizes conv_strides conv_padding) a w

/-- Every engine call the backward-data builder makes from state `w` returns
success. -/
def bprop_data_calls_accepted (host : host_t) (engine : mkldnn_engine_t)
    (src_dims weights_dims : Int)
    (conv_src_sizes conv_weights_sizes conv_dst_sizes conv_strides conv_padding : List Int)
    (input_src_pd input_weights_pd : mkldnn_primitive_desc_t) (w : World) : Prop :=
  ∃ src_md weights_md dst_md conv_desc a,
    engine.memory_desc_init 4 (host.set_mkl_dimensions conv_src_sizes conv_dst_sizes
      conv_weights_sizes conv_strides conv_padding).mkl_src_sizes .mkldnn_f32 .mkldnn_any =
        some src_md ∧
    engine.memory_desc_init 4 (host.set_mkl_dimensions conv_src_sizes conv_dst_sizes
      conv_weights_sizes conv_strides conv_padding).mkl_weights_sizes .mkldnn_f32 .mkldnn_any =
        some weights_md ∧
    engine.memory_desc_init 4 (host.set_mkl_dimensions conv_src_sizes conv_dst_sizes
      conv_weights_sizes conv_strides conv_padding).mkl_dst_sizes .mkldnn_f32 .mkldnn_any =
        some dst_md ∧
    engine.convolution_backward_data_desc_init .mkldnn_convolution_direct
      dst_md weights_md src_md
      (host.set_mkl_dimensions conv_src_sizes conv_dst_sizes
        conv_weights_sizes conv_strides conv_padding).mkl_strides
      (host.set_mkl_dimensions conv_src_sizes conv_dst_sizes
        conv_weights_sizes conv_strides conv_padding).mkl_padding
      (host.set_mkl_dimensions conv_src_sizes conv_dst_sizes
        conv_weights_sizes conv_strides conv_padding).mkl_padding
      .mkldnn_padding_zero = some conv_desc ∧
    engine.primitive_desc_create conv_desc = some a.op_desc ∧
    build_accepted engine (host.set_mkl_dimensions conv_src_sizes conv_dst_sizes
      conv_weights_sizes conv_strides conv_padding) input_src_pd input_weights_pd
      .mkldnn_query_diff_dst_pd .mkldnn_query_diff_src_pd a ∧
    calls_accepted host engine src_dims weights_dims conv_src_sizes conv_weights_sizes
      (host.set_mkl_dimensions conv_src_sizes conv_dst_sizes
        conv_weights_sizes conv_strides conv_padding) a w

/-! ## More builds to evaluate -/

/-- A host whose allocator always fails: `calloc` returns NULL. -/
def null_host : host_t :=
  { demo_host with calloc := fun _ _ _ => 0 }

/-- As `engine_b`, except that binding a NULL data handle is rejected. -/
def engine_strict : mkldnn_engine_t :=
  { engine_b with
    memory_set_data_handle := fun p handle =>
      decide (handle ≠ 0) && engine_b.memory_set_data_handle p handle }

/-- Forward build with the failing allocator and `engine_b`, which converts both
inputs and accepts every data handle. -/
def demo_fprop_no_memory : Res Unit :=
  create_mkldnn_conv_fprop_kernel null_host engine_b 5 5 5 3 3
    [3, 1, 8, 8, 2] [3, 1, 3, 3, 4] [4, 1, 8, 8, 2] [1, 1, 1] [0, 1, 1] .null .null World.fresh

/-- Backward-data build with the failing allocator and `engine_b`. -/
def demo_bprop_data_no_memory : Res Unit :=
  create_mkldnn_conv_bprop_data_kernel null_host engine_b 5 5 5 3 3
    [3, 1, 8, 8, 2] [3, 1, 3, 3, 4] [4, 1, 8, 8, 2] [1, 1, 1] [0, 1, 1] .null .null World.fresh

/-- The claim C12 for a given allocator and engine: no build returns with a
conversion whose scratch buffer is missing. -/
def allocation_failure_fatal (host : host_t) (engine : mkldnn_engine_t) : Prop :=
  ∀ (src_dims weights_dims dst_dims stride_dims pad_dims : Int)
    (conv_src_sizes conv_weights_sizes conv_dst_sizes conv_strides conv_padding : List Int)
    (input_src_pd input_weights_pd : mkldnn_primitive_desc_t)
    (q_src q_dst : mkldnn_query_t) (w w' : World),
    built_by host engine src_dims weights_dims dst_dims stride_dims pad_dims
      conv_src_sizes conv_weights_sizes conv_dst_sizes conv_strides conv_padding
      input_src_pd input_weights_pd q_src q_dst w w' →
    ∀ k, k < 2 → w'.opkernel.reorder_i k ≠ 0 → (w'.opkernel.internal_inputs k).buffer ≠ 0

/-- Forward build whose destination height is 0, as when the padding makes the
computed destination size non-positive; `engine_a` rejects the destination
memory descriptor. -/
def demo_fprop_rejected : Res Unit :=
  create_mkldnn_conv_fprop_kernel demo_host engine_a 5 5 5 3 3
    [3, 1, 8, 8, 2] [3, 1, 3, 3, 4] [4, 1, 0, 8, 2] [1, 1, 1] [0, 1, 1] .null .null World.fresh

/-- Forward build with the failing allocator and the engine that rejects a NULL
data handle. -/
def demo_fprop_strict : Res Unit :=
  create_mkldnn_conv_fprop_kernel null_host engine_strict 5 5 5 3 3
    [3, 1, 8, 8, 2] [3, 1, 3, 3, 4] [4, 1, 8, 8, 2] [1, 1, 1] [0, 1, 1] .null .null World.fresh

/-- Number of conversion steps a kernel holds for its two input slots: the
non-NULL entries among `reorder_i[0]` and `reorder_i[1]`. -/
def conversion_count (o : mkldnn_opkernel) : Nat :=
  (if o.reorder_i 0 ≠ 0 then 1 else 0) + (if o.reorder_i 1 ≠ 0 then 1 else 0)

/-- The steps a build appends: the conversion steps present, in slot order, then
the compute step. -/
def build_steps (o : mkldnn_opkernel) : List mkldnn_primitive_t :=
  (if o.reorder_i 0 ≠ 0 then [o.reorder_i 0] else []) ++
  (if o.reorder_i 1 ≠ 0 then [o.reorder_i 1] else []) ++ [o.op_prim]

/-- An engine requiring exactly the default layouts, so that nothing is
converted. -/
def engine_c : mkldnn_engine_t := demo_engine .mkldnn_chwn .mkldnn_ihwo

/-- Forward build on a fresh kernel with `engine_c`, no inherited layouts. -/
def demo_fprop_c : Res Unit :=
  create_mkldnn_conv_fprop_kernel demo_host engine_c 5 5 5 3 3
    [3, 1, 8, 8, 2] [3, 1, 3, 3, 4] [4, 1, 8, 8, 2] [1, 1, 1] [0, 1, 1] .null .null World.fresh

/-- Forward build on a fresh kernel with `engine_b`, no inherited layouts. -/
def demo_fprop_b : Res Unit :=
  create_mkldnn_conv_fprop_kernel demo_host engine_b 5 5 5 3 3
    [3, 1, 8, 8, 2] [3, 1, 3, 3, 4] [4, 1, 8, 8, 2] [1, 1, 1] [0, 1, 1] .null .null World.fresh

/-- A second forward build on the kernel left by `demo_fprop`, whose plan
already has two steps. -/
def demo_fprop_again : Res Unit :=
  create_mkldnn_conv_fprop_kernel demo_host engine_a 5 5 5 3 3
    [3, 1, 8, 8, 2] [3, 1, 3, 3, 4] [4, 1, 8, 8, 2] [1, 1, 1] [0, 1, 1] .null .null
    demo_fprop.world

/-! ## Stepping lemmas -/

theorem K.bind_assoc {α β γ : Type} (x : K α) (f : α → K β) (g : β → K γ) :
    (x >>= f) >>= g = x >>= fun a => f a >>= g := by
  funext w
  show (match (match x w with | Res.ok a w1 => f a w1 | Res.exit w1 => Res.exit w1) with
      | Res.ok b w2 => g b w2 | Res.exit w2 => Res.exit w2) =
    (match x w with | Res.ok a w1 => (f a >>= g) w1 | Res.exit w1 => Res.exit w1)
  cases x w <;> rfl

theorem K.bind_apply {α β : Type} (x : K α) (f : α → K β) (w : World) :
    (x >>= f) w = match x w with
      | Res.ok a w1 => f a w1
      | Res.exit w1 => Res.exit w1 := rfl

theorem K.pure_bind {α β : Type} (a : α) (f : α → K β) : (pure a >>= f) = f a := rfl

theorem K.pure_apply {α : Type} (a : α) (w : World) : (pure a : K α) w = Res.ok a w := rfl

theorem opkernel_bind {β : Type} (f : mkldnn_opkernel → K β) (w : World) :
    (opkernel >>= f) w = f w.opkernel w := rfl

theorem assign_bind {β : Type} (g : mkldnn_opkernel → mkldnn_opkernel) (f : Unit → K β)
    (w : World) : (assign g >>= f) w = f () { w with opkernel := g w.opkernel } := rfl

theorem MKL_CHECK_pure_bind {α β : Type} (o : Option α) (f : α → K β) (w : World) :
    (MKL_CHECK (pure o) >>= f) w =
      match o with
      | some a => f a w
      | none => Res.exit w := by
  cases o <;> rfl

theorem MKL_CHECK_primitive_create_bind {β : Type} (engine : mkldnn_engine_t)
    (pd : mkldnn_primitive_desc_t) (i : List mkldnn_primitive_at_t)
    (o : List mkldnn_primitive_t) (f : mkldnn_primitive_t → K β) (w : World) :
    (MKL_CHECK (mkldnn_primitive_create engine pd i o) >>= f) w =
      if engine.primitive_create pd i o = true then
        f (w.primitives.length + 1) { w with primitives := w.primitives ++ [⟨pd, i, o, 0⟩] }
      else Res.exit w := by
  rw [K.bind_apply]
  unfold MKL_CHECK mkldnn_primitive_create
  by_cases hb : engine.primitive_create pd i o = true <;> simp [hb]

theorem MKL_CHECK_set_data_handle_bind {β : Type} (engine : mkldnn_engine_t)
    (m : mkldnn_primitive_t) (p : void_ptr) (f : Unit → K β) (w : World) :
    (MKL_CHECK (mkldnn_memory_set_data_handle engine m p) >>= f) w =
      match deref w.primitives m with
      | none => Res.exit w
      | some q =>
        if engine.memory_set_data_handle q p = true then
          f () { w with primitives := w.primitives.set (m - 1) { q with data_handle := p } }
        else Res.exit w := by
  rw [K.bind_apply]
  unfold MKL_CHECK mkldnn_memory_set_data_handle
  cases deref w.primitives m with
  | none => rfl
  | some q => by_cases hb : engine.memory_set_data_handle q p = true <;> simp [hb]

theorem MKL_CHECK_set_data_handle_apply (engine : mkldnn_engine_t)
    (m : mkldnn_primitive_t) (p : void_ptr) (w : World) :
    MKL_CHECK (mkldnn_memory_set_data_handle engine m p) w =
      match deref w.primitives m with
      | none => Res.exit w
      | some q =>
        if engine.memory_set_data_handle q p = true then
          Res.ok () { w with primitives := w.primitives.set (m - 1) { q with data_handle := p } }
        else Res.exit w := by
  unfold MKL_CHECK mkldnn_memory_set_data_handle
  cases deref w.primitives m with
  | none => rfl
  | some q => by_cases hb : engine.memory_set_data_handle q p = true <;> simp [hb]

theorem calloc_bind {β : Type} (host : host_t) (n : Int) (s : Nat) (f : void_ptr → K β)
    (w : World) :
    (calloc host n s >>= f) w =
      f (host.calloc w.callocs n s)
        { w with callocs := w.callocs ++ [⟨n, s, host.calloc w.callocs n s⟩] } := rfl

theorem create_mkldnn_tensor_from_pd_bind {β : Type} (ndims : Int) (sizes : List Int)
    (md : mkldnn_memory_desc_t) (engine : mkldnn_engine_t) (r : tensor_ref)
    (f : Unit → K β) (w : World) :
    (create_mkldnn_tensor_from_pd ndims sizes md engine r >>= f) w =
      match engine.memory_primitive_desc_create md with
      | none =>
        Res.exit { w with opkernel := r.modify (fun t => { t with ndims := ndims, sizes := sizes }) w.opkernel }
      | some desc =>
        if engine.primitive_create desc [] [] = true then
          f () { w with
            opkernel := r.modify (fun t => ⟨ndims, sizes, desc, w.primitives.length + 1, t.buffer⟩) w.opkernel,
            primitives := w.primitives ++ [⟨desc, [], [], 0⟩] }
        else
          Res.exit { w with opkernel := r.modify (fun t => { t with ndims := ndims, sizes := sizes, desc := desc }) w.opkernel } := by
  simp only [create_mkldnn_tensor_from_pd, tensor_ref.assign, mkldnn_memory_primitive_desc_create,
    K.bind_assoc, assign_bind, MKL_CHECK_pure_bind, MKL_CHECK_primitive_create_bind]
  cases engine.memory_primitive_desc_create md with
  | none => rfl
  | some desc =>
    dsimp only
    cases r <;> (split <;> simp [tensor_ref.modify])
    

theorem create_mkldnn_tensor_bind {β : Type} (ndims : Int) (sizes : List Int)
    (dt : mkldnn_data_type_t) (fmt : mkldnn_memory_format_t) (engine : mkldnn_engine_t)
    (r : tensor_ref) (f : Unit → K β) (w : World) :
    (create_mkldnn_tensor ndims sizes dt fmt engine r >>= f) w =
      match engine.memory_desc_init ndims sizes dt fmt with
      | none =>
        Res.exit { w with opkernel := r.modify (fun t => { t with ndims := ndims, sizes := sizes }) w.opkernel }
      | some md =>
        match engine.memory_primitive_desc_create md with
        | none =>
          Res.exit { w with opkernel := r.modify (fun t => { t with ndims := ndims, sizes := sizes }) w.opkernel }
        | some desc =>
          if engine.primitive_create desc [] [] = true then
            f () { w with
              opkernel := r.modify (fun t => ⟨ndims, sizes, desc, w.primitives.length + 1, t.buffer⟩) w.opkernel,
              primitives := w.primitives ++ [⟨desc, [], [], 0⟩] }
          else
            Res.exit { w with opkernel := r.modify (fun t => { t with ndims := ndims, sizes := sizes, desc := desc }) w.opkernel } := by
  simp only [create_mkldnn_tensor, tensor_ref.assign, mkldnn_memory_primitive_desc_create,
    mkldnn_memory_desc_init,
    K.bind_assoc, assign_bind, MKL_CHECK_pure_bind, MKL_CHECK_primitive_create_bind]
  cases engine.memory_desc_init ndims sizes dt fmt with
  | none => rfl
  | some md =>
    dsimp only
    cases engine.memory_primitive_desc_create md with
    | none => rfl
    | some desc =>
      dsimp only
      cases r <;> (split <;> simp [tensor_ref.modify])

theorem deref_append (l r : List mkldnn_primitive) (k : Nat) :
    deref (l ++ r) (l.length + k + 1) = r[k]? := by
  simp [deref, List.getElem?_append_right]

theorem deref_append_zero (l r : List mkldnn_primitive) :
    deref (l ++ r) (l.length + 1) = r[0]? := deref_append l r 0

theorem MKL_CHECK_pure_bind_ok {α β : Type} (o : Option α) (f : α → K β) (w w' : World)
    (b : β) :
    (MKL_CHECK (pure o) >>= f) w = Res.ok b w' ↔ ∃ a, o = some a ∧ f a w = Res.ok b w' := by
  rw [MKL_CHECK_pure_bind]
  cases o <;> simp

theorem MKL_CHECK_primitive_create_bind_ok {β : Type} (engine : mkldnn_engine_t)
    (pd : mkldnn_primitive_desc_t) (i : List mkldnn_primitive_at_t)
    (o : List mkldnn_primitive_t) (f : mkldnn_primitive_t → K β) (w w' : World) (b : β) :
    (MKL_CHECK (mkldnn_primitive_create engine pd i o) >>= f) w = Res.ok b w' ↔
      engine.primitive_create pd i o = true ∧
        f (w.primitives.length + 1)
          { w with primitives := w.primitives ++ [⟨pd, i, o, 0⟩] } = Res.ok b w' := by
  rw [MKL_CHECK_primitive_create_bind]
  by_cases hb : engine.primitive_create pd i o = true <;> simp [hb]

theorem MKL_CHECK_set_data_handle_bind_ok {β : Type} (engine : mkldnn_engine_t)
    (m : mkldnn_primitive_t) (p : void_ptr) (f : Unit → K β) (w w' : World) (b : β) :
    (MKL_CHECK (mkldnn_memory_set_data_handle engine m p) >>= f) w = Res.ok b w' ↔
      ∃ q, deref w.primitives m = some q ∧ engine.memory_set_data_handle q p = true ∧
        f () { w with primitives := w.primitives.set (m - 1) { q with data_handle := p } } =
          Res.ok b w' := by
  rw [MKL_CHECK_set_data_handle_bind]
  cases deref w.primitives m with
  | none => simp
  | some q => by_cases hb : engine.memory_set_data_handle q p = true <;> simp [hb]

theorem MKL_CHECK_set_data_handle_ok (engine : mkldnn_engine_t)
    (m : mkldnn_primitive_t) (p : void_ptr) (w w' : World) (u : Unit) :
    MKL_CHECK (mkldnn_memory_set_data_handle engine m p) w = Res.ok u w' ↔
      ∃ q, deref w.primitives m = some q ∧ engine.memory_set_data_handle q p = true ∧
        { w with primitives := w.primitives.set (m - 1) { q with data_handle := p } } = w' := by
  rw [MKL_CHECK_set_data_handle_apply]
  cases deref w.primitives m with
  | none => simp
  | some q => by_cases hb : engine.memory_set_data_handle q p = true <;> simp [hb]

theorem create_mkldnn_tensor_from_pd_bind_ok {β : Type} (ndims : Int) (sizes : List Int)
    (md : mkldnn_memory_desc_t) (engine : mkldnn_engine_t) (r : tensor_ref)
    (f : Unit → K β) (w w' : World) (b : β) :
    (create_mkldnn_tensor_from_pd ndims sizes md engine r >>= f) w = Res.ok b w' ↔
      ∃ desc, engine.memory_primitive_desc_create md = some desc ∧
        engine.primitive_create desc [] [] = true ∧
        f () { w with
            opkernel := r.modify (fun t => ⟨ndims, sizes, desc, w.primitives.length + 1, t.buffer⟩) w.opkernel,
            primitives := w.primitives ++ [⟨desc, [], [], 0⟩] } = Res.ok b w' := by
  rw [create_mkldnn_tensor_from_pd_bind]
  cases engine.memory_primitive_desc_create md with
  | none => simp
  | some desc => by_cases hb : engine.primitive_create desc [] [] = true <;> simp [hb]

theorem create_mkldnn_tensor_bind_ok {β : Type} (ndims : Int) (sizes : List Int)
    (dt : mkldnn_data_type_t) (fmt : mkldnn_memory_format_t) (engine : mkldnn_engine_t)
    (r : tensor_ref) (f : Unit → K β) (w w' : World) (b : β) :
    (create_mkldnn_tensor ndims sizes dt fmt engine r >>= f) w = Res.ok b w' ↔
      ∃ md, engine.memory_desc_init ndims sizes dt fmt = some md ∧
      ∃ desc, engine.memory_primitive_desc_create md = some desc ∧
        engine.primitive_create desc [] [] = true ∧
        f () { w with
            opkernel := r.modify (fun t => ⟨ndims, sizes, desc, w.primitives.length + 1, t.buffer⟩) w.opkernel,
            primitives := w.primitives ++ [⟨desc, [], [], 0⟩] } = Res.ok b w' := by
  rw [create_mkldnn_tensor_bind]
  cases h1 : engine.memory_desc_init ndims sizes dt fmt with
  | none => simp
  | some md =>
    cases h2 : engine.memory_primitive_desc_create md with
    | none => simp [h2]
    | some desc => by_cases hb : engine.primitive_create desc [] [] = true <;> simp [h2, hb]

theorem assign_ok (g : mkldnn_opkernel → mkldnn_opkernel) (w w' : World) (u : Unit) :
    assign g w = Res.ok u w' ↔ { w with opkernel := g w.opkernel } = w' := by
  simp [assign]

theorem K.bind_ok_iff {α β : Type} (x : K α) (f : α → K β) (w w' : World) (b : β) :
    (x >>= f) w = Res.ok b w' ↔ ∃ a w1, x w = Res.ok a w1 ∧ f a w1 = Res.ok b w' := by
  rw [K.bind_apply]
  cases x w with
  | ok a w1 =>
    constructor
    · intro h
      exact ⟨a, w1, rfl, h⟩
    · rintro ⟨a2, w2, h1, h2⟩
      cases h1
      exact h2
  | exit w1 => simp

theorem K.bind_pure {α : Type} (x : K α) : x >>= pure = x := by
  funext w
  rw [K.bind_apply]
  cases x w <;> rfl

theorem K.pure_ok_iff {α : Type} (a b : α) (w w' : World) :
    (pure a : K α) w = Res.ok b w' ↔ a = b ∧ w = w' := by
  simp [K.pure_apply]

theorem create_mkldnn_tensor_from_pd_ok_iff (ndims : Int) (sizes : List Int)
    (md : mkldnn_memory_desc_t) (engine : mkldnn_engine_t) (r : tensor_ref)
    (w w' : World) (u : Unit) :
    create_mkldnn_tensor_from_pd ndims sizes md engine r w = Res.ok u w' ↔
      ∃ desc, engine.memory_primitive_desc_create md = some desc ∧
        engine.primitive_create desc [] [] = true ∧
        { w with
            opkernel := r.modify (fun t => ⟨ndims, sizes, desc, w.primitives.length + 1, t.buffer⟩) w.opkernel,
            primitives := w.primitives ++ [⟨desc, [], [], 0⟩] } = w' := by
  have h := create_mkldnn_tensor_from_pd_bind_ok ndims sizes md engine r pure w w' u
  simpa [K.pure_apply, K.bind_pure] using h

theorem create_mkldnn_tensor_ok_iff (ndims : Int) (sizes : List Int)
    (dt : mkldnn_data_type_t) (fmt : mkldnn_memory_format_t) (engine : mkldnn_engine_t)
    (r : tensor_ref) (w w' : World) (u : Unit) :
    create_mkldnn_tensor ndims sizes dt fmt engine r w = Res.ok u w' ↔
      ∃ md, engine.memory_desc_init ndims sizes dt fmt = some md ∧
      ∃ desc, engine.memory_primitive_desc_create md = some desc ∧
        engine.primitive_create desc [] [] = true ∧
        { w with
            opkernel := r.modify (fun t => ⟨ndims, sizes, desc, w.primitives.length + 1, t.buffer⟩) w.opkernel,
            primitives := w.primitives ++ [⟨desc, [], [], 0⟩] } = w' := by
  have h := create_mkldnn_tensor_bind_ok ndims sizes dt fmt engine r pure w w' u
  simpa [K.pure_apply, K.bind_pure] using h

theorem bind_input_ok (engine : mkldnn_engine_t) (input_pd : mkldnn_primitive_desc_t)
    (ndims : Int) (sizes : List Int) (fmt : mkldnn_memory_format_t) (r : tensor_ref)
    (w w' : World) (u : Unit)
    (h : (if input_pd ≠ .null then
        create_mkldnn_tensor_from_pd ndims sizes
          (mkldnn_primitive_desc_query_memory_d engine input_pd) engine r
      else create_mkldnn_tensor ndims sizes .mkldnn_f32 fmt engine r) w = Res.ok u w') :
    ∃ desc, layout_bound engine input_pd ndims sizes fmt desc ∧
      engine.primitive_create desc [] [] = true ∧
      w' = { w with
        opkernel := r.modify (fun t => ⟨ndims, sizes, desc, w.primitives.length + 1, t.buffer⟩) w.opkernel,
        primitives := w.primitives ++ [⟨desc, [], [], 0⟩] } := by
  by_cases hc : input_pd = .null
  · simp only [hc, ne_eq, not_true_eq_false, if_false, create_mkldnn_tensor_ok_iff] at h
    obtain ⟨md, h1, desc, h2, h3, h4⟩ := h
    exact ⟨desc, Or.inr ⟨hc, md, h1, h2⟩, h3, h4.symm⟩
  · simp only [ne_eq, hc, not_false_eq_true, if_true, create_mkldnn_tensor_from_pd_ok_iff,
      mkldnn_primitive_desc_query_memory_d] at h
    obtain ⟨desc, h2, h3, h4⟩ := h
    exact ⟨desc, Or.inl ⟨hc, h2⟩, h3, h4.symm⟩

theorem reorder_block_ok_calls (engine : mkldnn_engine_t) (k : Nat) (sizes : List Int)
    (kernel_pd d : mkldnn_primitive_desc_t) (w w' : World) (u : Unit)
    (h : (if (!mkldnn_memory_primitive_desc_equal engine d kernel_pd) = true
        then do
          let md := mkldnn_primitive_desc_query_memory_d engine kernel_pd
          create_mkldnn_tensor_from_pd 4 sizes md engine (.internal_inputs k)
          let reorder_pd ← MKL_CHECK (mkldnn_reorder_primitive_desc_create engine
            ((← opkernel).inputs k).desc kernel_pd)
          let inputs := [mkldnn_primitive_at ((← opkernel).inputs k).prim 0]
          let outputs := [((← opkernel).internal_inputs k).prim]
          let r ← MKL_CHECK (mkldnn_primitive_create engine reorder_pd inputs outputs)
          assign fun o => { o with reorder_i := Function.update o.reorder_i k r }
        else
          assign fun o => { o with reorder_i := Function.update o.reorder_i k 0 }) w =
      Res.ok u w')
    (hd : (w.opkernel.inputs k).desc = d) :
    ∃ r, conversion_decided engine (w.opkernel.inputs k).desc kernel_pd r ∧
      reorder_accepted engine k r w ∧ w' = built_reorder k sizes r w := by
  subst hd
  by_cases hc : engine.memory_primitive_desc_equal (w.opkernel.inputs k).desc kernel_pd = true
  · simp only [mkldnn_memory_primitive_desc_equal, hc, Bool.not_true, Bool.false_eq_true,
      if_false, assign_ok] at h
    exact ⟨none, Or.inl ⟨hc, rfl⟩, (by intro _ _ hr; cases hr), by rw [← h]; rfl⟩
  · have hc' : engine.memory_primitive_desc_equal (w.opkernel.inputs k).desc kernel_pd = false := by
      simpa using hc
    simp only [mkldnn_memory_primitive_desc_equal, hc', Bool.not_false, if_true,
      mkldnn_reorder_primitive_desc_create, mkldnn_primitive_desc_query_memory_d,
      create_mkldnn_tensor_from_pd_bind_ok, opkernel_bind, MKL_CHECK_pure_bind_ok,
      MKL_CHECK_primitive_create_bind_ok, assign_ok] at h
    obtain ⟨idesc, h1, h2, rpd, h3, h4, h5⟩ := h
    refine ⟨some (idesc, rpd), Or.inr ⟨hc', idesc, rpd, rfl, h1, ?_⟩, ?_, ?_⟩
    · simpa [tensor_ref.modify] using h3
    · intro i2 r2 hr
      cases hr
      exact ⟨h2, by simpa [tensor_ref.modify, mkldnn_primitive_at] using h4⟩
    · rw [← h5]
      simp [built_reorder, tensor_ref.modify, mkldnn_primitive_at]

theorem reorder_block_ok (engine : mkldnn_engine_t) (k : Nat) (sizes : List Int)
    (kernel_pd d : mkldnn_primitive_desc_t) (w w' : World) (u : Unit)
    (h : (if (!mkldnn_memory_primitive_desc_equal engine d kernel_pd) = true
        then do
          let md := mkldnn_primitive_desc_query_memory_d engine kernel_pd
          create_mkldnn_tensor_from_pd 4 sizes md engine (.internal_inputs k)
          let reorder_pd ← MKL_CHECK (mkldnn_reorder_primitive_desc_create engine
            ((← opkernel).inputs k).desc kernel_pd)
          let inputs := [mkldnn_primitive_at ((← opkernel).inputs k).prim 0]
          let outputs := [((← opkernel).internal_inputs k).prim]
          let r ← MKL_CHECK (mkldnn_primitive_create engine reorder_pd inputs outputs)
          assign fun o => { o with reorder_i := Function.update o.reorder_i k r }
        else
          assign fun o => { o with reorder_i := Function.update o.reorder_i k 0 }) w =
      Res.ok u w')
    (hd : (w.opkernel.inputs k).desc = d) :
    ∃ r, conversion_decided engine (w.opkernel.inputs k).desc kernel_pd r ∧
      w' = built_reorder k sizes r w := by
  obtain ⟨r, hr, -, e⟩ := reorder_block_ok_calls engine k sizes kernel_pd d w w' u h hd
  exact ⟨r, hr, e⟩
theorem scratch_block_ok_calls (host : host_t) (engine : mkldnn_engine_t) (k : Nat) (nmemb : Int)
    (ri : mkldnn_primitive_t) (w w' : World) (u : Unit)
    (h : (if ri ≠ 0 then do
          let tmp_buf ← calloc host nmemb sizeof_float
          (tensor_ref.internal_inputs k).assign fun t => { t with buffer := tmp_buf }
          MKL_CHECK (mkldnn_memory_set_data_handle engine ((← opkernel).internal_inputs k).prim
            tmp_buf)
        else pure ()) w = Res.ok u w')
    (hri : w.opkernel.reorder_i k = ri) :
    scratch_accepted host engine k nmemb w ∧ w' = built_scratch host k nmemb w := by
  subst hri
  by_cases hc : w.opkernel.reorder_i k = 0
  · simp only [hc, ne_eq, not_true_eq_false, if_false, K.pure_ok_iff] at h
    obtain ⟨-, rfl⟩ := h
    exact ⟨(by intro hn; exact absurd hc hn), by simp [built_scratch, hc]⟩
  · simp only [ne_eq, hc, not_false_eq_true, if_true, calloc_bind, tensor_ref.assign,
      assign_bind, opkernel_bind, MKL_CHECK_set_data_handle_ok] at h
    obtain ⟨q, h1, h2, h3⟩ := h
    simp only [tensor_ref.modify, Function.update_same] at h1 h3
    refine ⟨(by intro _; exact ⟨q, h1, h2⟩), ?_⟩
    rw [← h3]
    simp [built_scratch, hc, h1]

theorem scratch_block_ok (host : host_t) (engine : mkldnn_engine_t) (k : Nat) (nmemb : Int)
    (ri : mkldnn_primitive_t) (w w' : World) (u : Unit)
    (h : (if ri ≠ 0 then do
          let tmp_buf ← calloc host nmemb sizeof_float
          (tensor_ref.internal_inputs k).assign fun t => { t with buffer := tmp_buf }
          MKL_CHECK (mkldnn_memory_set_data_handle engine ((← opkernel).internal_inputs k).prim
            tmp_buf)
        else pure ()) w = Res.ok u w')
    (hri : w.opkernel.reorder_i k = ri) :
    w' = built_scratch host k nmemb w := by
  exact (scratch_block_ok_calls host engine k nmemb ri w w' u h hri).2
theorem push_block_ok (k : Nat) (ri : mkldnn_primitive_t) (w w' : World) (u : Unit)
    (h : (if ri ≠ 0 then
          assign fun o =>
            { o with net := Function.update o.net o.net_size (o.reorder_i k),
                     net_size := o.net_size + 1 }
        else pure ()) w = Res.ok u w')
    (hri : w.opkernel.reorder_i k = ri) :
    w' = { w with opkernel := push_reorder k w.opkernel } := by
  subst hri
  by_cases hc : w.opkernel.reorder_i k = 0
  · simp only [hc, ne_eq, not_true_eq_false, if_false, K.pure_ok_iff] at h
    obtain ⟨-, rfl⟩ := h
    simp [push_reorder, hc]
  · simp only [ne_eq, hc, not_false_eq_true, if_true, assign_ok] at h
    rw [← h]
    simp [push_reorder, hc, push_net]

theorem fprop_ok_calls (host : host_t) (engine : mkldnn_engine_t)
    (src_dims weights_dims dst_dims stride_dims pad_dims : Int)
    (conv_src_sizes conv_weights_sizes conv_dst_sizes conv_strides conv_padding : List Int)
    (input_src_pd input_weights_pd : mkldnn_primitive_desc_t) (w w' : World)
    (h : create_mkldnn_conv_fprop_kernel host engine src_dims weights_dims dst_dims
      stride_dims pad_dims conv_src_sizes conv_weights_sizes conv_dst_sizes conv_strides
      conv_padding input_src_pd input_weights_pd w = Res.ok () w') :
    ∃ src_md weights_md dst_md conv_desc a,
      engine.memory_desc_init 4 (host.set_mkl_dimensions conv_src_sizes conv_dst_sizes
        conv_weights_sizes conv_strides conv_padding).mkl_src_sizes .mkldnn_f32 .mkldnn_any =
          some src_md ∧
      engine.memory_desc_init 4 (host.set_mkl_dimensions conv_src_sizes conv_dst_sizes
        conv_weights_sizes conv_strides conv_padding).mkl_weights_sizes .mkldnn_f32 .mkldnn_any =
          some weights_md ∧
      engine.memory_desc_init 4 (host.set_mkl_dimensions conv_src_sizes conv_dst_sizes
        conv_weights_sizes conv_strides conv_padding).mkl_dst_sizes .mkldnn_f32 .mkldnn_any =
          some dst_md ∧
      engine.convolution_forward_desc_init .mkldnn_forward .mkldnn_convolution_direct
        src_md weights_md none dst_md
        (host.set_mkl_dimensions conv_src_sizes conv_dst_sizes
          conv_weights_sizes conv_strides conv_padding).mkl_strides
        (host.set_mkl_dimensions conv_src_sizes conv_dst_sizes
          conv_weights_sizes conv_strides conv_padding).mkl_padding
        (host.set_mkl_dimensions conv_src_sizes conv_dst_sizes
          conv_weights_sizes conv_strides conv_padding).mkl_padding
        .mkldnn_padding_zero = some conv_desc ∧
      engine.primitive_desc_create conv_desc = some a.op_desc ∧
      build_accepted engine (host.set_mkl_dimensions conv_src_sizes conv_dst_sizes
        conv_weights_sizes conv_strides conv_padding) input_src_pd input_weights_pd
        .mkldnn_query_src_pd .mkldnn_query_dst_pd a ∧
      calls_accepted host engine src_dims weights_dims conv_src_sizes conv_weights_sizes
        (host.set_mkl_dimensions conv_src_sizes conv_dst_sizes
          conv_weights_sizes conv_strides conv_padding) a w ∧
      w' = built_world host src_dims weights_dims conv_src_sizes conv_weights_sizes
        (host.set_mkl_dimensions conv_src_sizes conv_dst_sizes
          conv_weights_sizes conv_strides conv_padding) a w := by
  unfold create_mkldnn_conv_fprop_kernel at h
  simp only [mkldnn_memory_primitive_desc_create, mkldnn_memory_desc_init,
    mkldnn_convolution_forward_desc_init, mkldnn_primitive_desc_create,
    K.pure_bind, opkernel_bind, assign_bind, MKL_CHECK_pure_bind_ok] at h
  obtain ⟨src_md, h1, weights_md, h2, dst_md, h3, conv_desc, h4, op_desc, h5, h⟩ := h
  rw [K.bind_ok_iff] at h
  obtain ⟨_, w1, hB, h⟩ := h
  obtain ⟨desc0, hb0, hp0, e1⟩ := bind_input_ok _ _ _ _ _ _ _ _ _ hB
  clear hB
  rw [K.bind_ok_iff] at h
  obtain ⟨_, w2, hB, h⟩ := h
  obtain ⟨desc1, hb1, hp1, e2⟩ := bind_input_ok _ _ _ _ _ _ _ _ _ hB
  clear hB
  rw [K.bind_ok_iff] at h
  obtain ⟨_, w3, hB, h⟩ := h
  rw [create_mkldnn_tensor_from_pd_ok_iff] at hB
  obtain ⟨desc_out, hbo, hpo, e3⟩ := hB
  simp only [assign_bind, opkernel_bind] at h
  rw [K.bind_ok_iff] at h
  obtain ⟨_, w4, hB, h⟩ := h
  obtain ⟨r0, hr0, ha0, e4⟩ := reorder_block_ok_calls _ _ _ _ _ _ _ _ hB rfl
  clear hB
  simp only [opkernel_bind] at h
  rw [K.bind_ok_iff] at h
  obtain ⟨_, w5, hB, h⟩ := h
  obtain ⟨r1, hr1, ha1, e5⟩ := reorder_block_ok_calls _ _ _ _ _ _ _ _ hB rfl
  clear hB
  simp only [assign_bind, opkernel_bind] at h
  rw [K.bind_ok_iff] at h
  obtain ⟨_, w6, hB, h⟩ := h
  obtain ⟨hs0, e6⟩ := scratch_block_ok_calls _ _ _ _ _ _ _ _ hB rfl
  clear hB
  simp only [opkernel_bind] at h
  rw [K.bind_ok_iff] at h
  obtain ⟨_, w7, hB, h⟩ := h
  obtain ⟨hs1, e7⟩ := scratch_block_ok_calls _ _ _ _ _ _ _ _ hB rfl
  clear hB
  simp only [opkernel_bind, MKL_CHECK_primitive_create_bind_ok, assign_bind] at h
  obtain ⟨hpc, h⟩ := h
  rw [K.bind_ok_iff] at h
  obtain ⟨_, w8, hB, h⟩ := h
  have e8 := push_block_ok _ _ _ _ _ hB rfl
  clear hB
  simp only [opkernel_bind] at h
  rw [K.bind_ok_iff] at h
  obtain ⟨_, w9, hB, h⟩ := h
  have e9 := push_block_ok _ _ _ _ _ hB rfl
  clear hB
  simp only [assign_ok] at h
  refine ⟨src_md, weights_md, dst_md, conv_desc, ⟨op_desc, desc0, desc1, desc_out, r0, r1⟩,
    h1, h2, h3, h4, h5, ⟨hb0, hb1, ?_, ?_, ?_⟩, ?_, ?_⟩
  · simpa [mkldnn_primitive_desc_query_memory_d, mkldnn_primitive_desc_query_pd] using hbo
  · subst e1 e2 e3
    simpa [mkldnn_primitive_desc_query_pd, tensor_ref.modify] using hr0
  · subst e1 e2 e3 e4
    cases r0 <;> simpa [mkldnn_primitive_desc_query_pd, tensor_ref.modify, built_reorder] using hr1
  · have eS : ({ w3 with opkernel := { w3.opkernel with num_inputs := 2, num_outputs := 1 } } :
        World) = built_tensors (host.set_mkl_dimensions conv_src_sizes conv_dst_sizes
          conv_weights_sizes conv_strides conv_padding)
          ⟨op_desc, desc0, desc1, desc_out, r0, r1⟩ w := by
      subst e1 e2 e3
      simp [built_tensors, tensor_ref.modify]
    rw [eS] at e4 ha0
    subst e4 e5 e6 e7
    exact ⟨hp0, hp1, hpo, ha0, ha1, hs0, hs1, hpc⟩
  · have eS : ({ w3 with opkernel := { w3.opkernel with num_inputs := 2, num_outputs := 1 } } :
        World) = built_tensors (host.set_mkl_dimensions conv_src_sizes conv_dst_sizes
          conv_weights_sizes conv_strides conv_padding)
          ⟨op_desc, desc0, desc1, desc_out, r0, r1⟩ w := by
      subst e1 e2 e3
      simp [built_tensors, tensor_ref.modify]
    rw [eS] at e4
    subst e4 e5 e6 e7 e8 e9
    rw [← h]
    rfl

theorem fprop_ok (host : host_t) (engine : mkldnn_engine_t)
    (src_dims weights_dims dst_dims stride_dims pad_dims : Int)
    (conv_src_sizes conv_weights_sizes conv_dst_sizes conv_strides conv_padding : List Int)
    (input_src_pd input_weights_pd : mkldnn_primitive_desc_t) (w w' : World)
    (h : create_mkldnn_conv_fprop_kernel host engine src_dims weights_dims dst_dims
      stride_dims pad_dims conv_src_sizes conv_weights_sizes conv_dst_sizes conv_strides
      conv_padding input_src_pd input_weights_pd w = Res.ok () w') :
    ∃ src_md weights_md dst_md conv_desc a,
      engine.memory_desc_init 4 (host.set_mkl_dimensions conv_src_sizes conv_dst_sizes
        conv_weights_sizes conv_strides conv_padding).mkl_src_sizes .mkldnn_f32 .mkldnn_any =
          some src_md ∧
      engine.memory_desc_init 4 (host.set_mkl_dimensions conv_src_sizes conv_dst_sizes
        conv_weights_sizes conv_strides conv_padding).mkl_weights_sizes .mkldnn_f32 .mkldnn_any =
          some weights_md ∧
      engine.memory_desc_init 4 (host.set_mkl_dimensions conv_src_sizes conv_dst_sizes
        conv_weights_sizes conv_strides conv_padding).mkl_dst_sizes .mkldnn_f32 .mkldnn_any =
          some dst_md ∧
      engine.convolution_forward_desc_init .mkldnn_forward .mkldnn_convolution_direct
        src_md weights_md none dst_md
        (host.set_mkl_dimensions conv_src_sizes conv_dst_sizes
          conv_weights_sizes conv_strides conv_padding).mkl_strides
        (host.set_mkl_dimensions conv_src_sizes conv_dst_sizes
          conv_weights_sizes conv_strides conv_padding).mkl_padding
        (host.set_mkl_dimensions conv_src_sizes conv_dst_sizes
          conv_weights_sizes conv_strides conv_padding).mkl_padding
        .mkldnn_padding_zero = some conv_desc ∧
      engine.primitive_desc_create conv_desc = some a.op_desc ∧
      build_accepted engine (host.set_mkl_dimensions conv_src_sizes conv_dst_sizes
        conv_weights_sizes conv_strides conv_padding) input_src_pd input_weights_pd
        .mkldnn_query_src_pd .mkldnn_query_dst_pd a ∧
      w' = built_world host src_dims weights_dims conv_src_sizes conv_weights_sizes
        (host.set_mkl_dimensions conv_src_sizes conv_dst_sizes
          conv_weights_sizes conv_strides conv_padding) a w := by
  obtain ⟨src_md, weights_md, dst_md, conv_desc, a, h1, h2, h3, h4, h5, ha, -, hw⟩ :=
    fprop_ok_calls _ _ _ _ _ _ _ _ _ _ _ _ _ _ _ _ h
  exact ⟨src_md, weights_md, dst_md, conv_desc, a, h1, h2, h3, h4, h5, ha, hw⟩
theorem bprop_data_ok_calls (host : host_t) (engine : mkldnn_engine_t)
    (src_dims weights_dims dst_dims stride_dims pad_dims : Int)
    (conv_src_sizes conv_weights_sizes conv_dst_sizes conv_strides conv_padding : List Int)
    (input_src_pd input_weights_pd : mkldnn_primitive_desc_t) (w w' : World)
    (h : create_mkldnn_conv_bprop_data_kernel host engine src_dims weights_dims dst_dims
      stride_dims pad_dims conv_src_sizes conv_weights_sizes conv_dst_sizes conv_strides
      conv_padding input_src_pd input_weights_pd w = Res.ok () w') :
    ∃ src_md weights_md dst_md conv_desc a,
      engine.memory_desc_init 4 (host.set_mkl_dimensions conv_src_sizes conv_dst_sizes
        conv_weights_sizes conv_strides conv_padding).mkl_src_sizes .mkldnn_f32 .mkldnn_any =
          some src_md ∧
      engine.memory_desc_init 4 (host.set_mkl_dimensions conv_src_sizes conv_dst_sizes
        conv_weights_sizes conv_strides conv_padding).mkl_weights_sizes .mkldnn_f32 .mkldnn_any =
          some weights_md ∧
      engine.memory_desc_init 4 (host.set_mkl_dimensions conv_src_sizes conv_dst_sizes
        conv_weights_sizes conv_strides conv_padding).mkl_dst_sizes .mkldnn_f32 .mkldnn_any =
          some dst_md ∧
      engine.convolution_backward_data_desc_init .mkldnn_convolution_direct
        dst_md weights_md src_md
        (host.set_mkl_dimensions conv_src_sizes conv_dst_sizes
          conv_weights_sizes conv_strides conv_padding).mkl_strides
        (host.set_mkl_dimensions conv_src_sizes conv_dst_sizes
          conv_weights_sizes conv_strides conv_padding).mkl_padding
        (host.set_mkl_dimensions conv_src_sizes conv_dst_sizes
          conv_weights_sizes conv_strides conv_padding).mkl_padding
        .mkldnn_padding_zero = some conv_desc ∧
      engine.primitive_desc_create conv_desc = some a.op_desc ∧
      build_accepted engine (host.set_mkl_dimensions conv_src_sizes conv_dst_sizes
        conv_weights_sizes conv_strides conv_padding) input_src_pd input_weights_pd
        .mkldnn_query_diff_dst_pd .mkldnn_query_diff_src_pd a ∧
      calls_accepted host engine src_dims weights_dims conv_src_sizes conv_weights_sizes
        (host.set_mkl_dimensions conv_src_sizes conv_dst_sizes
          conv_weights_sizes conv_strides conv_padding) a w ∧
      w' = built_world host src_dims weights_dims conv_src_sizes conv_weights_sizes
        (host.set_mkl_dimensions conv_src_sizes conv_dst_sizes
          conv_weights_sizes conv_strides conv_padding) a w := by
  unfold create_mkldnn_conv_bprop_data_kernel at h
  simp only [mkldnn_memory_primitive_desc_create, mkldnn_memory_desc_init,
    mkldnn_convolution_backward_data_desc_init, mkldnn_primitive_desc_create,
    K.pure_bind, opkernel_bind, assign_bind, MKL_CHECK_pure_bind_ok] at h
  obtain ⟨src_md, h1, weights_md, h2, dst_md, h3, conv_desc, h4, op_desc, h5, h⟩ := h
  rw [K.bind_ok_iff] at h
  obtain ⟨_, w1, hB, h⟩ := h
  obtain ⟨desc0, hb0, hp0, e1⟩ := bind_input_ok _ _ _ _ _ _ _ _ _ hB
  clear hB
  rw [K.bind_ok_iff] at h
  obtain ⟨_, w2, hB, h⟩ := h
  obtain ⟨desc1, hb1, hp1, e2⟩ := bind_input_ok _ _ _ _ _ _ _ _ _ hB
  clear hB
  rw [K.bind_ok_iff] at h
  obtain ⟨_, w3, hB, h⟩ := h
  rw [create_mkldnn_tensor_from_pd_ok_iff] at hB
  obtain ⟨desc_out, hbo, hpo, e3⟩ := hB
  simp only [assign_bind, opkernel_bind] at h
  rw [K.bind_ok_iff] at h
  obtain ⟨_, w4, hB, h⟩ := h
  obtain ⟨r0, hr0, ha0, e4⟩ := reorder_block_ok_calls _ _ _ _ _ _ _ _ hB rfl
  clear hB
  simp only [opkernel_bind] at h
  rw [K.bind_ok_iff] at h
  obtain ⟨_, w5, hB, h⟩ := h
  obtain ⟨r1, hr1, ha1, e5⟩ := reorder_block_ok_calls _ _ _ _ _ _ _ _ hB rfl
  clear hB
  simp only [assign_bind, opkernel_bind] at h
  rw [K.bind_ok_iff] at h
  obtain ⟨_, w6, hB, h⟩ := h
  obtain ⟨hs0, e6⟩ := scratch_block_ok_calls _ _ _ _ _ _ _ _ hB rfl
  clear hB
  simp only [opkernel_bind] at h
  rw [K.bind_ok_iff] at h
  obtain ⟨_, w7, hB, h⟩ := h
  obtain ⟨hs1, e7⟩ := scratch_block_ok_calls _ _ _ _ _ _ _ _ hB rfl
  clear hB
  simp only [opkernel_bind, MKL_CHECK_primitive_create_bind_ok, assign_bind] at h
  obtain ⟨hpc, h⟩ := h
  rw [K.bind_ok_iff] at h
  obtain ⟨_, w8, hB, h⟩ := h
  have e8 := push_block_ok _ _ _ _ _ hB rfl
  clear hB
  simp only [opkernel_bind] at h
  rw [K.bind_ok_iff] at h
  obtain ⟨_, w9, hB, h⟩ := h
  have e9 := push_block_ok _ _ _ _ _ hB rfl
  clear hB
  simp only [assign_ok] at h
  refine ⟨src_md, weights_md, dst_md, conv_desc, ⟨op_desc, desc0, desc1, desc_out, r0, r1⟩,
    h1, h2, h3, h4, h5, ⟨hb0, hb1, ?_, ?_, ?_⟩, ?_, ?_⟩
  · simpa [mkldnn_primitive_desc_query_memory_d, mkldnn_primitive_desc_query_pd] using hbo
  · subst e1 e2 e3
    simpa [mkldnn_primitive_desc_query_pd, tensor_ref.modify] using hr0
  · subst e1 e2 e3 e4
    cases r0 <;> simpa [mkldnn_primitive_desc_query_pd, tensor_ref.modify, built_reorder] using hr1
  · have eS : ({ w3 with opkernel := { w3.opkernel with num_inputs := 2, num_outputs := 1 } } :
        World) = built_tensors (host.set_mkl_dimensions conv_src_sizes conv_dst_sizes
          conv_weights_sizes conv_strides conv_padding)
          ⟨op_desc, desc0, desc1, desc_out, r0, r1⟩ w := by
      subst e1 e2 e3
      simp [built_tensors, tensor_ref.modify]
    rw [eS] at e4 ha0
    subst e4 e5 e6 e7
    exact ⟨hp0, hp1, hpo, ha0, ha1, hs0, hs1, hpc⟩
  · have eS : ({ w3 with opkernel := { w3.opkernel with num_inputs := 2, num_outputs := 1 } } :
        World) = built_tensors (host.set_mkl_dimensions conv_src_sizes conv_dst_sizes
          conv_weights_sizes conv_strides conv_padding)
          ⟨op_desc, desc0, desc1, desc_out, r0, r1⟩ w := by
      subst e1 e2 e3
      simp [built_tensors, tensor_ref.modify]
    rw [eS] at e4
    subst e4 e5 e6 e7 e8 e9
    rw [← h]
    rfl


theorem bprop_data_ok (host : host_t) (engine : mkldnn_engine_t)
    (src_dims weights_dims dst_dims stride_dims pad_dims : Int)
    (conv_src_sizes conv_weights_sizes conv_dst_sizes conv_strides conv_padding : List Int)
    (input_src_pd input_weights_pd : mkldnn_primitive_desc_t) (w w' : World)
    (h : create_mkldnn_conv_bprop_data_kernel host engine src_dims weights_dims dst_dims
      stride_dims pad_dims conv_src_sizes conv_weights_sizes conv_dst_sizes conv_strides
      conv_padding input_src_pd input_weights_pd w = Res.ok () w') :
    ∃ src_md weights_md dst_md conv_desc a,
      engine.memory_desc_init 4 (host.set_mkl_dimensions conv_src_sizes conv_dst_sizes
        conv_weights_sizes conv_strides conv_padding).mkl_src_sizes .mkldnn_f32 .mkldnn_any =
          some src_md ∧
      engine.memory_desc_init 4 (host.set_mkl_dimensions conv_src_sizes conv_dst_sizes
        conv_weights_sizes conv_strides conv_padding).mkl_weights_sizes .mkldnn_f32 .mkldnn_any =
          some weights_md ∧
      engine.memory_desc_init 4 (host.set_mkl_dimensions conv_src_sizes conv_dst_sizes
        conv_weights_sizes conv_strides conv_padding).mkl_dst_sizes .mkldnn_f32 .mkldnn_any =
          some dst_md ∧
      engine.convolution_backward_data_desc_init .mkldnn_convolution_direct
        dst_md weights_md src_md
        (host.set_mkl_dimensions conv_src_sizes conv_dst_sizes
          conv_weights_sizes conv_strides conv_padding).mkl_strides
        (host.set_mkl_dimensions conv_src_sizes conv_dst_sizes
          conv_weights_sizes conv_strides conv_padding).mkl_padding
        (host.set_mkl_dimensions conv_src_sizes conv_dst_sizes
          conv_weights_sizes conv_strides conv_padding).mkl_padding
        .mkldnn_padding_zero = some conv_desc ∧
      engine.primitive_desc_create conv_desc = some a.op_desc ∧
      build_accepted engine (host.set_mkl_dimensions conv_src_sizes conv_dst_sizes
        conv_weights_sizes conv_strides conv_padding) input_src_pd input_weights_pd
        .mkldnn_query_diff_dst_pd .mkldnn_query_diff_src_pd a ∧
      w' = built_world host src_dims weights_dims conv_src_sizes conv_weights_sizes
        (host.set_mkl_dimensions conv_src_sizes conv_dst_sizes
          conv_weights_sizes conv_strides conv_padding) a w := by
  obtain ⟨src_md, weights_md, dst_md, conv_desc, a, h1, h2, h3, h4, h5, ha, -, hw⟩ :=
    bprop_data_ok_calls _ _ _ _ _ _ _ _ _ _ _ _ _ _ _ _ h
  exact ⟨src_md, weights_md, dst_md, conv_desc, a, h1, h2, h3, h4, h5, ha, hw⟩
theorem built_by_ok {host : host_t} {engine : mkldnn_engine_t}
    {src_dims weights_dims dst_dims stride_dims pad_dims : Int}
    {conv_src_sizes conv_weights_sizes conv_dst_sizes conv_strides conv_padding : List Int}
    {input_src_pd input_weights_pd : mkldnn_primitive_desc_t}
    {q_src q_dst : mkldnn_query_t} {w w' : World}
    (h : built_by host engine src_dims weights_dims dst_dims stride_dims pad_dims
      conv_src_sizes conv_weights_sizes conv_dst_sizes conv_strides conv_padding
      input_src_pd input_weights_pd q_src q_dst w w') :
    ∃ a, build_accepted engine (host.set_mkl_dimensions conv_src_sizes conv_dst_sizes
        conv_weights_sizes conv_strides conv_padding) input_src_pd input_weights_pd
        q_src q_dst a ∧
      w' = built_world host src_dims weights_dims conv_src_sizes conv_weights_sizes
        (host.set_mkl_dimensions conv_src_sizes conv_dst_sizes
          conv_weights_sizes conv_strides conv_padding) a w := by
  rcases h with ⟨h, rfl, rfl⟩ | ⟨h, rfl, rfl⟩
  · obtain ⟨_, _, _, _, a, _, _, _, _, _, ha, hw⟩ := fprop_ok _ _ _ _ _ _ _ _ _ _ _ _ _ _ _ _ h
    exact ⟨a, ha, hw⟩
  · obtain ⟨_, _, _, _, a, _, _, _, _, _, ha, hw⟩ :=
      bprop_data_ok _ _ _ _ _ _ _ _ _ _ _ _ _ _ _ _ h
    exact ⟨a, ha, hw⟩

/-! ## The state reached by a successful build, field by field -/

theorem plan_push_net (x : mkldnn_primitive_t) (o : mkldnn_opkernel) :
    (push_net x o).plan = o.plan ++ [x] := by
  simp only [mkldnn_opkernel.plan, push_net, List.range_succ, List.map_append, List.map_cons,
    List.map_nil, Function.update_same]
  congr 1
  apply List.map_congr_left
  intro i hi
  rw [List.mem_range] at hi
  rw [Function.update_noteq (by omega)]

theorem plan_push_reorder (k : Nat) (o : mkldnn_opkernel) :
    (push_reorder k o).plan = o.plan ++ (if o.reorder_i k ≠ 0 then [o.reorder_i k] else []) := by
  unfold push_reorder
  split <;> simp [plan_push_net]

section
variable {host : host_t} {src_dims weights_dims : Int}
  {conv_src_sizes conv_weights_sizes : List Int} {mkl : mkl_dimensions}
  {a : build_answers} {w w' : World}

theorem bw_op_desc
    (hw : w' = built_world host src_dims weights_dims conv_src_sizes conv_weights_sizes mkl a w) :
    w'.opkernel.op_desc = a.op_desc := by
  subst hw
  obtain ⟨op_desc, desc0, desc1, desc_out, r0, r1⟩ := a
  rcases r0 with _ | ⟨i0, p0⟩ <;> rcases r1 with _ | ⟨i1, p1⟩ <;>
    simp [built_world, built_net, built_compute, built_scratch, built_reorder_o, built_reorder,
      built_tensors, push_net, push_reorder, deref_append, deref_append_zero, conv_prims]

theorem bw_num_inputs
    (hw : w' = built_world host src_dims weights_dims conv_src_sizes conv_weights_sizes mkl a w) :
    w'.opkernel.num_inputs = 2 := by
  subst hw
  obtain ⟨op_desc, desc0, desc1, desc_out, r0, r1⟩ := a
  rcases r0 with _ | ⟨i0, p0⟩ <;> rcases r1 with _ | ⟨i1, p1⟩ <;>
    simp [built_world, built_net, built_compute, built_scratch, built_reorder_o, built_reorder,
      built_tensors, push_net, push_reorder, deref_append, deref_append_zero, conv_prims]

theorem bw_num_outputs
    (hw : w' = built_world host src_dims weights_dims conv_src_sizes conv_weights_sizes mkl a w) :
    w'.opkernel.num_outputs = 1 := by
  subst hw
  obtain ⟨op_desc, desc0, desc1, desc_out, r0, r1⟩ := a
  rcases r0 with _ | ⟨i0, p0⟩ <;> rcases r1 with _ | ⟨i1, p1⟩ <;>
    simp [built_world, built_net, built_compute, built_scratch, built_reorder_o, built_reorder,
      built_tensors, push_net, push_reorder, deref_append, deref_append_zero, conv_prims]

theorem bw_inputs0
    (hw : w' = built_world host src_dims weights_dims conv_src_sizes conv_weights_sizes mkl a w) :
    w'.opkernel.inputs 0 =
      ⟨4, mkl.mkl_src_sizes, a.desc0, w.primitives.length + 1, (w.opkernel.inputs 0).buffer⟩ := by
  subst hw
  obtain ⟨op_desc, desc0, desc1, desc_out, r0, r1⟩ := a
  rcases r0 with _ | ⟨i0, p0⟩ <;> rcases r1 with _ | ⟨i1, p1⟩ <;>
    simp [built_world, built_net, built_compute, built_scratch, built_reorder_o, built_reorder,
      built_tensors, push_net, push_reorder, deref_append, deref_append_zero, conv_prims]

theorem bw_inputs1
    (hw : w' = built_world host src_dims weights_dims conv_src_sizes conv_weights_sizes mkl a w) :
    w'.opkernel.inputs 1 =
      ⟨4, mkl.mkl_weights_sizes, a.desc1, w.primitives.length + 2,
        (w.opkernel.inputs 1).buffer⟩ := by
  subst hw
  obtain ⟨op_desc, desc0, desc1, desc_out, r0, r1⟩ := a
  rcases r0 with _ | ⟨i0, p0⟩ <;> rcases r1 with _ | ⟨i1, p1⟩ <;>
    simp [built_world, built_net, built_compute, built_scratch, built_reorder_o, built_reorder,
      built_tensors, push_net, push_reorder, deref_append, deref_append_zero, conv_prims]

theorem bw_outputs0
    (hw : w' = built_world host src_dims weights_dims conv_src_sizes conv_weights_sizes mkl a w) :
    w'.opkernel.outputs 0 =
      ⟨4, mkl.mkl_dst_sizes, a.desc_out, w.primitives.length + 3,
        (w.opkernel.outputs 0).buffer⟩ := by
  subst hw
  obtain ⟨op_desc, desc0, desc1, desc_out, r0, r1⟩ := a
  rcases r0 with _ | ⟨i0, p0⟩ <;> rcases r1 with _ | ⟨i1, p1⟩ <;>
    simp [built_world, built_net, built_compute, built_scratch, built_reorder_o, built_reorder,
      built_tensors, push_net, push_reorder, deref_append, deref_append_zero, conv_prims]

theorem bw_inputs_frame (k : Nat) (h0 : k ≠ 0) (h1 : k ≠ 1)
    (hw : w' = built_world host src_dims weights_dims conv_src_sizes conv_weights_sizes mkl a w) :
    w'.opkernel.inputs k = w.opkernel.inputs k := by
  subst hw
  obtain ⟨op_desc, desc0, desc1, desc_out, r0, r1⟩ := a
  rcases r0 with _ | ⟨i0, p0⟩ <;> rcases r1 with _ | ⟨i1, p1⟩ <;>
    simp [built_world, built_net, built_compute, built_scratch, built_reorder_o, built_reorder,
      built_tensors, push_net, push_reorder, deref_append, deref_append_zero, conv_prims, Function.update_apply, h0, h1]

theorem bw_outputs_frame (k : Nat) (h0 : k ≠ 0)
    (hw : w' = built_world host src_dims weights_dims conv_src_sizes conv_weights_sizes mkl a w) :
    w'.opkernel.outputs k = w.opkernel.outputs k := by
  subst hw
  obtain ⟨op_desc, desc0, desc1, desc_out, r0, r1⟩ := a
  rcases r0 with _ | ⟨i0, p0⟩ <;> rcases r1 with _ | ⟨i1, p1⟩ <;>
    simp [built_world, built_net, built_compute, built_scratch, built_reorder_o, built_reorder,
      built_tensors, push_net, push_reorder, deref_append, deref_append_zero, conv_prims, Function.update_apply, h0]

theorem bw_reorder_o0
    (hw : w' = built_world host src_dims weights_dims conv_src_sizes conv_weights_sizes mkl a w) :
    w'.opkernel.reorder_o 0 = 0 := by
  subst hw
  obtain ⟨op_desc, desc0, desc1, desc_out, r0, r1⟩ := a
  rcases r0 with _ | ⟨i0, p0⟩ <;> rcases r1 with _ | ⟨i1, p1⟩ <;>
    simp [built_world, built_net, built_compute, built_scratch, built_reorder_o, built_reorder,
      built_tensors, push_net, push_reorder, deref_append, deref_append_zero, conv_prims]

theorem bw_reorder_o_frame (k : Nat) (h0 : k ≠ 0)
    (hw : w' = built_world host src_dims weights_dims conv_src_sizes conv_weights_sizes mkl a w) :
    w'.opkernel.reorder_o k = w.opkernel.reorder_o k := by
  subst hw
  obtain ⟨op_desc, desc0, desc1, desc_out, r0, r1⟩ := a
  rcases r0 with _ | ⟨i0, p0⟩ <;> rcases r1 with _ | ⟨i1, p1⟩ <;>
    simp [built_world, built_net, built_compute, built_scratch, built_reorder_o, built_reorder,
      built_tensors, push_net, push_reorder, deref_append, deref_append_zero, conv_prims, Function.update_apply, h0]

theorem bw_reorder_i0
    (hw : w' = built_world host src_dims weights_dims conv_src_sizes conv_weights_sizes mkl a w) :
    w'.opkernel.reorder_i 0 = if a.r0.isSome then w.primitives.length + 5 else 0 := by
  subst hw
  obtain ⟨op_desc, desc0, desc1, desc_out, r0, r1⟩ := a
  rcases r0 with _ | ⟨i0, p0⟩ <;> rcases r1 with _ | ⟨i1, p1⟩ <;>
    simp [built_world, built_net, built_compute, built_scratch, built_reorder_o, built_reorder,
      built_tensors, push_net, push_reorder, deref_append, deref_append_zero, conv_prims]

theorem bw_reorder_i1
    (hw : w' = built_world host src_dims weights_dims conv_src_sizes conv_weights_sizes mkl a w) :
    w'.opkernel.reorder_i 1 =
      if a.r1.isSome then w.primitives.length + 5 + conv_prims a.r0 else 0 := by
  subst hw
  obtain ⟨op_desc, desc0, desc1, desc_out, r0, r1⟩ := a
  rcases r0 with _ | ⟨i0, p0⟩ <;> rcases r1 with _ | ⟨i1, p1⟩ <;>
    simp [built_world, built_net, built_compute, built_scratch, built_reorder_o, built_reorder,
      built_tensors, push_net, push_reorder, deref_append, deref_append_zero, conv_prims]

theorem bw_reorder_i_frame (k : Nat) (h0 : k ≠ 0) (h1 : k ≠ 1)
    (hw : w' = built_world host src_dims weights_dims conv_src_sizes conv_weights_sizes mkl a w) :
    w'.opkernel.reorder_i k = w.opkernel.reorder_i k := by
  subst hw
  obtain ⟨op_desc, desc0, desc1, desc_out, r0, r1⟩ := a
  rcases r0 with _ | ⟨i0, p0⟩ <;> rcases r1 with _ | ⟨i1, p1⟩ <;>
    simp [built_world, built_net, built_compute, built_scratch, built_reorder_o, built_reorder,
      built_tensors, push_net, push_reorder, deref_append, deref_append_zero, conv_prims, Function.update_apply, h0, h1]

theorem bw_internal_inputs0
    (hw : w' = built_world host src_dims weights_dims conv_src_sizes conv_weights_sizes mkl a w) :
    w'.opkernel.internal_inputs 0 =
      match a.r0 with
      | none => w.opkernel.internal_inputs 0
      | some (idesc, _) =>
        ⟨4, mkl.mkl_src_sizes, idesc, w.primitives.length + 4,
          host.calloc w.callocs (product conv_src_sizes src_dims) sizeof_float⟩ := by
  subst hw
  obtain ⟨op_desc, desc0, desc1, desc_out, r0, r1⟩ := a
  rcases r0 with _ | ⟨i0, p0⟩ <;> rcases r1 with _ | ⟨i1, p1⟩ <;>
    simp [built_world, built_net, built_compute, built_scratch, built_reorder_o, built_reorder,
      built_tensors, push_net, push_reorder, deref_append, deref_append_zero, conv_prims]

theorem bw_internal_inputs1
    (hw : w' = built_world host src_dims weights_dims conv_src_sizes conv_weights_sizes mkl a w) :
    w'.opkernel.internal_inputs 1 =
      match a.r1 with
      | none => w.opkernel.internal_inputs 1
      | some (idesc, _) =>
        ⟨4, mkl.mkl_weights_sizes, idesc, w.primitives.length + 4 + conv_prims a.r0,
          host.calloc
            (w.callocs ++
              if a.r0.isSome then
                [⟨product conv_src_sizes src_dims, sizeof_float,
                  host.calloc w.callocs (product conv_src_sizes src_dims) sizeof_float⟩]
              else [])
            (product conv_weights_sizes weights_dims) sizeof_float⟩ := by
  subst hw
  obtain ⟨op_desc, desc0, desc1, desc_out, r0, r1⟩ := a
  rcases r0 with _ | ⟨i0, p0⟩ <;> rcases r1 with _ | ⟨i1, p1⟩ <;>
    simp [built_world, built_net, built_compute, built_scratch, built_reorder_o, built_reorder,
      built_tensors, push_net, push_reorder, deref_append, deref_append_zero, conv_prims]

theorem bw_internal_inputs_frame (k : Nat) (h0 : k ≠ 0) (h1 : k ≠ 1)
    (hw : w' = built_world host src_dims weights_dims conv_src_sizes conv_weights_sizes mkl a w) :
    w'.opkernel.internal_inputs k = w.opkernel.internal_inputs k := by
  subst hw
  obtain ⟨op_desc, desc0, desc1, desc_out, r0, r1⟩ := a
  rcases r0 with _ | ⟨i0, p0⟩ <;> rcases r1 with _ | ⟨i1, p1⟩ <;>
    simp [built_world, built_net, built_compute, built_scratch, built_reorder_o, built_reorder,
      built_tensors, push_net, push_reorder, deref_append, deref_append_zero, conv_prims, Function.update_apply, h0, h1]

theorem bw_callocs
    (hw : w' = built_world host src_dims weights_dims conv_src_sizes conv_weights_sizes mkl a w) :
    w'.callocs =
      w.callocs ++
        (if a.r0.isSome then
          [⟨product conv_src_sizes src_dims, sizeof_float, (w'.opkernel.internal_inputs 0).buffer⟩]
        else []) ++
        (if a.r1.isSome then
          [⟨product conv_weights_sizes weights_dims, sizeof_float,
            (w'.opkernel.internal_inputs 1).buffer⟩]
        else []) := by
  subst hw
  obtain ⟨op_desc, desc0, desc1, desc_out, r0, r1⟩ := a
  rcases r0 with _ | ⟨i0, p0⟩ <;> rcases r1 with _ | ⟨i1, p1⟩ <;>
    simp [built_world, built_net, built_compute, built_scratch, built_reorder_o, built_reorder,
      built_tensors, push_net, push_reorder, deref_append, deref_append_zero, conv_prims]

theorem bw_op_prim
    (hw : w' = built_world host src_dims weights_dims conv_src_sizes conv_weights_sizes mkl a w) :
    w'.opkernel.op_prim = w.primitives.length + 4 + conv_prims a.r0 + conv_prims a.r1 := by
  subst hw
  obtain ⟨op_desc, desc0, desc1, desc_out, r0, r1⟩ := a
  rcases r0 with _ | ⟨i0, p0⟩ <;> rcases r1 with _ | ⟨i1, p1⟩ <;>
    simp [built_world, built_net, built_compute, built_scratch, built_reorder_o, built_reorder,
      built_tensors, push_net, push_reorder, deref_append, deref_append_zero, conv_prims]

theorem bw_primitives
    (hw : w' = built_world host src_dims weights_dims conv_src_sizes conv_weights_sizes mkl a w) :
    w'.primitives =
      w.primitives ++
        ([⟨a.desc0, [], [], 0⟩, ⟨a.desc1, [], [], 0⟩, ⟨a.desc_out, [], [], 0⟩] ++
        (match a.r0 with
          | none => []
          | some (idesc, rpd) =>
            [⟨idesc, [], [], (w'.opkernel.internal_inputs 0).buffer⟩,
             ⟨rpd, [⟨w.primitives.length + 1, 0⟩], [w.primitives.length + 4], 0⟩]) ++
        (match a.r1 with
          | none => []
          | some (idesc, rpd) =>
            [⟨idesc, [], [], (w'.opkernel.internal_inputs 1).buffer⟩,
             ⟨rpd, [⟨w.primitives.length + 2, 0⟩],
                [w.primitives.length + 4 + conv_prims a.r0], 0⟩]) ++
        [⟨a.op_desc,
          [⟨if a.r0.isSome then w.primitives.length + 4 else w.primitives.length + 1, 0⟩,
           ⟨if a.r1.isSome then w.primitives.length + 4 + conv_prims a.r0
              else w.primitives.length + 1, 0⟩],
          [w.primitives.length + 3], 0⟩]) := by
  subst hw
  obtain ⟨op_desc, desc0, desc1, desc_out, r0, r1⟩ := a
  rcases r0 with _ | ⟨i0, p0⟩ <;> rcases r1 with _ | ⟨i1, p1⟩ <;>
    simp [built_world, built_net, built_compute, built_scratch, built_reorder_o, built_reorder,
      built_tensors, push_net, push_reorder, deref_append, deref_append_zero, conv_prims]

theorem bw_net_size
    (hw : w' = built_world host src_dims weights_dims conv_src_sizes conv_weights_sizes mkl a w) :
    w'.opkernel.net_size =
      w.opkernel.net_size + (if a.r0.isSome then 1 else 0) + (if a.r1.isSome then 1 else 0) + 1 := by
  subst hw
  obtain ⟨op_desc, desc0, desc1, desc_out, r0, r1⟩ := a
  rcases r0 with _ | ⟨i0, p0⟩ <;> rcases r1 with _ | ⟨i1, p1⟩ <;>
    simp [built_world, built_net, built_compute, built_scratch, built_reorder_o, built_reorder,
      built_tensors, push_net, push_reorder, deref_append, deref_append_zero, conv_prims]

theorem bw_submitted
    (hw : w' = built_world host src_dims weights_dims conv_src_sizes conv_weights_sizes mkl a w) :
    w'.submitted = w.submitted := by
  subst hw
  obtain ⟨op_desc, desc0, desc1, desc_out, r0, r1⟩ := a
  rcases r0 with _ | ⟨i0, p0⟩ <;> rcases r1 with _ | ⟨i1, p1⟩ <;>
    simp [built_world, built_net, built_compute, built_scratch, built_reorder_o, built_reorder,
      built_tensors, push_net, push_reorder, deref_append, deref_append_zero, conv_prims]

theorem bw_plan
    (hw : w' = built_world host src_dims weights_dims conv_src_sizes conv_weights_sizes mkl a w) :
    w'.opkernel.plan =
      w.opkernel.plan ++
        (if a.r0.isSome then [w'.opkernel.reorder_i 0] else []) ++
        (if a.r1.isSome then [w'.opkernel.reorder_i 1] else []) ++ [w'.opkernel.op_prim] := by
  have hplan : w'.opkernel.plan =
      w.opkernel.plan ++
        (if w'.opkernel.reorder_i 0 ≠ 0 then [w'.opkernel.reorder_i 0] else []) ++
        (if w'.opkernel.reorder_i 1 ≠ 0 then [w'.opkernel.reorder_i 1] else []) ++
        [w'.opkernel.op_prim] := by
    subst hw
    obtain ⟨op_desc, desc0, desc1, desc_out, r0, r1⟩ := a
    simp only [built_world, built_net, plan_push_net, plan_push_reorder]
    rcases r0 with _ | ⟨i0, p0⟩ <;> rcases r1 with _ | ⟨i1, p1⟩ <;>
      simp [built_compute, built_scratch, built_reorder_o, built_reorder,
        built_tensors, push_net, push_reorder, deref_append, deref_append_zero,
        mkldnn_opkernel.plan]
  rw [hplan, bw_reorder_i0 hw, bw_reorder_i1 hw]
  cases a.r0 <;> cases a.r1 <;> simp

end

/-! ## A failing build leaves the plan alone -/

theorem keeps_net.refl (w : World) : keeps_net w w := ⟨rfl, rfl⟩

theorem keeps_net.trans {w1 w2 w3 : World} (h : keeps_net w1 w2) (h' : keeps_net w2 w3) :
    keeps_net w1 w3 := ⟨h'.1.trans h.1, h'.2.trans h.2⟩

theorem quiet_pure {α : Type} (a : α) : K.quiet (pure a : K α) := fun w => keeps_net.refl w

theorem quiet_opkernel : K.quiet opkernel := fun w => keeps_net.refl w

theorem quiet_assign (g : mkldnn_opkernel → mkldnn_opkernel)
    (hg : ∀ o, (g o).net = o.net ∧ (g o).net_size = o.net_size) : K.quiet (assign g) :=
  fun w => hg w.opkernel

theorem quiet_bind {α β : Type} {x : K α} {f : α → K β} (hx : K.quiet x)
    (hf : ∀ a, K.quiet (f a)) : K.quiet (x >>= f) := by
  intro w
  have h1 := hx w
  rw [K.bind_apply]
  cases h : x w with
  | ok a w1 =>
    rw [h] at h1
    exact h1.trans (hf a w1)
  | exit w1 =>
    rw [h] at h1
    exact h1

theorem quiet_ite {α : Type} {c : Prop} [Decidable c] {x y : K α} (hx : K.quiet x)
    (hy : K.quiet y) : K.quiet (if c then x else y) := by
  by_cases h : c <;> simp [h, hx, hy]

theorem quiet_MKL_CHECK {α : Type} {f : K (Option α)} (hf : K.quiet f) :
    K.quiet (MKL_CHECK f) := by
  intro w
  have h1 := hf w
  unfold MKL_CHECK
  cases h : f w with
  | ok a w1 =>
    rw [h] at h1
    cases a <;> exact h1
  | exit w1 =>
    rw [h] at h1
    exact h1

theorem quiet_primitive_create (engine : mkldnn_engine_t) (pd : mkldnn_primitive_desc_t)
    (inputs : List mkldnn_primitive_at_t) (outputs : List mkldnn_primitive_t) :
    K.quiet (mkldnn_primitive_create engine pd inputs outputs) := by
  intro w
  unfold mkldnn_primitive_create
  by_cases h : engine.primitive_create pd inputs outputs = true <;>
    simp [h, Res.world, keeps_net]

theorem quiet_set_data_handle (engine : mkldnn_engine_t) (memory : mkldnn_primitive_t)
    (handle : void_ptr) : K.quiet (mkldnn_memory_set_data_handle engine memory handle) := by
  intro w
  unfold mkldnn_memory_set_data_handle
  cases h : deref w.primitives memory with
  | none => simp [Res.world, keeps_net]
  | some p =>
    by_cases hb : engine.memory_set_data_handle p handle = true <;>
      simp [hb, Res.world, keeps_net]

theorem quiet_calloc (host : host_t) (nmemb : Int) (size : Nat) :
    K.quiet (calloc host nmemb size) := fun _ => ⟨rfl, rfl⟩

theorem quiet_tensor_assign (r : tensor_ref) (f : mkldnn_tensor → mkldnn_tensor) :
    K.quiet (r.assign f) := by
  intro w
  cases r <;> exact ⟨rfl, rfl⟩


theorem quiet_create_mkldnn_tensor_from_pd (ndims : Int) (sizes : List Int)
    (md : mkldnn_memory_desc_t) (engine : mkldnn_engine_t) (r : tensor_ref) :
    K.quiet (create_mkldnn_tensor_from_pd ndims sizes md engine r) := by
  unfold create_mkldnn_tensor_from_pd
  repeat' first
    | refine quiet_bind ?_ (fun _ => ?_)
    | apply quiet_MKL_CHECK
    | exact quiet_tensor_assign _ _
    | exact quiet_primitive_create _ _ _ _
    | exact quiet_pure _

theorem quiet_create_mkldnn_tensor (ndims : Int) (sizes : List Int)
    (data_type : mkldnn_data_type_t) (fmt : mkldnn_memory_format_t)
    (engine : mkldnn_engine_t) (r : tensor_ref) :
    K.quiet (create_mkldnn_tensor ndims sizes data_type fmt engine r) := by
  unfold create_mkldnn_tensor
  repeat' first
    | refine quiet_bind ?_ (fun _ => ?_)
    | apply quiet_MKL_CHECK
    | exact quiet_tensor_assign _ _
    | exact quiet_primitive_create _ _ _ _
    | exact quiet_pure _

theorem returns_pure {α : Type} (a : α) : K.returns (pure a : K α) := fun w => ⟨a, w, rfl⟩

theorem returns_opkernel : K.returns opkernel := fun w => ⟨_, w, rfl⟩

theorem returns_assign (g : mkldnn_opkernel → mkldnn_opkernel) : K.returns (assign g) :=
  fun _ => ⟨(), _, rfl⟩

theorem returns_bind {α β : Type} {x : K α} {f : α → K β} (hx : K.returns x)
    (hf : ∀ a, K.returns (f a)) : K.returns (x >>= f) := by
  intro w
  obtain ⟨a, w1, h⟩ := hx w
  obtain ⟨b, w2, h2⟩ := hf a w1
  exact ⟨b, w2, by rw [K.bind_apply, h]; exact h2⟩

theorem returns_ite {α : Type} {c : Prop} [Decidable c] {x y : K α} (hx : K.returns x)
    (hy : K.returns y) : K.returns (if c then x else y) := by
  by_cases h : c <;> simp [h, hx, hy]

theorem exit_quiet_of_returns {α : Type} {x : K α} (hx : K.returns x) : K.exit_quiet x := by
  intro w w' h
  obtain ⟨a, w1, h1⟩ := hx w
  rw [h1] at h
  cases h

theorem exit_quiet_bind {α β : Type} {x : K α} {f : α → K β} (hx : K.quiet x)
    (hf : ∀ a, K.exit_quiet (f a)) : K.exit_quiet (x >>= f) := by
  intro w w' h
  have h1 := hx w
  rw [K.bind_apply] at h
  cases hxw : x w with
  | ok a w1 =>
    rw [hxw] at h h1
    exact h1.trans (hf a w1 w' h)
  | exit w1 =>
    rw [hxw] at h h1
    cases h
    exact h1

theorem quiet_memory_desc_init (engine : mkldnn_engine_t) (ndims : Int) (dims : List Int)
    (data_type : mkldnn_data_type_t) (fmt : mkldnn_memory_format_t) :
    K.quiet (mkldnn_memory_desc_init engine ndims dims data_type fmt) := quiet_pure _

theorem quiet_convolution_forward_desc_init (engine : mkldnn_engine_t)
    (prop_kind : mkldnn_prop_kind_t) (alg_kind : mkldnn_alg_kind_t)
    (src_desc weights_desc : mkldnn_memory_desc_t) (bias_desc : Option mkldnn_memory_desc_t)
    (dst_desc : mkldnn_memory_desc_t) (strides padding_l padding_r : List Int)
    (padding_kind : mkldnn_padding_kind_t) :
    K.quiet (mkldnn_convolution_forward_desc_init engine prop_kind alg_kind src_desc
      weights_desc bias_desc dst_desc strides padding_l padding_r padding_kind) :=
  quiet_pure _

theorem quiet_convolution_backward_data_desc_init (engine : mkldnn_engine_t)
    (alg_kind : mkldnn_alg_kind_t) (diff_src_desc weights_desc diff_dst_desc : mkldnn_memory_desc_t)
    (strides padding_l padding_r : List Int) (padding_kind : mkldnn_padding_kind_t) :
    K.quiet (mkldnn_convolution_backward_data_desc_init engine alg_kind diff_src_desc
      weights_desc diff_dst_desc strides padding_l padding_r padding_kind) :=
  quiet_pure _

theorem quiet_primitive_desc_create (engine : mkldnn_engine_t)
    (op_desc : mkldnn_convolution_desc_t) :
    K.quiet (mkldnn_primitive_desc_create engine op_desc) := quiet_pure _

theorem quiet_memory_primitive_desc_create (engine : mkldnn_engine_t)
    (md : mkldnn_memory_desc_t) :
    K.quiet (mkldnn_memory_primitive_desc_create engine md) := quiet_pure _

theorem quiet_reorder_primitive_desc_create (engine : mkldnn_engine_t)
    (input output : mkldnn_primitive_desc_t) :
    K.quiet (mkldnn_reorder_primitive_desc_create engine input output) := quiet_pure _

theorem fprop_exit_quiet (host : host_t) (engine : mkldnn_engine_t)
    (src_dims weights_dims dst_dims stride_dims pad_dims : Int)
    (conv_src_sizes conv_weights_sizes conv_dst_sizes conv_strides conv_padding : List Int)
    (input_src_pd input_weights_pd : mkldnn_primitive_desc_t) :
    K.exit_quiet (create_mkldnn_conv_fprop_kernel host engine src_dims weights_dims dst_dims
      stride_dims pad_dims conv_src_sizes conv_weights_sizes conv_dst_sizes conv_strides
      conv_padding input_src_pd input_weights_pd) := by
  unfold create_mkldnn_conv_fprop_kernel
  dsimp only
  repeat' with_reducible first
    | focus
        apply exit_quiet_of_returns
        repeat' first
          | refine returns_bind ?_ (fun _ => ?_)
          | apply returns_ite
          | exact returns_pure _
          | exact returns_opkernel
          | exact returns_assign _
        done
    | refine exit_quiet_bind ?_ (fun _ => ?_)
    | refine quiet_bind ?_ (fun _ => ?_)
    | apply quiet_MKL_CHECK
    | apply quiet_ite
    | exact quiet_pure _
    | exact quiet_opkernel
    | exact quiet_assign _ (fun _ => ⟨rfl, rfl⟩)
    | exact quiet_tensor_assign _ _
    | exact quiet_primitive_create _ _ _ _
    | exact quiet_set_data_handle _ _ _
    | exact quiet_calloc _ _ _
    | exact quiet_create_mkldnn_tensor_from_pd _ _ _ _ _
    | exact quiet_create_mkldnn_tensor _ _ _ _ _ _
    | exact quiet_memory_desc_init _ _ _ _ _
    | exact quiet_convolution_forward_desc_init _ _ _ _ _ _ _ _ _ _ _
    | exact quiet_convolution_backward_data_desc_init _ _ _ _ _ _ _ _ _
    | exact quiet_primitive_desc_create _ _
    | exact quiet_reorder_primitive_desc_create _ _ _

theorem bprop_data_exit_quiet (host : host_t) (engine : mkldnn_engine_t)
    (src_dims weights_dims dst_dims stride_dims pad_dims : Int)
    (conv_src_sizes conv_weights_sizes conv_dst_sizes conv_strides conv_padding : List Int)
    (input_src_pd input_weights_pd : mkldnn_primitive_desc_t) :
    K.exit_quiet (create_mkldnn_conv_bprop_data_kernel host engine src_dims weights_dims dst_dims
      stride_dims pad_dims conv_src_sizes conv_weights_sizes conv_dst_sizes conv_strides
      conv_padding input_src_pd input_weights_pd) := by
  unfold create_mkldnn_conv_bprop_data_kernel
  dsimp only
  repeat' with_reducible first
    | focus
        apply exit_quiet_of_returns
        repeat' first
          | refine returns_bind ?_ (fun _ => ?_)
          | apply returns_ite
          | exact returns_pure _
          | exact returns_opkernel
          | exact returns_assign _
        done
    | refine exit_quiet_bind ?_ (fun _ => ?_)
    | refine quiet_bind ?_ (fun _ => ?_)
    | apply quiet_MKL_CHECK
    | apply quiet_ite
    | exact quiet_pure _
    | exact quiet_opkernel
    | exact quiet_assign _ (fun _ => ⟨rfl, rfl⟩)
    | exact quiet_tensor_assign _ _
    | exact quiet_primitive_create _ _ _ _
    | exact quiet_set_data_handle _ _ _
    | exact quiet_calloc _ _ _
    | exact quiet_create_mkldnn_tensor_from_pd _ _ _ _ _
    | exact quiet_create_mkldnn_tensor _ _ _ _ _ _
    | exact quiet_memory_desc_init _ _ _ _ _
    | exact quiet_convolution_forward_desc_init _ _ _ _ _ _ _ _ _ _ _
    | exact quiet_convolution_backward_data_desc_init _ _ _ _ _ _ _ _ _
    | exact quiet_primitive_desc_create _ _
    | exact quiet_reorder_primitive_desc_create _ _ _

/-! ## More on the state reached by a successful build -/

theorem built_by_ok_calls {host : host_t} {engine : mkldnn_engine_t}
    {src_dims weights_dims dst_dims stride_dims pad_dims : Int}
    {conv_src_sizes conv_weights_sizes conv_dst_sizes conv_strides conv_padding : List Int}
    {input_src_pd input_weights_pd : mkldnn_primitive_desc_t}
    {q_src q_dst : mkldnn_query_t} {w w' : World}
    (h : built_by host engine src_dims weights_dims dst_dims stride_dims pad_dims
      conv_src_sizes conv_weights_sizes conv_dst_sizes conv_strides conv_padding
      input_src_pd input_weights_pd q_src q_dst w w') :
    ∃ a, build_accepted engine (host.set_mkl_dimensions conv_src_sizes conv_dst_sizes
        conv_weights_sizes conv_strides conv_padding) input_src_pd input_weights_pd
        q_src q_dst a ∧
      calls_accepted host engine src_dims weights_dims conv_src_sizes conv_weights_sizes
        (host.set_mkl_dimensions conv_src_sizes conv_dst_sizes
          conv_weights_sizes conv_strides conv_padding) a w ∧
      w' = built_world host src_dims weights_dims conv_src_sizes conv_weights_sizes
        (host.set_mkl_dimensions conv_src_sizes conv_dst_sizes
          conv_weights_sizes conv_strides conv_padding) a w := by
  rcases h with ⟨h, rfl, rfl⟩ | ⟨h, rfl, rfl⟩
  · obtain ⟨_, _, _, _, a, _, _, _, _, _, ha, hc, hw⟩ :=
      fprop_ok_calls _ _ _ _ _ _ _ _ _ _ _ _ _ _ _ _ h
    exact ⟨a, ha, hc, hw⟩
  · obtain ⟨_, _, _, _, a, _, _, _, _, _, ha, hc, hw⟩ :=
      bprop_data_ok_calls _ _ _ _ _ _ _ _ _ _ _ _ _ _ _ _ h
    exact ⟨a, ha, hc, hw⟩

theorem layout_bound_unique {engine : mkldnn_engine_t} {input_pd : mkldnn_primitive_desc_t}
    {ndims : Int} {sizes : List Int} {fmt : mkldnn_memory_format_t}
    {d d' : mkldnn_primitive_desc_t}
    (h : layout_bound engine input_pd ndims sizes fmt d)
    (h' : layout_bound engine input_pd ndims sizes fmt d') : d = d' := by
  rcases h with ⟨hn, h1⟩ | ⟨hn, md, h1, h2⟩ <;> rcases h' with ⟨hn', h1'⟩ | ⟨hn', md', h1', h2'⟩
  · rw [h1] at h1'
    exact Option.some.inj h1'
  · exact absurd hn' hn
  · exact absurd hn hn'
  · rw [h1] at h1'
    cases h1'
    rw [h2] at h2'
    exact Option.some.inj h2'

theorem conversion_decided_unique {engine : mkldnn_engine_t}
    {desc kernel_pd : mkldnn_primitive_desc_t}
    {r r' : Option (mkldnn_primitive_desc_t × mkldnn_primitive_desc_t)}
    (h : conversion_decided engine desc kernel_pd r)
    (h' : conversion_decided engine desc kernel_pd r') : r = r' := by
  rcases h with ⟨he, rfl⟩ | ⟨he, i, p, rfl, h1, h2⟩ <;>
    rcases h' with ⟨he', rfl⟩ | ⟨he', i', p', rfl, h1', h2'⟩
  · rfl
  · rw [he] at he'
    cases he'
  · rw [he] at he'
    cases he'
  · rw [h1] at h1'
    rw [h2] at h2'
    cases h1'
    cases h2'
    rfl

theorem build_accepted_unique {engine : mkldnn_engine_t} {mkl : mkl_dimensions}
    {input_src_pd input_weights_pd : mkldnn_primitive_desc_t} {q_src q_dst : mkldnn_query_t}
    {a a' : build_answers}
    (h : build_accepted engine mkl input_src_pd input_weights_pd q_src q_dst a)
    (h' : build_accepted engine mkl input_src_pd input_weights_pd q_src q_dst a')
    (ho : a.op_desc = a'.op_desc) : a = a' := by
  obtain ⟨op_desc, desc0, desc1, desc_out, r0, r1⟩ := a
  obtain ⟨op_desc', desc0', desc1', desc_out', r0', r1'⟩ := a'
  obtain ⟨b0, b1, bo, c0, c1⟩ := h
  obtain ⟨b0', b1', bo', c0', c1'⟩ := h'
  simp only at ho b0 b1 bo c0 c1 b0' b1' bo' c0' c1'
  subst ho
  have e0 := layout_bound_unique b0 b0'
  have e1 := layout_bound_unique b1 b1'
  subst e0 e1
  rw [bo] at bo'
  cases bo'
  have f0 := conversion_decided_unique c0 c0'
  have f1 := conversion_decided_unique c1 c1'
  subst f0 f1
  rfl

section
variable {host : host_t} {src_dims weights_dims : Int}
  {conv_src_sizes conv_weights_sizes : List Int} {mkl : mkl_dimensions}
  {a : build_answers} {w w' : World}

theorem bw_net_frame (i : Nat) (hi : i < w.opkernel.net_size)
    (hw : w' = built_world host src_dims weights_dims conv_src_sizes conv_weights_sizes mkl a w) :
    w'.opkernel.net i = w.opkernel.net i := by
  subst hw
  have h0 : i ≠ w.opkernel.net_size := by omega
  have h1 : i ≠ w.opkernel.net_size + 1 := by omega
  have h2 : i ≠ w.opkernel.net_size + 2 := by omega
  obtain ⟨op_desc, desc0, desc1, desc_out, r0, r1⟩ := a
  rcases r0 with _ | ⟨i0, p0⟩ <;> rcases r1 with _ | ⟨i1, p1⟩ <;>
    simp [built_world, built_net, built_compute, built_scratch, built_reorder_o, built_reorder,
      built_tensors, push_net, push_reorder, deref_append, deref_append_zero, conv_prims,
      Function.update_apply, h0, h1, h2]

theorem bw_net_steps
    (hw : w' = built_world host src_dims weights_dims conv_src_sizes conv_weights_sizes mkl a w) :
    (List.range (w'.opkernel.net_size - w.opkernel.net_size)).map
        (fun i => w'.opkernel.net (w.opkernel.net_size + i)) =
      (if a.r0.isSome then [w'.opkernel.reorder_i 0] else []) ++
      (if a.r1.isSome then [w'.opkernel.reorder_i 1] else []) ++ [w'.opkernel.op_prim] := by
  have hl : w'.opkernel.net_size - w.opkernel.net_size =
      (if a.r0.isSome then 1 else 0) + (if a.r1.isSome then 1 else 0) + 1 := by
    rw [bw_net_size hw]
    omega
  rw [hl]
  subst hw
  obtain ⟨op_desc, desc0, desc1, desc_out, r0, r1⟩ := a
  rcases r0 with _ | ⟨i0, p0⟩ <;> rcases r1 with _ | ⟨i1, p1⟩ <;>
    simp [built_world, built_net, built_compute, built_scratch, built_reorder_o, built_reorder,
      built_tensors, push_net, push_reorder, deref_append, deref_append_zero, conv_prims,
      Function.update_apply, List.range_succ, Nat.add_assoc]

theorem calls_accepted_bound0 {engine : mkldnn_engine_t}
    (hc : calls_accepted host engine src_dims weights_dims conv_src_sizes conv_weights_sizes
      mkl a w)
    (hw : w' = built_world host src_dims weights_dims conv_src_sizes conv_weights_sizes mkl a w)
    (hr : w'.opkernel.reorder_i 0 ≠ 0) :
    engine.memory_set_data_handle ⟨(w'.opkernel.internal_inputs 0).desc, [], [], 0⟩
      (w'.opkernel.internal_inputs 0).buffer = true := by
  have h := hc.scratch0
  subst hw
  obtain ⟨op_desc, desc0, desc1, desc_out, r0, r1⟩ := a
  rcases r0 with _ | ⟨i0, p0⟩ <;> rcases r1 with _ | ⟨i1, p1⟩ <;>
    simp [scratch_accepted, built_world, built_net, built_compute, built_scratch,
      built_reorder_o, built_reorder,
      built_tensors, push_net, push_reorder, deref_append, deref_append_zero, conv_prims] at h hr ⊢ <;>
    exact h

theorem calls_accepted_bound1 {engine : mkldnn_engine_t}
    (hc : calls_accepted host engine src_dims weights_dims conv_src_sizes conv_weights_sizes
      mkl a w)
    (hw : w' = built_world host src_dims weights_dims conv_src_sizes conv_weights_sizes mkl a w)
    (hr : w'.opkernel.reorder_i 1 ≠ 0) :
    engine.memory_set_data_handle ⟨(w'.opkernel.internal_inputs 1).desc, [], [], 0⟩
      (w'.opkernel.internal_inputs 1).buffer = true := by
  have h := hc.scratch1
  subst hw
  obtain ⟨op_desc, desc0, desc1, desc_out, r0, r1⟩ := a
  rcases r0 with _ | ⟨i0, p0⟩ <;> rcases r1 with _ | ⟨i1, p1⟩ <;>
    simp [scratch_accepted, built_world, built_net, built_compute, built_scratch,
      built_reorder_o, built_reorder,
      built_tensors, push_net, push_reorder, deref_append, deref_append_zero, conv_prims] at h hr ⊢ <;>
    exact h

end

theorem built_by_same_answers {host : host_t} {engine : mkldnn_engine_t}
    {src_dims weights_dims dst_dims stride_dims pad_dims : Int}
    {conv_src_sizes conv_weights_sizes conv_dst_sizes conv_strides conv_padding : List Int}
    {input_src_pd input_weights_pd : mkldnn_primitive_desc_t}
    {q_src q_dst : mkldnn_query_t} {w1 w1' w2 w2' : World}
    (h1 : built_by host engine src_dims weights_dims dst_dims stride_dims pad_dims
      conv_src_sizes conv_weights_sizes conv_dst_sizes conv_strides conv_padding
      input_src_pd input_weights_pd q_src q_dst w1 w1')
    (h2 : built_by host engine src_dims weights_dims dst_dims stride_dims pad_dims
      conv_src_sizes conv_weights_sizes conv_dst_sizes conv_strides conv_padding
      input_src_pd input_weights_pd q_src q_dst w2 w2') :
    ∃ a, build_accepted engine (host.set_mkl_dimensions conv_src_sizes conv_dst_sizes
        conv_weights_sizes conv_strides conv_padding) input_src_pd input_weights_pd
        q_src q_dst a ∧
      w1' = built_world host src_dims weights_dims conv_src_sizes conv_weights_sizes
        (host.set_mkl_dimensions conv_src_sizes conv_dst_sizes
          conv_weights_sizes conv_strides conv_padding) a w1 ∧
      w2' = built_world host src_dims weights_dims conv_src_sizes conv_weights_sizes
        (host.set_mkl_dimensions conv_src_sizes conv_dst_sizes
          conv_weights_sizes conv_strides conv_padding) a w2 := by
  rcases h1 with ⟨h1, rfl, rfl⟩ | ⟨h1, rfl, rfl⟩
  · rcases h2 with ⟨h2, -, -⟩ | ⟨-, hq, -⟩
    · obtain ⟨s1, t1, d1, c1, a1, e1, e2, e3, e4, e5, ha1, hw1⟩ :=
        fprop_ok _ _ _ _ _ _ _ _ _ _ _ _ _ _ _ _ h1
      obtain ⟨s2, t2, d2, c2, a2, f1, f2, f3, f4, f5, ha2, hw2⟩ :=
        fprop_ok _ _ _ _ _ _ _ _ _ _ _ _ _ _ _ _ h2
      rw [e1] at f1
      rw [e2] at f2
      rw [e3] at f3
      cases f1
      cases f2
      cases f3
      rw [e4] at f4
      cases f4
      rw [e5] at f5
      have ho : a1.op_desc = a2.op_desc := Option.some.inj f5
      have ea := build_accepted_unique ha1 ha2 ho
      subst ea
      exact ⟨a1, ha1, hw1, hw2⟩
    · cases hq
  · rcases h2 with ⟨-, hq, -⟩ | ⟨h2, -, -⟩
    · cases hq
    · obtain ⟨s1, t1, d1, c1, a1, e1, e2, e3, e4, e5, ha1, hw1⟩ :=
        bprop_data_ok _ _ _ _ _ _ _ _ _ _ _ _ _ _ _ _ h1
      obtain ⟨s2, t2, d2, c2, a2, f1, f2, f3, f4, f5, ha2, hw2⟩ :=
        bprop_data_ok _ _ _ _ _ _ _ _ _ _ _ _ _ _ _ _ h2
      rw [e1] at f1
      rw [e2] at f2
      rw [e3] at f3
      cases f1
      cases f2
      cases f3
      rw [e4] at f4
      cases f4
      rw [e5] at f5
      have ho : a1.op_desc = a2.op_desc := Option.some.inj f5
      have ea := build_accepted_unique ha1 ha2 ho
      subst ea
      exact ⟨a1, ha1, hw1, hw2⟩

theorem built_world_op_desc (host : host_t) (src_dims weights_dims : Int)
    (conv_src_sizes conv_weights_sizes : List Int) (mkl : mkl_dimensions)
    (a : build_answers) (op_desc : mkldnn_primitive_desc_t) (w : World) :
    (built_world host src_dims weights_dims conv_src_sizes conv_weights_sizes mkl
        { a with op_desc := op_desc } w).opkernel =
      { (built_world host src_dims weights_dims conv_src_sizes conv_weights_sizes mkl
          a w).opkernel with op_desc := op_desc } ∧
    (built_world host src_dims weights_dims conv_src_sizes conv_weights_sizes mkl
        { a with op_desc := op_desc } w).callocs =
      (built_world host src_dims weights_dims conv_src_sizes conv_weights_sizes mkl
        a w).callocs ∧
    (built_world host src_dims weights_dims conv_src_sizes conv_weights_sizes mkl
        { a with op_desc := op_desc } w).submitted =
      (built_world host src_dims weights_dims conv_src_sizes conv_weights_sizes mkl
        a w).submitted ∧
    (built_world host src_dims weights_dims conv_src_sizes conv_weights_sizes mkl
        { a with op_desc := op_desc } w).primitives.dropLast =
      (built_world host src_dims weights_dims conv_src_sizes conv_weights_sizes mkl
        a w).primitives.dropLast ∧
    (built_world host src_dims weights_dims conv_src_sizes conv_weights_sizes mkl
        { a with op_desc := op_desc } w).primitives.map
          (fun q => (q.inputs, q.outputs, q.data_handle)) =
      (built_world host src_dims weights_dims conv_src_sizes conv_weights_sizes mkl
        a w).primitives.map (fun q => (q.inputs, q.outputs, q.data_handle)) := by
  obtain ⟨od, desc0, desc1, desc_out, r0, r1⟩ := a
  rcases r0 with _ | ⟨i0, p0⟩ <;> rcases r1 with _ | ⟨i1, p1⟩ <;>
    simp [built_world, built_net, built_compute, built_scratch, built_reorder_o, built_reorder,
      built_tensors, push_net, push_reorder, deref_append, deref_append_zero, conv_prims,
      List.dropLast_append_cons]

/-! ## A build returns exactly when every engine call is accepted -/

theorem bind_input_returns (engine : mkldnn_engine_t) (input_pd : mkldnn_primitive_desc_t)
    (ndims : Int) (sizes : List Int) (fmt : mkldnn_memory_format_t) (r : tensor_ref)
    (w : World) (desc : mkldnn_primitive_desc_t)
    (hb : layout_bound engine input_pd ndims sizes fmt desc)
    (hp : engine.primitive_create desc [] [] = true) :
    (if input_pd ≠ .null then
        create_mkldnn_tensor_from_pd ndims sizes
          (mkldnn_primitive_desc_query_memory_d engine input_pd) engine r
      else create_mkldnn_tensor ndims sizes .mkldnn_f32 fmt engine r) w =
    Res.ok () { w with
        opkernel := r.modify (fun t => ⟨ndims, sizes, desc, w.primitives.length + 1, t.buffer⟩) w.opkernel,
        primitives := w.primitives ++ [⟨desc, [], [], 0⟩] } := by
  rcases hb with ⟨hc, h2⟩ | ⟨hc, md, h1, h2⟩
  · simp only [ne_eq, hc, not_false_eq_true, if_true, create_mkldnn_tensor_from_pd_ok_iff,
      mkldnn_primitive_desc_query_memory_d]
    exact ⟨desc, h2, hp, rfl⟩
  · simp only [hc, ne_eq, not_true_eq_false, if_false, create_mkldnn_tensor_ok_iff]
    exact ⟨md, h1, desc, h2, hp, rfl⟩

theorem reorder_block_returns (engine : mkldnn_engine_t) (k : Nat) (sizes : List Int)
    (kernel_pd d : mkldnn_primitive_desc_t) (w : World)
    (r : Option (mkldnn_primitive_desc_t × mkldnn_primitive_desc_t))
    (hd : (w.opkernel.inputs k).desc = d)
    (hr : conversion_decided engine d kernel_pd r)
    (ha : reorder_accepted engine k r w) :
    (if (!mkldnn_memory_primitive_desc_equal engine d kernel_pd) = true
        then do
          let md := mkldnn_primitive_desc_query_memory_d engine kernel_pd
          create_mkldnn_tensor_from_pd 4 sizes md engine (.internal_inputs k)
          let reorder_pd ← MKL_CHECK (mkldnn_reorder_primitive_desc_create engine
            ((← opkernel).inputs k).desc kernel_pd)
          let inputs := [mkldnn_primitive_at ((← opkernel).inputs k).prim 0]
          let outputs := [((← opkernel).internal_inputs k).prim]
          let r ← MKL_CHECK (mkldnn_primitive_create engine reorder_pd inputs outputs)
          assign fun o => { o with reorder_i := Function.update o.reorder_i k r }
        else
          assign fun o => { o with reorder_i := Function.update o.reorder_i k 0 }) w =
      Res.ok () (built_reorder k sizes r w) := by
  subst hd
  rcases hr with ⟨hc, rfl⟩ | ⟨hc, idesc, rpd, rfl, h1, h3⟩
  · simp only [mkldnn_memory_primitive_desc_equal, hc, Bool.not_true, Bool.false_eq_true,
      if_false, assign_ok]
    rfl
  · obtain ⟨h2, h4⟩ := ha idesc rpd rfl
    simp only [mkldnn_memory_primitive_desc_equal, hc, Bool.not_false, if_true,
      mkldnn_reorder_primitive_desc_create, mkldnn_primitive_desc_query_memory_d,
      create_mkldnn_tensor_from_pd_bind_ok, opkernel_bind, MKL_CHECK_pure_bind_ok,
      MKL_CHECK_primitive_create_bind_ok, assign_ok]
    refine ⟨idesc, h1, h2, rpd, ?_, ?_, ?_⟩
    · simpa [tensor_ref.modify] using h3
    · simpa [tensor_ref.modify, mkldnn_primitive_at] using h4
    · simp [built_reorder, tensor_ref.modify, mkldnn_primitive_at]

theorem scratch_block_returns (host : host_t) (engine : mkldnn_engine_t) (k : Nat)
    (nmemb : Int) (ri : mkldnn_primitive_t) (w : World)
    (hri : w.opkernel.reorder_i k = ri)
    (ha : scratch_accepted host engine k nmemb w) :
    (if ri ≠ 0 then do
          let tmp_buf ← calloc host nmemb sizeof_float
          (tensor_ref.internal_inputs k).assign fun t => { t with buffer := tmp_buf }
          MKL_CHECK (mkldnn_memory_set_data_handle engine ((← opkernel).internal_inputs k).prim
            tmp_buf)
        else pure ()) w = Res.ok () (built_scratch host k nmemb w) := by
  subst hri
  by_cases hc : w.opkernel.reorder_i k = 0
  · simp only [hc, ne_eq, not_true_eq_false, if_false, K.pure_ok_iff]
    simp [built_scratch, hc]
  · obtain ⟨q, h1, h2⟩ := ha hc
    simp only [ne_eq, hc, not_false_eq_true, if_true, calloc_bind, tensor_ref.assign,
      assign_bind, opkernel_bind, MKL_CHECK_set_data_handle_ok]
    refine ⟨q, ?_, h2, ?_⟩
    · simpa [tensor_ref.modify] using h1
    · simp [built_scratch, hc, h1, tensor_ref.modify]

theorem push_block_returns (k : Nat) (ri : mkldnn_primitive_t) (w : World)
    (hri : w.opkernel.reorder_i k = ri) :
    (if ri ≠ 0 then
          assign fun o =>
            { o with net := Function.update o.net o.net_size (o.reorder_i k),
                     net_size := o.net_size + 1 }
        else pure ()) w = Res.ok () { w with opkernel := push_reorder k w.opkernel } := by
  subst hri
  by_cases hc : w.opkernel.reorder_i k = 0
  · simp only [hc, ne_eq, not_true_eq_false, if_false, K.pure_ok_iff]
    simp [push_reorder, hc]
  · simp only [ne_eq, hc, not_false_eq_true, if_true, assign_ok]
    simp [push_reorder, hc, push_net]


theorem Res.ok_named {α : Type} {x : Res α} {b : α} {W : World} (h : x = Res.ok b W) :
    ∃ w1, w1 = W ∧ x = Res.ok b w1 := ⟨W, rfl, h⟩

theorem fprop_returns (host : host_t) (engine : mkldnn_engine_t)
    (src_dims weights_dims dst_dims stride_dims pad_dims : Int)
    (conv_src_sizes conv_weights_sizes conv_dst_sizes conv_strides conv_padding : List Int)
    (input_src_pd input_weights_pd : mkldnn_primitive_desc_t) (w : World)
    (src_md weights_md dst_md : mkldnn_memory_desc_t) (conv_desc : mkldnn_convolution_desc_t)
    (a : build_answers)
    (h1 : engine.memory_desc_init 4 (host.set_mkl_dimensions conv_src_sizes conv_dst_sizes
        conv_weights_sizes conv_strides conv_padding).mkl_src_sizes .mkldnn_f32 .mkldnn_any =
          some src_md)
    (h2 : engine.memory_desc_init 4 (host.set_mkl_dimensions conv_src_sizes conv_dst_sizes
        conv_weights_sizes conv_strides conv_padding).mkl_weights_sizes .mkldnn_f32 .mkldnn_any =
          some weights_md)
    (h3 : engine.memory_desc_init 4 (host.set_mkl_dimensions conv_src_sizes conv_dst_sizes
        conv_weights_sizes conv_strides conv_padding).mkl_dst_sizes .mkldnn_f32 .mkldnn_any =
          some dst_md)
    (h4 : engine.convolution_forward_desc_init .mkldnn_forward .mkldnn_convolution_direct
        src_md weights_md none dst_md
        (host.set_mkl_dimensions conv_src_sizes conv_dst_sizes
          conv_weights_sizes conv_strides conv_padding).mkl_strides
        (host.set_mkl_dimensions conv_src_sizes conv_dst_sizes
          conv_weights_sizes conv_strides conv_padding).mkl_padding
        (host.set_mkl_dimensions conv_src_sizes conv_dst_sizes
          conv_weights_sizes conv_strides conv_padding).mkl_padding
        .mkldnn_padding_zero = some conv_desc)
    (h5 : engine.primitive_desc_create conv_desc = some a.op_desc)
    (ha : build_accepted engine (host.set_mkl_dimensions conv_src_sizes conv_dst_sizes
        conv_weights_sizes conv_strides conv_padding) input_src_pd input_weights_pd
        .mkldnn_query_src_pd .mkldnn_query_dst_pd a)
    (hc : calls_accepted host engine src_dims weights_dims conv_src_sizes conv_weights_sizes
        (host.set_mkl_dimensions conv_src_sizes conv_dst_sizes
          conv_weights_sizes conv_strides conv_padding) a w) :
    create_mkldnn_conv_fprop_kernel host engine src_dims weights_dims dst_dims
      stride_dims pad_dims conv_src_sizes conv_weights_sizes conv_dst_sizes conv_strides
      conv_padding input_src_pd input_weights_pd w =
    Res.ok () (built_world host src_dims weights_dims conv_src_sizes conv_weights_sizes
        (host.set_mkl_dimensions conv_src_sizes conv_dst_sizes
          conv_weights_sizes conv_strides conv_padding) a w) := by
  unfold create_mkldnn_conv_fprop_kernel
  simp only [mkldnn_memory_primitive_desc_create, mkldnn_memory_desc_init,
    mkldnn_convolution_forward_desc_init, mkldnn_primitive_desc_create,
    K.pure_bind, opkernel_bind, assign_bind, MKL_CHECK_pure_bind_ok]
  refine ⟨src_md, h1, weights_md, h2, dst_md, h3, conv_desc, h4, a.op_desc, h5, ?_⟩
  generalize host.set_mkl_dimensions conv_src_sizes conv_dst_sizes conv_weights_sizes
    conv_strides conv_padding = mkl at ha hc ⊢
  obtain ⟨b0, b1, bo, c0, c1⟩ := ha
  obtain ⟨t0, t1, tout, a0, a1, s0, s1, hcomp⟩ := hc
  rw [K.bind_ok_iff]
  obtain ⟨w1, e1, hB⟩ := Res.ok_named
    (bind_input_returns engine input_src_pd 4 mkl.mkl_src_sizes .mkldnn_chwn
      (.inputs 0) { w with opkernel := { w.opkernel with op_desc := a.op_desc } }
      a.desc0 b0 t0)
  refine ⟨(), w1, hB, ?_⟩
  clear hB
  rw [K.bind_ok_iff]
  obtain ⟨w2, e2, hB⟩ := Res.ok_named
    (bind_input_returns engine input_weights_pd 4 mkl.mkl_weights_sizes .mkldnn_ihwo
      (.inputs 1) w1 a.desc1 b1 t1)
  refine ⟨(), w2, hB, ?_⟩
  clear hB
  rw [K.bind_ok_iff]
  obtain ⟨w3, e3, hB⟩ := Res.ok_named
    ((create_mkldnn_tensor_from_pd_ok_iff 4 mkl.mkl_dst_sizes
      (mkldnn_primitive_desc_query_memory_d engine
        (mkldnn_primitive_desc_query_pd engine a.op_desc .mkldnn_query_dst_pd 0))
      engine (.outputs 0) w2 _ ()).2 ⟨a.desc_out, bo, tout, rfl⟩)
  refine ⟨(), w3, hB, ?_⟩
  clear hB
  simp only [assign_bind, opkernel_bind]
  have eS : ({ w3 with opkernel := { w3.opkernel with num_inputs := 2, num_outputs := 1 } } :
      World) = built_tensors mkl a w := by
    subst e1 e2 e3
    simp [built_tensors, tensor_ref.modify]
  have d0 : (w3.opkernel.inputs 0).desc = a.desc0 := by
    subst e1 e2 e3
    simp [tensor_ref.modify]
  simp only [eS, d0]
  rw [K.bind_ok_iff]
  refine ⟨(), _, reorder_block_returns engine 0 _ _ _ _ a.r0 (by simp [built_tensors]) c0 a0, ?_⟩
  simp only [opkernel_bind]
  have d1 : ((built_reorder 0 mkl.mkl_src_sizes a.r0 (built_tensors mkl a w)).opkernel.inputs
      1).desc = a.desc1 := by
    cases a.r0 <;> simp [built_reorder, built_tensors]
  simp only [d1]
  rw [K.bind_ok_iff]
  refine ⟨(), _, reorder_block_returns engine 1 _ _ _ _ a.r1 d1 c1 a1, ?_⟩
  simp only [assign_bind, opkernel_bind]
  rw [K.bind_ok_iff]
  refine ⟨(), _, scratch_block_returns host engine 0 _ _ _ rfl s0, ?_⟩
  simp only [opkernel_bind]
  rw [K.bind_ok_iff]
  refine ⟨(), _, scratch_block_returns host engine 1 _ _ _ rfl s1, ?_⟩
  simp only [opkernel_bind, MKL_CHECK_primitive_create_bind_ok, assign_bind]
  refine ⟨hcomp, ?_⟩
  rw [K.bind_ok_iff]
  refine ⟨(), _, push_block_returns 0 _ _ rfl, ?_⟩
  simp only [opkernel_bind]
  rw [K.bind_ok_iff]
  refine ⟨(), _, push_block_returns 1 _ _ rfl, ?_⟩
  simp only [assign_ok]
  rfl

theorem bprop_data_returns (host : host_t) (engine : mkldnn_engine_t)
    (src_dims weights_dims dst_dims stride_dims pad_dims : Int)
    (conv_src_sizes conv_weights_sizes conv_dst_sizes conv_strides conv_padding : List Int)
    (input_src_pd input_weights_pd : mkldnn_primitive_desc_t) (w : World)
    (src_md weights_md dst_md : mkldnn_memory_desc_t) (conv_desc : mkldnn_convolution_desc_t)
    (a : build_answers)
    (h1 : engine.memory_desc_init 4 (host.set_mkl_dimensions conv_src_sizes conv_dst_sizes
        conv_weights_sizes conv_strides conv_padding).mkl_src_sizes .mkldnn_f32 .mkldnn_any =
          some src_md)
    (h2 : engine.memory_desc_init 4 (host.set_mkl_dimensions conv_src_sizes conv_dst_sizes
        conv_weights_sizes conv_strides conv_padding).mkl_weights_sizes .mkldnn_f32 .mkldnn_any =
          some weights_md)
    (h3 : engine.memory_desc_init 4 (host.set_mkl_dimensions conv_src_sizes conv_dst_sizes
        conv_weights_sizes conv_strides conv_padding).mkl_dst_sizes .mkldnn_f32 .mkldnn_any =
          some dst_md)
    (h4 : engine.convolution_backward_data_desc_init .mkldnn_convolution_direct
        dst_md weights_md src_md
        (host.set_mkl_dimensions conv_src_sizes conv_dst_sizes
          conv_weights_sizes conv_strides conv_padding).mkl_strides
        (host.set_mkl_dimensions conv_src_sizes conv_dst_sizes
          conv_weights_sizes conv_strides conv_padding).mkl_padding
        (host.set_mkl_dimensions conv_src_sizes conv_dst_sizes
          conv_weights_sizes conv_strides conv_padding).mkl_padding
        .mkldnn_padding_zero = some conv_desc)
    (h5 : engine.primitive_desc_create conv_desc = some a.op_desc)
    (ha : build_accepted engine (host.set_mkl_dimensions conv_src_sizes conv_dst_sizes
        conv_weights_sizes conv_strides conv_padding) input_src_pd input_weights_pd
        .mkldnn_query_diff_dst_pd .mkldnn_query_diff_src_pd a)
    (hc : calls_accepted host engine src_dims weights_dims conv_src_sizes conv_weights_sizes
        (host.set_mkl_dimensions conv_src_sizes conv_dst_sizes
          conv_weights_sizes conv_strides conv_padding) a w) :
    create_mkldnn_conv_bprop_data_kernel host engine src_dims weights_dims dst_dims
      stride_dims pad_dims conv_src_sizes conv_weights_sizes conv_dst_sizes conv_strides
      conv_padding input_src_pd input_weights_pd w =
    Res.ok () (built_world host src_dims weights_dims conv_src_sizes conv_weights_sizes
        (host.set_mkl_dimensions conv_src_sizes conv_dst_sizes
          conv_weights_sizes conv_strides conv_padding) a w) := by
  unfold create_mkldnn_conv_bprop_data_kernel
  simp only [mkldnn_memory_primitive_desc_create, mkldnn_memory_desc_init,
    mkldnn_convolution_backward_data_desc_init, mkldnn_primitive_desc_create,
    K.pure_bind, opkernel_bind, assign_bind, MKL_CHECK_pure_bind_ok]
  refine ⟨src_md, h1, weights_md, h2, dst_md, h3, conv_desc, h4, a.op_desc, h5, ?_⟩
  generalize host.set_mkl_dimensions conv_src_sizes conv_dst_sizes conv_weights_sizes
    conv_strides conv_padding = mkl at ha hc ⊢
  obtain ⟨b0, b1, bo, c0, c1⟩ := ha
  obtain ⟨t0, t1, tout, a0, a1, s0, s1, hcomp⟩ := hc
  rw [K.bind_ok_iff]
  obtain ⟨w1, e1, hB⟩ := Res.ok_named
    (bind_input_returns engine input_src_pd 4 mkl.mkl_src_sizes .mkldnn_chwn
      (.inputs 0) { w with opkernel := { w.opkernel with op_desc := a.op_desc } }
      a.desc0 b0 t0)
  refine ⟨(), w1, hB, ?_⟩
  clear hB
  rw [K.bind_ok_iff]
  obtain ⟨w2, e2, hB⟩ := Res.ok_named
    (bind_input_returns engine input_weights_pd 4 mkl.mkl_weights_sizes .mkldnn_ihwo
      (.inputs 1) w1 a.desc1 b1 t1)
  refine ⟨(), w2, hB, ?_⟩
  clear hB
  rw [K.bind_ok_iff]
  obtain ⟨w3, e3, hB⟩ := Res.ok_named
    ((create_mkldnn_tensor_from_pd_ok_iff 4 mkl.mkl_dst_sizes
      (mkldnn_primitive_desc_query_memory_d engine
        (mkldnn_primitive_desc_query_pd engine a.op_desc .mkldnn_query_diff_src_pd 0))
      engine (.outputs 0) w2 _ ()).2 ⟨a.desc_out, bo, tout, rfl⟩)
  refine ⟨(), w3, hB, ?_⟩
  clear hB
  simp only [assign_bind, opkernel_bind]
  have eS : ({ w3 with opkernel := { w3.opkernel with num_inputs := 2, num_outputs := 1 } } :
      World) = built_tensors mkl a w := by
    subst e1 e2 e3
    simp [built_tensors, tensor_ref.modify]
  have d0 : (w3.opkernel.inputs 0).desc = a.desc0 := by
    subst e1 e2 e3
    simp [tensor_ref.modify]
  simp only [eS, d0]
  rw [K.bind_ok_iff]
  refine ⟨(), _, reorder_block_returns engine 0 _ _ _ _ a.r0 (by simp [built_tensors]) c0 a0, ?_⟩
  simp only [opkernel_bind]
  have d1 : ((built_reorder 0 mkl.mkl_src_sizes a.r0 (built_tensors mkl a w)).opkernel.inputs
      1).desc = a.desc1 := by
    cases a.r0 <;> simp [built_reorder, built_tensors]
  simp only [d1]
  rw [K.bind_ok_iff]
  refine ⟨(), _, reorder_block_returns engine 1 _ _ _ _ a.r1 d1 c1 a1, ?_⟩
  simp only [assign_bind, opkernel_bind]
  rw [K.bind_ok_iff]
  refine ⟨(), _, scratch_block_returns host engine 0 _ _ _ rfl s0, ?_⟩
  simp only [opkernel_bind]
  rw [K.bind_ok_iff]
  refine ⟨(), _, scratch_block_returns host engine 1 _ _ _ rfl s1, ?_⟩
  simp only [opkernel_bind, MKL_CHECK_primitive_create_bind_ok, assign_bind]
  refine ⟨hcomp, ?_⟩
  rw [K.bind_ok_iff]
  refine ⟨(), _, push_block_returns 0 _ _ rfl, ?_⟩
  simp only [opkernel_bind]
  rw [K.bind_ok_iff]
  refine ⟨(), _, push_block_returns 1 _ _ rfl, ?_⟩
  simp only [assign_ok]
  rfl

theorem fprop_returns_iff (host : host_t) (engine : mkldnn_engine_t)
    (src_dims weights_dims dst_dims stride_dims pad_dims : Int)
    (conv_src_sizes conv_weights_sizes conv_dst_sizes conv_strides conv_padding : List Int)
    (input_src_pd input_weights_pd : mkldnn_primitive_desc_t) (w : World) :
    (∃ w', create_mkldnn_conv_fprop_kernel host engine src_dims weights_dims dst_dims
      stride_dims pad_dims conv_src_sizes conv_weights_sizes conv_dst_sizes conv_strides
      conv_padding input_src_pd input_weights_pd w = Res.ok () w') ↔
    fprop_calls_accepted host engine src_dims weights_dims conv_src_sizes conv_weights_sizes
      conv_dst_sizes conv_strides conv_padding input_src_pd input_weights_pd w := by
  constructor
  · rintro ⟨w', h⟩
    obtain ⟨src_md, weights_md, dst_md, conv_desc, a, h1, h2, h3, h4, h5, ha, hc, -⟩ :=
      fprop_ok_calls _ _ _ _ _ _ _ _ _ _ _ _ _ _ _ _ h
    exact ⟨src_md, weights_md, dst_md, conv_desc, a, h1, h2, h3, h4, h5, ha, hc⟩
  · rintro ⟨src_md, weights_md, dst_md, conv_desc, a, h1, h2, h3, h4, h5, ha, hc⟩
    exact ⟨_, fprop_returns host engine src_dims weights_dims dst_dims stride_dims pad_dims
      conv_src_sizes conv_weights_sizes conv_dst_sizes conv_strides conv_padding
      input_src_pd input_weights_pd w src_md weights_md dst_md conv_desc a h1 h2 h3 h4 h5
      ha hc⟩

theorem bprop_data_returns_iff (host : host_t) (engine : mkldnn_engine_t)
    (src_dims weights_dims dst_dims stride_dims pad_dims : Int)
    (conv_src_sizes conv_weights_sizes conv_dst_sizes conv_strides conv_padding : List Int)
    (input_src_pd input_weights_pd : mkldnn_primitive_desc_t) (w : World) :
    (∃ w', create_mkldnn_conv_bprop_data_kernel host engine src_dims weights_dims dst_dims
      stride_dims pad_dims conv_src_sizes conv_weights_sizes conv_dst_sizes conv_strides
      conv_padding input_src_pd input_weights_pd w = Res.ok () w') ↔
    bprop_data_calls_accepted host engine src_dims weights_dims conv_src_sizes
      conv_weights_sizes conv_dst_sizes conv_strides conv_padding input_src_pd
      input_weights_pd w := by
  constructor
  · rintro ⟨w', h⟩
    obtain ⟨src_md, weights_md, dst_md, conv_desc, a, h1, h2, h3, h4, h5, ha, hc, -⟩ :=
      bprop_data_ok_calls _ _ _ _ _ _ _ _ _ _ _ _ _ _ _ _ h
    exact ⟨src_md, weights_md, dst_md, conv_desc, a, h1, h2, h3, h4, h5, ha, hc⟩
  · rintro ⟨src_md, weights_md, dst_md, conv_desc, a, h1, h2, h3, h4, h5, ha, hc⟩
    exact ⟨_, bprop_data_returns host engine src_dims weights_dims dst_dims stride_dims
      pad_dims conv_src_sizes conv_weights_sizes conv_dst_sizes conv_strides conv_padding
      input_src_pd input_weights_pd w src_md weights_md dst_md conv_desc a h1 h2 h3 h4 h5
      ha hc⟩

theorem Res.ok_or_exit (r : Res Unit) : (∃ w', r = Res.ok () w') ∨ (∃ w', r = Res.exit w') := by
  cases r with
  | ok u w' => exact Or.inl ⟨w', rfl⟩
  | exit w' => exact Or.inr ⟨w', rfl⟩

/-! ## The claims -/

/-- C1: after a successful build by either builder, for each input slot k in
{0, 1}, a conversion step exists (`reorder_i[k]` is non-NULL) exactly when the
engine's equality check reports that the layout bound to `inputs[k]` differs from
the layout the compute descriptor requires for that slot; so a bound layout the
check reports equal to the required one yields `reorder_i[k] = NULL`. -/
theorem conversion_iff_layout_differs (host : host_t) (engine : mkldnn_engine_t)
    (src_dims weights_dims dst_dims stride_dims pad_dims : Int)
    (conv_src_sizes conv_weights_sizes conv_dst_sizes conv_strides conv_padding : List Int)
    (input_src_pd input_weights_pd : mkldnn_primitive_desc_t)
    (q_src q_dst : mkldnn_query_t) (w w' : World)
    (h : built_by host engine src_dims weights_dims dst_dims stride_dims pad_dims
      conv_src_sizes conv_weights_sizes conv_dst_sizes conv_strides conv_padding
      input_src_pd input_weights_pd q_src q_dst w w') :
    (w'.opkernel.reorder_i 0 ≠ 0 ↔
      engine.memory_primitive_desc_equal (w'.opkernel.inputs 0).desc
        (engine.primitive_desc_query_pd w'.opkernel.op_desc q_src 0) = false) ∧
    (w'.opkernel.reorder_i 1 ≠ 0 ↔
      engine.memory_primitive_desc_equal (w'.opkernel.inputs 1).desc
        (engine.primitive_desc_query_pd w'.opkernel.op_desc .mkldnn_query_weights_pd 0) =
          false) ∧
    (engine.memory_primitive_desc_equal (w'.opkernel.inputs 0).desc
        (engine.primitive_desc_query_pd w'.opkernel.op_desc q_src 0) = true →
      w'.opkernel.reorder_i 0 = 0) ∧
    (engine.memory_primitive_desc_equal (w'.opkernel.inputs 1).desc
        (engine.primitive_desc_query_pd w'.opkernel.op_desc .mkldnn_query_weights_pd 0) =
          true →
      w'.opkernel.reorder_i 1 = 0) := by
  obtain ⟨a, ha, hw⟩ := built_by_ok h
  rw [bw_reorder_i0 hw, bw_reorder_i1 hw, bw_inputs0 hw, bw_inputs1 hw, bw_op_desc hw]
  rcases ha.decided0 with ⟨q0, e0⟩ | ⟨q0, i0, p0, e0, -, -⟩ <;>
    rcases ha.decided1 with ⟨q1, e1⟩ | ⟨q1, i1, p1, e1, -, -⟩ <;>
    simp [e0, e1, q0, q1, conv_prims]

theorem conversion_iff_layout_differs_witness :
    built_by demo_host engine_a 5 5 5 3 3 [3, 1, 8, 8, 2] [3, 1, 3, 3, 4] [4, 1, 8, 8, 2]
      [1, 1, 1] [0, 1, 1] .null .null .mkldnn_query_src_pd .mkldnn_query_dst_pd
      World.fresh demo_fprop.world ∧
    (demo_fprop.world.opkernel.reorder_i 0 ≠ 0 ↔
      engine_a.memory_primitive_desc_equal (demo_fprop.world.opkernel.inputs 0).desc
        (engine_a.primitive_desc_query_pd demo_fprop.world.opkernel.op_desc
          .mkldnn_query_src_pd 0) = false) :=
  ⟨Or.inl ⟨rfl, rfl, rfl⟩,
    (conversion_iff_layout_differs demo_host engine_a 5 5 5 3 3 [3, 1, 8, 8, 2] [3, 1, 3, 3, 4]
      [4, 1, 8, 8, 2] [1, 1, 1] [0, 1, 1] .null .null .mkldnn_query_src_pd
      .mkldnn_query_dst_pd World.fresh demo_fprop.world (Or.inl ⟨rfl, rfl, rfl⟩)).1⟩

/-- C2: the code evaluated where the weights layout already matches.  In the
forward build `demo_fprop` and in the same backward-data build the weights need
no conversion (`reorder_i[1] = NULL`), and the compute primitive is created with
second operand `inputs[0].prim` (handle 1), which is not `inputs[1].prim`
(handle 2). -/
theorem compute_step_weights_operand_is_inputs0 :
    demo_fprop = Res.ok () demo_fprop.world ∧
    demo_fprop.world.opkernel.reorder_i 1 = 0 ∧
    (deref demo_fprop.world.primitives demo_fprop.world.opkernel.op_prim).map (·.inputs) =
      some [⟨(demo_fprop.world.opkernel.internal_inputs 0).prim, 0⟩,
        ⟨(demo_fprop.world.opkernel.inputs 0).prim, 0⟩] ∧
    (demo_fprop.world.opkernel.inputs 0).prim = 1 ∧
    (demo_fprop.world.opkernel.inputs 1).prim = 2 ∧
    demo_bprop_data_a = Res.ok () demo_bprop_data_a.world ∧
    demo_bprop_data_a.world.opkernel.reorder_i 1 = 0 ∧
    (deref demo_bprop_data_a.world.primitives demo_bprop_data_a.world.opkernel.op_prim).map
        (·.inputs) =
      some [⟨(demo_bprop_data_a.world.opkernel.internal_inputs 0).prim, 0⟩,
        ⟨(demo_bprop_data_a.world.opkernel.inputs 0).prim, 0⟩] ∧
    (demo_bprop_data_a.world.opkernel.inputs 0).prim = 1 ∧
    (demo_bprop_data_a.world.opkernel.inputs 1).prim = 2 :=
  ⟨rfl, rfl, rfl, rfl, rfl, rfl, rfl, rfl, rfl, rfl⟩

/-- What both builders do with the compute step, for every engine: its first
operand is the internal descriptor of slot 0 when that slot is converted and
`inputs[0].prim` otherwise, its destination is `outputs[0].prim`, and its second
operand is the internal descriptor of slot 1 when that slot is converted and
otherwise `inputs[0].prim`, a handle different from `inputs[1].prim`. -/
theorem compute_step_operands (host : host_t) (engine : mkldnn_engine_t)
    (src_dims weights_dims dst_dims stride_dims pad_dims : Int)
    (conv_src_sizes conv_weights_sizes conv_dst_sizes conv_strides conv_padding : List Int)
    (input_src_pd input_weights_pd : mkldnn_primitive_desc_t)
    (q_src q_dst : mkldnn_query_t) (w w' : World)
    (h : built_by host engine src_dims weights_dims dst_dims stride_dims pad_dims
      conv_src_sizes conv_weights_sizes conv_dst_sizes conv_strides conv_padding
      input_src_pd input_weights_pd q_src q_dst w w') :
    deref w'.primitives w'.opkernel.op_prim =
      some ⟨w'.opkernel.op_desc,
        [⟨if w'.opkernel.reorder_i 0 ≠ 0 then (w'.opkernel.internal_inputs 0).prim
            else (w'.opkernel.inputs 0).prim, 0⟩,
         ⟨if w'.opkernel.reorder_i 1 ≠ 0 then (w'.opkernel.internal_inputs 1).prim
            else (w'.opkernel.inputs 0).prim, 0⟩],
        [(w'.opkernel.outputs 0).prim], 0⟩ ∧
    (w'.opkernel.inputs 0).prim ≠ (w'.opkernel.inputs 1).prim := by
  obtain ⟨a, ha, hw⟩ := built_by_ok h
  rw [bw_op_prim hw, bw_primitives hw, bw_reorder_i0 hw, bw_reorder_i1 hw, bw_inputs0 hw,
    bw_inputs1 hw, bw_outputs0 hw, bw_internal_inputs0 hw, bw_internal_inputs1 hw, bw_op_desc hw]
  obtain ⟨op_desc, desc0, desc1, desc_out, r0, r1⟩ := a
  rcases r0 with _ | ⟨i0, p0⟩ <;> rcases r1 with _ | ⟨i1, p1⟩ <;>
    simp [conv_prims, deref_append, deref_append_zero]

/-- C3: after a successful build by either builder on a fresh kernel
(`net_size = 0` on entry) the plan is exactly the conversion step of input 0 if
it exists, then the conversion step of input 1 if it exists, then the compute
step `op_prim`, which is therefore the last entry.  The conversion step of slot
k is the reorder primitive from `inputs[k].prim` to `internal_inputs[k].prim`,
and `op_prim` is the primitive created from the compute descriptor. -/
theorem plan_is_conversions_then_compute (host : host_t) (engine : mkldnn_engine_t)
    (src_dims weights_dims dst_dims stride_dims pad_dims : Int)
    (conv_src_sizes conv_weights_sizes conv_dst_sizes conv_strides conv_padding : List Int)
    (input_src_pd input_weights_pd : mkldnn_primitive_desc_t)
    (q_src q_dst : mkldnn_query_t) (w w' : World)
    (h : built_by host engine src_dims weights_dims dst_dims stride_dims pad_dims
      conv_src_sizes conv_weights_sizes conv_dst_sizes conv_strides conv_padding
      input_src_pd input_weights_pd q_src q_dst w w')
    (hfresh : w.opkernel.net_size = 0) :
    w'.opkernel.plan =
      (if w'.opkernel.reorder_i 0 ≠ 0 then [w'.opkernel.reorder_i 0] else []) ++
      (if w'.opkernel.reorder_i 1 ≠ 0 then [w'.opkernel.reorder_i 1] else []) ++
      [w'.opkernel.op_prim] ∧
    w'.opkernel.plan.getLast? = some w'.opkernel.op_prim ∧
    (w'.opkernel.reorder_i 0 ≠ 0 → ∃ q, deref w'.primitives (w'.opkernel.reorder_i 0) = some q ∧
      q.inputs = [⟨(w'.opkernel.inputs 0).prim, 0⟩] ∧
      q.outputs = [(w'.opkernel.internal_inputs 0).prim]) ∧
    (w'.opkernel.reorder_i 1 ≠ 0 → ∃ q, deref w'.primitives (w'.opkernel.reorder_i 1) = some q ∧
      q.inputs = [⟨(w'.opkernel.inputs 1).prim, 0⟩] ∧
      q.outputs = [(w'.opkernel.internal_inputs 1).prim]) ∧
    (∃ q, deref w'.primitives w'.opkernel.op_prim = some q ∧ q.desc = w'.opkernel.op_desc) ∧
    w'.opkernel.op_prim ≠ 0 := by
  obtain ⟨a, ha, hw⟩ := built_by_ok h
  have hp : w.opkernel.plan = [] := by simp [mkldnn_opkernel.plan, hfresh]
  rw [bw_plan hw, hp, bw_op_prim hw, bw_primitives hw, bw_reorder_i0 hw, bw_reorder_i1 hw,
    bw_inputs0 hw, bw_inputs1 hw, bw_internal_inputs0 hw, bw_internal_inputs1 hw, bw_op_desc hw]
  obtain ⟨op_desc, desc0, desc1, desc_out, r0, r1⟩ := a
  rcases r0 with _ | ⟨i0, p0⟩ <;> rcases r1 with _ | ⟨i1, p1⟩ <;>
    simp [conv_prims, deref_append, deref_append_zero]

theorem plan_is_conversions_then_compute_witness :
    built_by demo_host engine_b 5 5 5 3 3 [3, 1, 8, 8, 2] [3, 1, 3, 3, 4] [4, 1, 8, 8, 2]
      [1, 1, 1] [0, 1, 1] .null .null .mkldnn_query_diff_dst_pd .mkldnn_query_diff_src_pd
      World.fresh demo_bprop_data.world ∧
    World.fresh.opkernel.net_size = 0 ∧
    demo_bprop_data.world.opkernel.plan.getLast? = some demo_bprop_data.world.opkernel.op_prim :=
  ⟨Or.inr ⟨rfl, rfl, rfl⟩, rfl,
    (plan_is_conversions_then_compute demo_host engine_b 5 5 5 3 3 [3, 1, 8, 8, 2]
      [3, 1, 3, 3, 4] [4, 1, 8, 8, 2] [1, 1, 1] [0, 1, 1] .null .null .mkldnn_query_diff_dst_pd
      .mkldnn_query_diff_src_pd World.fresh demo_bprop_data.world (Or.inr ⟨rfl, rfl, rfl⟩)
      rfl).2.1⟩

/-- C4: for every forward configuration on which `create_mkldnn_conv_fprop_kernel`
succeeds, the steps it appends to the plan are the conversion steps of exactly
those inputs (out of 2) whose bound layout the engine reports different from the
required one, in slot order, followed by the compute step: the number of
conversion steps is that number of inputs, hence at most 2, `net_size` grows by
that count plus one, and on a fresh kernel the plan length is that count plus
one. -/
theorem fprop_conversion_count (host : host_t) (engine : mkldnn_engine_t)
    (src_dims weights_dims dst_dims stride_dims pad_dims : Int)
    (conv_src_sizes conv_weights_sizes conv_dst_sizes conv_strides conv_padding : List Int)
    (input_src_pd input_weights_pd : mkldnn_primitive_desc_t) (w w' : World)
    (h : create_mkldnn_conv_fprop_kernel host engine src_dims weights_dims dst_dims stride_dims
      pad_dims conv_src_sizes conv_weights_sizes conv_dst_sizes conv_strides conv_padding
      input_src_pd input_weights_pd w = Res.ok () w') :
    ∃ steps : List mkldnn_primitive_t,
      w'.opkernel.plan = w.opkernel.plan ++ steps ++ [w'.opkernel.op_prim] ∧
      steps = ((List.range 2).filter fun k =>
        !engine.memory_primitive_desc_equal (w'.opkernel.inputs k).desc
          (engine.primitive_desc_query_pd w'.opkernel.op_desc
            (if k = 0 then .mkldnn_query_src_pd else .mkldnn_query_weights_pd) 0)).map
        w'.opkernel.reorder_i ∧
      steps.length = ((List.range 2).filter fun k =>
        !engine.memory_primitive_desc_equal (w'.opkernel.inputs k).desc
          (engine.primitive_desc_query_pd w'.opkernel.op_desc
            (if k = 0 then .mkldnn_query_src_pd else .mkldnn_query_weights_pd) 0)).length ∧
      steps.length ≤ 2 ∧
      (∀ s ∈ steps, s ≠ 0) ∧
      w'.opkernel.net_size = w.opkernel.net_size + steps.length + 1 ∧
      (w.opkernel.net_size = 0 → w'.opkernel.plan.length = steps.length + 1) := by
  obtain ⟨a, ha, hw⟩ := built_by_ok (Or.inl ⟨h, rfl, rfl⟩)
  have d0 : (!engine.memory_primitive_desc_equal (w'.opkernel.inputs 0).desc
      (engine.primitive_desc_query_pd w'.opkernel.op_desc .mkldnn_query_src_pd 0)) =
        a.r0.isSome := by
    rw [bw_inputs0 hw, bw_op_desc hw]
    rcases ha.decided0 with ⟨q0, e0⟩ | ⟨q0, i0, p0, e0, -, -⟩ <;> simp [e0, q0]
  have d1 : (!engine.memory_primitive_desc_equal (w'.opkernel.inputs 1).desc
      (engine.primitive_desc_query_pd w'.opkernel.op_desc .mkldnn_query_weights_pd 0)) =
        a.r1.isSome := by
    rw [bw_inputs1 hw, bw_op_desc hw]
    rcases ha.decided1 with ⟨q1, e1⟩ | ⟨q1, i1, p1, e1, -, -⟩ <;> simp [e1, q1]
  have hf : ((List.range 2).filter fun k =>
        !engine.memory_primitive_desc_equal (w'.opkernel.inputs k).desc
          (engine.primitive_desc_query_pd w'.opkernel.op_desc
            (if k = 0 then .mkldnn_query_src_pd else .mkldnn_query_weights_pd) 0)) =
      (if a.r0.isSome then [0] else []) ++ (if a.r1.isSome then [1] else []) := by
    simp only [List.range_succ, List.range_zero, List.nil_append, List.cons_append,
      List.filter_cons, List.filter_nil, if_true, one_ne_zero, if_false, d0, d1]
    cases a.r0.isSome <;> cases a.r1.isSome <;> rfl
  have r0 := bw_reorder_i0 hw
  have r1 := bw_reorder_i1 hw
  refine ⟨_, ?_, rfl, by rw [List.length_map], ?_, ?_, ?_, ?_⟩
  · rw [bw_plan hw, hf]
    cases a.r0.isSome <;> cases a.r1.isSome <;> simp
  · rw [hf]
    cases a.r0.isSome <;> cases a.r1.isSome <;> simp
  · rw [hf]
    intro s hs
    cases h0 : a.r0.isSome <;> cases h1 : a.r1.isSome <;>
      simp [h0, h1, r0, r1] at hs ⊢
    all_goals first
      | (subst hs; simp)
      | (rcases hs with rfl | rfl <;> simp)
  · rw [bw_net_size hw, hf]
    cases a.r0.isSome <;> cases a.r1.isSome <;> simp
  · intro h0
    have hp : w.opkernel.plan = [] := by simp [mkldnn_opkernel.plan, h0]
    rw [bw_plan hw, hf, hp]
    cases a.r0.isSome <;> cases a.r1.isSome <;> simp

theorem fprop_conversion_count_witness :
    demo_fprop = Res.ok () demo_fprop.world ∧
    ∃ steps : List mkldnn_primitive_t,
      demo_fprop.world.opkernel.plan =
        World.fresh.opkernel.plan ++ steps ++ [demo_fprop.world.opkernel.op_prim] ∧
      steps.length ≤ 2 :=
  ⟨rfl,
    (fprop_conversion_count demo_host engine_a 5 5 5 3 3 [3, 1, 8, 8, 2] [3, 1, 3, 3, 4]
      [4, 1, 8, 8, 2] [1, 1, 1] [0, 1, 1] .null .null World.fresh demo_fprop.world rfl).imp
      fun _ hs => ⟨hs.1, hs.2.2.2.1⟩⟩

/-- C5: in both builders, for each input slot: when an inherited layout
(`input_src_pd` / `input_weights_pd`) is supplied, `inputs[k]` is bound to the
memory primitive descriptor of exactly that layout's memory descriptor; when it
is NULL, `inputs[0]` is bound to the default `mkldnn_chwn` layout and `inputs[1]`
to the default `mkldnn_ihwo` layout, with f32 data and the flattened sizes; in
either case the same comparison of the bound layout with the engine-required one
decides whether a conversion is created. -/
theorem inputs_bound_to_inherited_or_default (host : host_t) (engine : mkldnn_engine_t)
    (src_dims weights_dims dst_dims stride_dims pad_dims : Int)
    (conv_src_sizes conv_weights_sizes conv_dst_sizes conv_strides conv_padding : List Int)
    (input_src_pd input_weights_pd : mkldnn_primitive_desc_t)
    (q_src q_dst : mkldnn_query_t) (w w' : World)
    (h : built_by host engine src_dims weights_dims dst_dims stride_dims pad_dims
      conv_src_sizes conv_weights_sizes conv_dst_sizes conv_strides conv_padding
      input_src_pd input_weights_pd q_src q_dst w w') :
    (input_src_pd ≠ .null →
      engine.memory_primitive_desc_create (engine.primitive_desc_query_memory_d input_src_pd) =
        some (w'.opkernel.inputs 0).desc) ∧
    (input_src_pd = .null → ∃ md,
      engine.memory_desc_init 4 (host.set_mkl_dimensions conv_src_sizes conv_dst_sizes
        conv_weights_sizes conv_strides conv_padding).mkl_src_sizes .mkldnn_f32 .mkldnn_chwn =
          some md ∧
      engine.memory_primitive_desc_create md = some (w'.opkernel.inputs 0).desc) ∧
    (input_weights_pd ≠ .null →
      engine.memory_primitive_desc_create
        (engine.primitive_desc_query_memory_d input_weights_pd) =
          some (w'.opkernel.inputs 1).desc) ∧
    (input_weights_pd = .null → ∃ md,
      engine.memory_desc_init 4 (host.set_mkl_dimensions conv_src_sizes conv_dst_sizes
        conv_weights_sizes conv_strides conv_padding).mkl_weights_sizes .mkldnn_f32
          .mkldnn_ihwo = some md ∧
      engine.memory_primitive_desc_create md = some (w'.opkernel.inputs 1).desc) ∧
    (w'.opkernel.reorder_i 0 = 0 ↔
      engine.memory_primitive_desc_equal (w'.opkernel.inputs 0).desc
        (engine.primitive_desc_query_pd w'.opkernel.op_desc q_src 0) = true) ∧
    (w'.opkernel.reorder_i 1 = 0 ↔
      engine.memory_primitive_desc_equal (w'.opkernel.inputs 1).desc
        (engine.primitive_desc_query_pd w'.opkernel.op_desc .mkldnn_query_weights_pd 0) =
          true) := by
  obtain ⟨a, ha, hw⟩ := built_by_ok h
  rw [bw_reorder_i0 hw, bw_reorder_i1 hw, bw_inputs0 hw, bw_inputs1 hw, bw_op_desc hw]
  refine ⟨?_, ?_, ?_, ?_, ?_, ?_⟩
  · intro hn
    rcases ha.bound0 with ⟨-, hb⟩ | ⟨hb, -⟩
    · exact hb
    · exact absurd hb hn
  · intro hn
    rcases ha.bound0 with ⟨hb, -⟩ | ⟨-, hb⟩
    · exact absurd hn hb
    · exact hb
  · intro hn
    rcases ha.bound1 with ⟨-, hb⟩ | ⟨hb, -⟩
    · exact hb
    · exact absurd hb hn
  · intro hn
    rcases ha.bound1 with ⟨hb, -⟩ | ⟨-, hb⟩
    · exact absurd hn hb
    · exact hb
  · rcases ha.decided0 with ⟨q0, e0⟩ | ⟨q0, i0, p0, e0, -, -⟩ <;> simp [e0, q0]
  · rcases ha.decided1 with ⟨q1, e1⟩ | ⟨q1, i1, p1, e1, -, -⟩ <;> simp [e1, q1, conv_prims]

theorem inputs_bound_to_inherited_or_default_witness :
    built_by demo_host engine_b 5 5 5 3 3 [3, 1, 8, 8, 2] [3, 1, 3, 3, 4] [4, 1, 8, 8, 2]
      [1, 1, 1] [0, 1, 1] (.memory ⟨4, [2, 3, 8, 8], .mkldnn_f32, .other_format 8⟩) .null
      .mkldnn_query_src_pd .mkldnn_query_dst_pd World.fresh demo_fprop_inherited.world ∧
    engine_b.memory_primitive_desc_create (engine_b.primitive_desc_query_memory_d
        (.memory ⟨4, [2, 3, 8, 8], .mkldnn_f32, .other_format 8⟩)) =
      some (demo_fprop_inherited.world.opkernel.inputs 0).desc :=
  ⟨Or.inl ⟨rfl, rfl, rfl⟩,
    (inputs_bound_to_inherited_or_default demo_host engine_b 5 5 5 3 3 [3, 1, 8, 8, 2]
      [3, 1, 3, 3, 4] [4, 1, 8, 8, 2] [1, 1, 1] [0, 1, 1]
      (.memory ⟨4, [2, 3, 8, 8], .mkldnn_f32, .other_format 8⟩) .null .mkldnn_query_src_pd
      .mkldnn_query_dst_pd World.fresh demo_fprop_inherited.world
      (Or.inl ⟨rfl, rfl, rfl⟩)).1 (by decide)⟩

/-- C6: in both builders and for every configuration, `outputs[0]` is bound to
the layout the engine's compute descriptor reports as required for the output
slot, with the flattened destination sizes, and no output-side conversion step is
created: `reorder_o[0]` is NULL after construction, and every entry the build
appends to the plan is a non-NULL handle, namely an input conversion
`reorder_i[0]` or `reorder_i[1]` or the compute step `op_prim`. -/
theorem output_bound_to_required_layout (host : host_t) (engine : mkldnn_engine_t)
    (src_dims weights_dims dst_dims stride_dims pad_dims : Int)
    (conv_src_sizes conv_weights_sizes conv_dst_sizes conv_strides conv_padding : List Int)
    (input_src_pd input_weights_pd : mkldnn_primitive_desc_t)
    (q_src q_dst : mkldnn_query_t) (w w' : World)
    (h : built_by host engine src_dims weights_dims dst_dims stride_dims pad_dims
      conv_src_sizes conv_weights_sizes conv_dst_sizes conv_strides conv_padding
      input_src_pd input_weights_pd q_src q_dst w w') :
    engine.memory_primitive_desc_create (engine.primitive_desc_query_memory_d
        (engine.primitive_desc_query_pd w'.opkernel.op_desc q_dst 0)) =
      some (w'.opkernel.outputs 0).desc ∧
    (w'.opkernel.outputs 0).sizes = (host.set_mkl_dimensions conv_src_sizes conv_dst_sizes
      conv_weights_sizes conv_strides conv_padding).mkl_dst_sizes ∧
    w'.opkernel.reorder_o 0 = 0 ∧
    ∃ steps : List mkldnn_primitive_t, w'.opkernel.plan = w.opkernel.plan ++ steps ∧
      ∀ s ∈ steps, s ≠ w'.opkernel.reorder_o 0 ∧
        (s = w'.opkernel.reorder_i 0 ∨ s = w'.opkernel.reorder_i 1 ∨ s = w'.opkernel.op_prim) := by
  obtain ⟨a, ha, hw⟩ := built_by_ok h
  refine ⟨?_, ?_, bw_reorder_o0 hw, ?_⟩
  · rw [bw_outputs0 hw, bw_op_desc hw]
    exact ha.bound_out
  · rw [bw_outputs0 hw]
  · refine ⟨_, by rw [bw_plan hw, List.append_assoc, List.append_assoc], ?_⟩
    intro s hs
    rw [bw_reorder_o0 hw]
    have r0 := bw_reorder_i0 hw
    have r1 := bw_reorder_i1 hw
    have rp := bw_op_prim hw
    cases h0 : a.r0.isSome <;> cases h1 : a.r1.isSome <;>
      simp [h0, h1, r0, r1, rp] at hs ⊢
    all_goals first
      | (subst hs; simp)
      | (rcases hs with rfl | rfl <;> simp)
      | (rcases hs with rfl | rfl | rfl <;> simp)

theorem output_bound_to_required_layout_witness :
    built_by demo_host engine_a 5 5 5 3 3 [3, 1, 8, 8, 2] [3, 1, 3, 3, 4] [4, 1, 8, 8, 2]
      [1, 1, 1] [0, 1, 1] .null .null .mkldnn_query_diff_dst_pd .mkldnn_query_diff_src_pd
      World.fresh demo_bprop_data_a.world ∧
    demo_bprop_data_a.world.opkernel.reorder_o 0 = 0 :=
  ⟨Or.inr ⟨rfl, rfl, rfl⟩,
    (output_bound_to_required_layout demo_host engine_a 5 5 5 3 3 [3, 1, 8, 8, 2]
      [3, 1, 3, 3, 4] [4, 1, 8, 8, 2] [1, 1, 1] [0, 1, 1] .null .null .mkldnn_query_diff_dst_pd
      .mkldnn_query_diff_src_pd World.fresh demo_bprop_data_a.world
      (Or.inr ⟨rfl, rfl, rfl⟩)).2.2.1⟩

/-- C7: in both builders, for each input slot k: `calloc` is called for a scratch
buffer, its result is stored in `internal_inputs[k].buffer` and bound as the data
handle of `internal_inputs[k].prim`, exactly when a conversion step was created
for slot k (slot 0 first); when no conversion is created nothing is allocated for
the slot and `internal_inputs[k]` is left as it was on entry. -/
theorem scratch_iff_conversion (host : host_t) (engine : mkldnn_engine_t)
    (src_dims weights_dims dst_dims stride_dims pad_dims : Int)
    (conv_src_sizes conv_weights_sizes conv_dst_sizes conv_strides conv_padding : List Int)
    (input_src_pd input_weights_pd : mkldnn_primitive_desc_t)
    (q_src q_dst : mkldnn_query_t) (w w' : World)
    (h : built_by host engine src_dims weights_dims dst_dims stride_dims pad_dims
      conv_src_sizes conv_weights_sizes conv_dst_sizes conv_strides conv_padding
      input_src_pd input_weights_pd q_src q_dst w w') :
    w'.callocs = w.callocs ++
      (if w'.opkernel.reorder_i 0 ≠ 0 then
        [⟨product conv_src_sizes src_dims, sizeof_float,
          (w'.opkernel.internal_inputs 0).buffer⟩] else []) ++
      (if w'.opkernel.reorder_i 1 ≠ 0 then
        [⟨product conv_weights_sizes weights_dims, sizeof_float,
          (w'.opkernel.internal_inputs 1).buffer⟩] else []) ∧
    (w'.opkernel.reorder_i 0 ≠ 0 →
      (w'.opkernel.internal_inputs 0).buffer =
        host.calloc w.callocs (product conv_src_sizes src_dims) sizeof_float ∧
      ∃ q, deref w'.primitives (w'.opkernel.internal_inputs 0).prim = some q ∧
        q.data_handle = (w'.opkernel.internal_inputs 0).buffer) ∧
    (w'.opkernel.reorder_i 1 ≠ 0 →
      (w'.opkernel.internal_inputs 1).buffer =
        host.calloc (w'.callocs.take (w'.callocs.length - 1))
          (product conv_weights_sizes weights_dims) sizeof_float ∧
      ∃ q, deref w'.primitives (w'.opkernel.internal_inputs 1).prim = some q ∧
        q.data_handle = (w'.opkernel.internal_inputs 1).buffer) ∧
    (w'.opkernel.reorder_i 0 = 0 →
      w'.opkernel.internal_inputs 0 = w.opkernel.internal_inputs 0) ∧
    (w'.opkernel.reorder_i 1 = 0 →
      w'.opkernel.internal_inputs 1 = w.opkernel.internal_inputs 1) := by
  obtain ⟨a, ha, hw⟩ := built_by_ok h
  have hc := bw_callocs hw
  have hp := bw_primitives hw
  rw [hc, hp, bw_reorder_i0 hw, bw_reorder_i1 hw]
  rw [bw_internal_inputs0 hw, bw_internal_inputs1 hw]
  obtain ⟨op_desc, desc0, desc1, desc_out, r0, r1⟩ := a
  rcases r0 with _ | ⟨i0, p0⟩ <;> rcases r1 with _ | ⟨i1, p1⟩ <;>
    simp [conv_prims, deref_append, deref_append_zero, List.take_append]

theorem scratch_iff_conversion_witness :
    built_by demo_host engine_b 5 5 5 3 3 [3, 1, 8, 8, 2] [3, 1, 3, 3, 4] [4, 1, 8, 8, 2]
      [1, 1, 1] [0, 1, 1] .null .null .mkldnn_query_diff_dst_pd .mkldnn_query_diff_src_pd
      World.fresh demo_bprop_data.world ∧
    demo_bprop_data.world.callocs = World.fresh.callocs ++
      (if demo_bprop_data.world.opkernel.reorder_i 0 ≠ 0 then
        [⟨product [3, 1, 8, 8, 2] 5, sizeof_float,
          (demo_bprop_data.world.opkernel.internal_inputs 0).buffer⟩] else []) ++
      (if demo_bprop_data.world.opkernel.reorder_i 1 ≠ 0 then
        [⟨product [3, 1, 3, 3, 4] 5, sizeof_float,
          (demo_bprop_data.world.opkernel.internal_inputs 1).buffer⟩] else []) :=
  ⟨Or.inr ⟨rfl, rfl, rfl⟩,
    (scratch_iff_conversion demo_host engine_b 5 5 5 3 3 [3, 1, 8, 8, 2]
      [3, 1, 3, 3, 4] [4, 1, 8, 8, 2] [1, 1, 1] [0, 1, 1] .null .null .mkldnn_query_diff_dst_pd
      .mkldnn_query_diff_src_pd World.fresh demo_bprop_data.world
      (Or.inr ⟨rfl, rfl, rfl⟩)).1⟩

/-- What the first scratch request of a build is, for an engine that reports
every pair of layouts different. -/
theorem first_scratch_request {host : host_t} {engine : mkldnn_engine_t}
    {src_dims weights_dims dst_dims stride_dims pad_dims : Int}
    {conv_src_sizes conv_weights_sizes conv_dst_sizes conv_strides conv_padding : List Int}
    {input_src_pd input_weights_pd : mkldnn_primitive_desc_t}
    {q_src q_dst : mkldnn_query_t} {w w' : World}
    (h : built_by host engine src_dims weights_dims dst_dims stride_dims pad_dims
      conv_src_sizes conv_weights_sizes conv_dst_sizes conv_strides conv_padding
      input_src_pd input_weights_pd q_src q_dst w w')
    (he : ∀ a b, engine.memory_primitive_desc_equal a b = false) :
    w'.opkernel.reorder_i 0 ≠ 0 ∧
    (∃ r, w'.callocs[w.callocs.length]? = some r ∧ r.nmemb = product conv_src_sizes src_dims) ∧
    (w'.opkernel.inputs 0).sizes = (host.set_mkl_dimensions conv_src_sizes conv_dst_sizes
      conv_weights_sizes conv_strides conv_padding).mkl_src_sizes := by
  obtain ⟨a, ha, hw⟩ := built_by_ok h
  rw [bw_callocs hw, bw_reorder_i0 hw, bw_inputs0 hw]
  rcases ha.decided0 with ⟨q0, e0⟩ | ⟨q0, i0, p0, e0, -, -⟩
  · rw [he] at q0
    cases q0
  · refine ⟨by simp [e0], ⟨⟨product conv_src_sizes src_dims, sizeof_float,
      (w'.opkernel.internal_inputs 0).buffer⟩, ?_, rfl⟩, rfl⟩
    rw [List.append_assoc, List.getElem?_append_right (le_refl _)]
    simp [e0]

/-- C8, the claim as stated fails: a forward build called with rank argument
`src_dims = 4` for the logical source sizes (3, 1, 8, 8, 2) creates a conversion
for slot 0 and allocates a scratch buffer of `product(conv_src_sizes, 4)` = 192
floats, while `inputs[0]` and `internal_inputs[0]` were created with the
flattened sizes (2, 3, 8, 8), whose product is 384.  And whatever the layout
translation is, the claim cannot hold for every rank argument: the flattened
sizes do not depend on `src_dims`, the requested element count does. -/
theorem scratch_size_not_flattened_count :
    (demo_fprop_rank = Res.ok () demo_fprop_rank.world ∧
      demo_fprop_rank.world.opkernel.reorder_i 0 ≠ 0 ∧
      demo_fprop_rank.world.callocs =
        [⟨192, sizeof_float, (demo_fprop_rank.world.opkernel.internal_inputs 0).buffer⟩] ∧
      (demo_fprop_rank.world.opkernel.inputs 0).sizes = [2, 3, 8, 8] ∧
      (demo_fprop_rank.world.opkernel.internal_inputs 0).sizes = [2, 3, 8, 8] ∧
      product (demo_fprop_rank.world.opkernel.internal_inputs 0).sizes 4 = 384 ∧
      (192 : Int) ≠ product (demo_fprop_rank.world.opkernel.internal_inputs 0).sizes 4) ∧
    ¬ ∃ host : host_t, scratch_holds_flattened_count host := by
  refine ⟨⟨rfl, by decide, rfl, rfl, rfl, rfl, by decide⟩, ?_⟩
  rintro ⟨host, hc⟩
  have b0 : built_by host engine_any 4 5 5 3 3 [3, 1, 8, 8, 2] [3, 1, 3, 3, 4]
      [4, 1, 8, 8, 2] [1, 1, 1] [0, 1, 1] .null .null
      .mkldnn_query_src_pd .mkldnn_query_dst_pd World.fresh
      (create_mkldnn_conv_fprop_kernel host engine_any 4 5 5 3 3 [3, 1, 8, 8, 2]
        [3, 1, 3, 3, 4] [4, 1, 8, 8, 2] [1, 1, 1] [0, 1, 1] .null .null World.fresh).world :=
    Or.inl ⟨rfl, rfl, rfl⟩
  have b1 : built_by host engine_any 5 5 5 3 3 [3, 1, 8, 8, 2] [3, 1, 3, 3, 4]
      [4, 1, 8, 8, 2] [1, 1, 1] [0, 1, 1] .null .null
      .mkldnn_query_src_pd .mkldnn_query_dst_pd World.fresh
      (create_mkldnn_conv_fprop_kernel host engine_any 5 5 5 3 3 [3, 1, 8, 8, 2]
        [3, 1, 3, 3, 4] [4, 1, 8, 8, 2] [1, 1, 1] [0, 1, 1] .null .null World.fresh).world :=
    Or.inl ⟨rfl, rfl, rfl⟩
  obtain ⟨n0, ⟨r0, g0, m0⟩, s0⟩ := first_scratch_request b0 (fun _ _ => rfl)
  obtain ⟨n1, ⟨r1, g1, m1⟩, s1⟩ := first_scratch_request b1 (fun _ _ => rfl)
  have c0 := hc _ _ _ _ _ _ _ _ _ _ _ _ _ _ _ _ _ b0 n0 r0 g0
  have c1 := hc _ _ _ _ _ _ _ _ _ _ _ _ _ _ _ _ _ b1 n1 r1 g1
  rw [m0, s0] at c0
  rw [m1, s1] at c1
  rw [← c1] at c0
  revert c0
  decide

/-- C8, amended: whenever a scratch buffer is allocated for input slot k, the
request is `calloc(product(conv_src_sizes, src_dims), sizeof(float))` for slot 0
and `calloc(product(conv_weights_sizes, weights_dims), sizeof(float))` for slot
1: the number of float elements is the product of the first `src_dims`
(`weights_dims`) caller-supplied logical sizes.  `inputs[k]` and
`internal_inputs[k]` carry the 4 flattened sizes, so the buffer holds the
flattened element count exactly when the two products coincide. -/
theorem scratch_sized_by_logical_product (host : host_t) (engine : mkldnn_engine_t)
    (src_dims weights_dims dst_dims stride_dims pad_dims : Int)
    (conv_src_sizes conv_weights_sizes conv_dst_sizes conv_strides conv_padding : List Int)
    (input_src_pd input_weights_pd : mkldnn_primitive_desc_t)
    (q_src q_dst : mkldnn_query_t) (w w' : World)
    (h : built_by host engine src_dims weights_dims dst_dims stride_dims pad_dims
      conv_src_sizes conv_weights_sizes conv_dst_sizes conv_strides conv_padding
      input_src_pd input_weights_pd q_src q_dst w w') :
    (∃ new : List calloc_record, w'.callocs = w.callocs ++ new ∧
      ∀ r ∈ new, r.size = sizeof_float ∧
        ((w'.opkernel.reorder_i 0 ≠ 0 ∧ r.result = (w'.opkernel.internal_inputs 0).buffer ∧
            r.nmemb = product conv_src_sizes src_dims ∧
            (product conv_src_sizes src_dims = product (w'.opkernel.inputs 0).sizes 4 →
              r.nmemb = product (w'.opkernel.internal_inputs 0).sizes 4)) ∨
         (w'.opkernel.reorder_i 1 ≠ 0 ∧ r.result = (w'.opkernel.internal_inputs 1).buffer ∧
            r.nmemb = product conv_weights_sizes weights_dims ∧
            (product conv_weights_sizes weights_dims = product (w'.opkernel.inputs 1).sizes 4 →
              r.nmemb = product (w'.opkernel.internal_inputs 1).sizes 4)))) ∧
    (w'.opkernel.inputs 0).sizes = (host.set_mkl_dimensions conv_src_sizes conv_dst_sizes
      conv_weights_sizes conv_strides conv_padding).mkl_src_sizes ∧
    (w'.opkernel.inputs 1).sizes = (host.set_mkl_dimensions conv_src_sizes conv_dst_sizes
      conv_weights_sizes conv_strides conv_padding).mkl_weights_sizes ∧
    (w'.opkernel.reorder_i 0 ≠ 0 →
      (w'.opkernel.internal_inputs 0).sizes = (w'.opkernel.inputs 0).sizes) ∧
    (w'.opkernel.reorder_i 1 ≠ 0 →
      (w'.opkernel.internal_inputs 1).sizes = (w'.opkernel.inputs 1).sizes) := by
  obtain ⟨a, ha, hw⟩ := built_by_ok h
  have hc := bw_callocs hw
  refine ⟨⟨_, by rw [hc, List.append_assoc], ?_⟩, ?_, ?_, ?_, ?_⟩
  · intro r hr
    rw [bw_reorder_i0 hw, bw_reorder_i1 hw, bw_inputs0 hw, bw_inputs1 hw]
    rw [bw_internal_inputs0 hw, bw_internal_inputs1 hw] at hr ⊢
    obtain ⟨op_desc, desc0, desc1, desc_out, r0, r1⟩ := a
    rcases r0 with _ | ⟨i0, p0⟩ <;> rcases r1 with _ | ⟨i1, p1⟩ <;>
      simp [conv_prims] at hr ⊢
    all_goals first
      | (subst hr; simp)
      | (rcases hr with rfl | rfl <;> simp)
  · rw [bw_inputs0 hw]
  · rw [bw_inputs1 hw]
  · rw [bw_reorder_i0 hw, bw_inputs0 hw, bw_internal_inputs0 hw]
    obtain ⟨op_desc, desc0, desc1, desc_out, r0, r1⟩ := a
    rcases r0 with _ | ⟨i0, p0⟩ <;> simp
  · rw [bw_reorder_i1 hw, bw_inputs1 hw, bw_internal_inputs1 hw]
    obtain ⟨op_desc, desc0, desc1, desc_out, r0, r1⟩ := a
    rcases r1 with _ | ⟨i1, p1⟩ <;> simp

theorem scratch_sized_by_logical_product_witness :
    built_by demo_host engine_a 4 5 5 3 3 [3, 1, 8, 8, 2] [3, 1, 3, 3, 4] [4, 1, 8, 8, 2]
      [1, 1, 1] [0, 1, 1] .null .null .mkldnn_query_src_pd .mkldnn_query_dst_pd
      World.fresh demo_fprop_rank.world ∧
    (demo_fprop_rank.world.opkernel.inputs 0).sizes =
      (demo_host.set_mkl_dimensions [3, 1, 8, 8, 2] [4, 1, 8, 8, 2] [3, 1, 3, 3, 4] [1, 1, 1]
        [0, 1, 1]).mkl_src_sizes :=
  ⟨Or.inl ⟨rfl, rfl, rfl⟩,
    (scratch_sized_by_logical_product demo_host engine_a 4 5 5 3 3 [3, 1, 8, 8, 2]
      [3, 1, 3, 3, 4] [4, 1, 8, 8, 2] [1, 1, 1] [0, 1, 1] .null .null .mkldnn_query_src_pd
      .mkldnn_query_dst_pd World.fresh demo_fprop_rank.world
      (Or.inl ⟨rfl, rfl, rfl⟩)).2.1⟩

/-- C9: `create_mkldnn_conv_bprop_data_kernel` keeps the forward slot numbering
and swaps the engine roles.  The backward-data descriptor is initialised with the
memory descriptor of the flattened dst sizes as the engine's `diff_src_desc` and
that of the flattened src sizes as its `diff_dst_desc`; input slot 0 carries the
src sizes and is compared against, and converted to, the engine's `diff_dst`
layout; input slot 1 is compared against the engine's weights layout; output slot
0 carries the dst sizes and is bound to the engine's `diff_src` layout. -/
theorem bprop_data_swaps_engine_roles (host : host_t) (engine : mkldnn_engine_t)
    (src_dims weights_dims dst_dims stride_dims pad_dims : Int)
    (conv_src_sizes conv_weights_sizes conv_dst_sizes conv_strides conv_padding : List Int)
    (input_src_pd input_weights_pd : mkldnn_primitive_desc_t) (w w' : World)
    (h : create_mkldnn_conv_bprop_data_kernel host engine src_dims weights_dims dst_dims
      stride_dims pad_dims conv_src_sizes conv_weights_sizes conv_dst_sizes conv_strides
      conv_padding input_src_pd input_weights_pd w = Res.ok () w') :
    (∃ src_md weights_md dst_md conv_desc_data,
      engine.memory_desc_init 4 (host.set_mkl_dimensions conv_src_sizes conv_dst_sizes
        conv_weights_sizes conv_strides conv_padding).mkl_src_sizes .mkldnn_f32 .mkldnn_any =
          some src_md ∧
      engine.memory_desc_init 4 (host.set_mkl_dimensions conv_src_sizes conv_dst_sizes
        conv_weights_sizes conv_strides conv_padding).mkl_weights_sizes .mkldnn_f32
          .mkldnn_any = some weights_md ∧
      engine.memory_desc_init 4 (host.set_mkl_dimensions conv_src_sizes conv_dst_sizes
        conv_weights_sizes conv_strides conv_padding).mkl_dst_sizes .mkldnn_f32 .mkldnn_any =
          some dst_md ∧
      engine.convolution_backward_data_desc_init .mkldnn_convolution_direct
        dst_md weights_md src_md
        (host.set_mkl_dimensions conv_src_sizes conv_dst_sizes
          conv_weights_sizes conv_strides conv_padding).mkl_strides
        (host.set_mkl_dimensions conv_src_sizes conv_dst_sizes
          conv_weights_sizes conv_strides conv_padding).mkl_padding
        (host.set_mkl_dimensions conv_src_sizes conv_dst_sizes
          conv_weights_sizes conv_strides conv_padding).mkl_padding
        .mkldnn_padding_zero = some conv_desc_data ∧
      engine.primitive_desc_create conv_desc_data = some w'.opkernel.op_desc) ∧
    (w'.opkernel.inputs 0).sizes = (host.set_mkl_dimensions conv_src_sizes conv_dst_sizes
      conv_weights_sizes conv_strides conv_padding).mkl_src_sizes ∧
    (w'.opkernel.inputs 1).sizes = (host.set_mkl_dimensions conv_src_sizes conv_dst_sizes
      conv_weights_sizes conv_strides conv_padding).mkl_weights_sizes ∧
    (w'.opkernel.outputs 0).sizes = (host.set_mkl_dimensions conv_src_sizes conv_dst_sizes
      conv_weights_sizes conv_strides conv_padding).mkl_dst_sizes ∧
    (w'.opkernel.reorder_i 0 ≠ 0 ↔
      engine.memory_primitive_desc_equal (w'.opkernel.inputs 0).desc
        (engine.primitive_desc_query_pd w'.opkernel.op_desc .mkldnn_query_diff_dst_pd 0) =
          false) ∧
    (w'.opkernel.reorder_i 0 ≠ 0 →
      engine.memory_primitive_desc_create (engine.primitive_desc_query_memory_d
          (engine.primitive_desc_query_pd w'.opkernel.op_desc .mkldnn_query_diff_dst_pd 0)) =
        some (w'.opkernel.internal_inputs 0).desc ∧
      ∃ q, deref w'.primitives (w'.opkernel.reorder_i 0) = some q ∧
        engine.reorder_primitive_desc_create (w'.opkernel.inputs 0).desc
          (engine.primitive_desc_query_pd w'.opkernel.op_desc .mkldnn_query_diff_dst_pd 0) =
            some q.desc ∧
        q.inputs = [⟨(w'.opkernel.inputs 0).prim, 0⟩] ∧
        q.outputs = [(w'.opkernel.internal_inputs 0).prim]) ∧
    (w'.opkernel.reorder_i 1 ≠ 0 ↔
      engine.memory_primitive_desc_equal (w'.opkernel.inputs 1).desc
        (engine.primitive_desc_query_pd w'.opkernel.op_desc .mkldnn_query_weights_pd 0) =
          false) ∧
    (w'.opkernel.reorder_i 1 ≠ 0 →
      engine.memory_primitive_desc_create (engine.primitive_desc_query_memory_d
          (engine.primitive_desc_query_pd w'.opkernel.op_desc .mkldnn_query_weights_pd 0)) =
        some (w'.opkernel.internal_inputs 1).desc) ∧
    engine.memory_primitive_desc_create (engine.primitive_desc_query_memory_d
        (engine.primitive_desc_query_pd w'.opkernel.op_desc .mkldnn_query_diff_src_pd 0)) =
      some (w'.opkernel.outputs 0).desc := by
  obtain ⟨src_md, weights_md, dst_md, cd, a, h1, h2, h3, h4, h5, ha, hw⟩ :=
    bprop_data_ok _ _ _ _ _ _ _ _ _ _ _ _ _ _ _ _ h
  have hp := bw_primitives hw
  rw [hp, bw_reorder_i0 hw, bw_reorder_i1 hw, bw_inputs0 hw, bw_inputs1 hw, bw_outputs0 hw,
    bw_op_desc hw]
  rw [bw_internal_inputs0 hw, bw_internal_inputs1 hw]
  refine ⟨⟨src_md, weights_md, dst_md, cd, h1, h2, h3, h4, h5⟩, rfl, rfl, rfl, ?_, ?_, ?_, ?_,
    ha.bound_out⟩
  · rcases ha.decided0 with ⟨q0, e0⟩ | ⟨q0, i0, p0, e0, -, -⟩ <;> simp [e0, q0]
  · rcases ha.decided0 with ⟨q0, e0⟩ | ⟨q0, i0, p0, e0, hi, hr⟩
    · simp [e0]
    · intro _
      obtain ⟨op_desc, desc0, desc1, desc_out, r0, r1⟩ := a
      subst e0
      refine ⟨by simpa using hi, ?_⟩
      rcases r1 with _ | ⟨i1, p1⟩ <;>
        simpa [conv_prims, deref_append, deref_append_zero] using hr
  · rcases ha.decided1 with ⟨q1, e1⟩ | ⟨q1, i1, p1, e1, -, -⟩ <;> simp [e1, q1, conv_prims]
  · rcases ha.decided1 with ⟨q1, e1⟩ | ⟨q1, i1, p1, e1, hi, -⟩
    · simp [e1]
    · intro _
      simpa [e1] using hi

theorem bprop_data_swaps_engine_roles_witness :
    demo_bprop_data = Res.ok () demo_bprop_data.world ∧
    (demo_bprop_data.world.opkernel.outputs 0).sizes =
      (demo_host.set_mkl_dimensions [3, 1, 8, 8, 2] [4, 1, 8, 8, 2] [3, 1, 3, 3, 4] [1, 1, 1]
        [0, 1, 1]).mkl_dst_sizes :=
  ⟨rfl,
    (bprop_data_swaps_engine_roles demo_host engine_b 5 5 5 3 3 [3, 1, 8, 8, 2]
      [3, 1, 3, 3, 4] [4, 1, 8, 8, 2] [1, 1, 1] [0, 1, 1] .null .null World.fresh
      demo_bprop_data.world rfl).2.2.2.1⟩

/-! ## Binding buffers and running the plan -/

theorem deref_eq_some {P : List mkldnn_primitive} {p : Nat}
    {q : mkldnn_primitive} (h : deref P p = some q) : p ≠ 0 ∧ p - 1 < P.length := by
  unfold deref at h
  by_cases h0 : p = 0
  · simp [h0] at h
  · simp only [h0, if_false] at h
    exact ⟨h0, (List.getElem?_eq_some.mp h).1⟩

theorem deref_set_self {P : List mkldnn_primitive} {p : Nat}
    {q : mkldnn_primitive} (x : mkldnn_primitive) (h : deref P p = some q) :
    deref (P.set (p - 1) x) p = some x := by
  obtain ⟨h0, hlt⟩ := deref_eq_some h
  simp [deref, h0, hlt]

theorem deref_set_other {P : List mkldnn_primitive} {p p' : Nat}
    {q : mkldnn_primitive} (x : mkldnn_primitive) (h : deref P p = some q) (hne : p' ≠ p) :
    deref (P.set (p - 1) x) p' = deref P p' := by
  obtain ⟨h0, -⟩ := deref_eq_some h
  unfold deref
  by_cases h0' : p' = 0
  · simp [h0']
  · simp only [h0', if_false]
    rw [List.getElem?_set_ne (by omega)]

theorem run_bprop_data_eq_run_fprop :
    run_mkldnn_conv_bprop_data_kernel = run_mkldnn_conv_fprop_kernel := rfl

/-- The runner, step by step: three buffers are bound in turn and the plan is
submitted once with the bindings then current. -/
theorem run_fprop_ok {engine : mkldnn_engine_t} {conv_src conv_weights conv_dst : void_ptr}
    {w w' : World}
    (h : run_mkldnn_conv_fprop_kernel engine conv_src conv_weights conv_dst w = Res.ok () w') :
    ∃ q0 q1 q2,
      deref w.primitives (w.opkernel.inputs 0).prim = some q0 ∧
      deref (w.primitives.set ((w.opkernel.inputs 0).prim - 1) { q0 with data_handle := conv_src })
        (w.opkernel.inputs 1).prim = some q1 ∧
      deref ((w.primitives.set ((w.opkernel.inputs 0).prim - 1)
          { q0 with data_handle := conv_src }).set ((w.opkernel.inputs 1).prim - 1)
          { q1 with data_handle := conv_weights })
        (w.opkernel.outputs 0).prim = some q2 ∧
      w'.primitives = ((w.primitives.set ((w.opkernel.inputs 0).prim - 1)
          { q0 with data_handle := conv_src }).set ((w.opkernel.inputs 1).prim - 1)
          { q1 with data_handle := conv_weights }).set ((w.opkernel.outputs 0).prim - 1)
          { q2 with data_handle := conv_dst } ∧
      w'.opkernel = w.opkernel ∧ w'.callocs = w.callocs ∧
      w'.submitted = w.submitted ++ [⟨w.opkernel.plan, w'.primitives⟩] := by
  unfold run_mkldnn_conv_fprop_kernel at h
  simp only [opkernel_bind, MKL_CHECK_set_data_handle_bind_ok, run_mkldnn_opkernel] at h
  obtain ⟨q0, h0, -, q1, h1, -, q2, h2, -, h⟩ := h
  split at h
  · cases h
    exact ⟨q0, q1, q2, h0, h1, h2, rfl, rfl, rfl, rfl⟩
  · cases h

/-- The bindings after a run on a kernel whose three bound descriptors are
distinct primitives: each of them holds the supplied buffer, every other
primitive is untouched, and the result does not depend on what was bound
before. -/
theorem run_fprop_bindings {engine : mkldnn_engine_t}
    {conv_src conv_weights conv_dst : void_ptr} {w w' : World}
    (h : run_mkldnn_conv_fprop_kernel engine conv_src conv_weights conv_dst w = Res.ok () w')
    (h01 : (w.opkernel.inputs 0).prim ≠ (w.opkernel.inputs 1).prim)
    (h02 : (w.opkernel.inputs 0).prim ≠ (w.opkernel.outputs 0).prim)
    (h12 : (w.opkernel.inputs 1).prim ≠ (w.opkernel.outputs 0).prim) :
    w'.primitives.length = w.primitives.length ∧
    ∀ p, deref w'.primitives p =
      (deref w.primitives p).map fun q =>
        if p = (w.opkernel.inputs 0).prim then { q with data_handle := conv_src }
        else if p = (w.opkernel.inputs 1).prim then { q with data_handle := conv_weights }
        else if p = (w.opkernel.outputs 0).prim then { q with data_handle := conv_dst }
        else q := by
  obtain ⟨q0, q1, q2, e0, e1, e2, hp, -, -, -⟩ := run_fprop_ok h
  have e1' : deref w.primitives (w.opkernel.inputs 1).prim = some q1 := by
    rwa [deref_set_other _ e0 (Ne.symm h01)] at e1
  have e2' : deref w.primitives (w.opkernel.outputs 0).prim = some q2 := by
    rw [deref_set_other _ e1 (Ne.symm h12), deref_set_other _ e0 (Ne.symm h02)] at e2
    exact e2
  refine ⟨by rw [hp]; simp, ?_⟩
  intro p
  rw [hp]
  by_cases p2 : p = (w.opkernel.outputs 0).prim
  · subst p2
    rw [deref_set_self _ e2, e2']
    simp [Ne.symm h02, Ne.symm h12]
  · rw [deref_set_other _ e2 p2]
    by_cases p1 : p = (w.opkernel.inputs 1).prim
    · subst p1
      rw [deref_set_self _ e1, e1']
      simp [Ne.symm h01]
    · rw [deref_set_other _ e1 p1]
      by_cases p0 : p = (w.opkernel.inputs 0).prim
      · subst p0
        rw [deref_set_self _ e0, e0]
        simp
      · rw [deref_set_other _ e0 p0]
        cases deref w.primitives p <;> simp [p0, p1, p2]

theorem primitives_ext {P Q : List mkldnn_primitive}
    (h : ∀ p, deref P p = deref Q p) : P = Q := by
  apply List.ext_getElem?
  intro i
  have := h (i + 1)
  simpa [deref] using this

/-- Two runs in a row on a kernel with distinct bound descriptors leave the
bindings of the second run alone. -/
theorem run_fprop_twice {engine : mkldnn_engine_t} {a1 a2 a3 b1 b2 b3 : void_ptr}
    {w w1 w2 w2' : World}
    (h1 : run_mkldnn_conv_fprop_kernel engine a1 a2 a3 w = Res.ok () w1)
    (h2 : run_mkldnn_conv_fprop_kernel engine b1 b2 b3 w1 = Res.ok () w2)
    (h2' : run_mkldnn_conv_fprop_kernel engine b1 b2 b3 w = Res.ok () w2')
    (h01 : (w.opkernel.inputs 0).prim ≠ (w.opkernel.inputs 1).prim)
    (h02 : (w.opkernel.inputs 0).prim ≠ (w.opkernel.outputs 0).prim)
    (h12 : (w.opkernel.inputs 1).prim ≠ (w.opkernel.outputs 0).prim) :
    w2'.primitives = w2.primitives := by
  obtain ⟨-, -, -, -, -, -, -, ho, -, -⟩ := run_fprop_ok h1
  have k1 := (run_fprop_bindings h1 h01 h02 h12).2
  have k2 := (run_fprop_bindings h2 (by rw [ho]; exact h01) (by rw [ho]; exact h02)
    (by rw [ho]; exact h12)).2
  have k2' := (run_fprop_bindings h2' h01 h02 h12).2
  apply primitives_ext
  intro p
  rw [k2, k2', k1, ho]
  cases deref w.primitives p with
  | none => rfl
  | some q =>
    simp only [Option.map_some']
    by_cases p0 : p = (w.opkernel.inputs 0).prim
    · subst p0
      simp
    · by_cases p1 : p = (w.opkernel.inputs 1).prim
      · subst p1
        simp [Ne.symm h01]
      · by_cases p2 : p = (w.opkernel.outputs 0).prim
        · subst p2
          simp [Ne.symm h02, Ne.symm h12]
        · simp [p0, p1, p2]

/-- The runner returns when the engine accepts the three bindings and the
submission and the three handles name primitives. -/
theorem run_fprop_returns {engine : mkldnn_engine_t} {w : World}
    (conv_src conv_weights conv_dst : void_ptr) (q0 q1 q2 : mkldnn_primitive)
    (hacc : ∀ q p, engine.memory_set_data_handle q p = true)
    (hsub : ∀ n P, engine.stream_submit n P = true)
    (e0 : deref w.primitives (w.opkernel.inputs 0).prim = some q0)
    (e1 : deref w.primitives (w.opkernel.inputs 1).prim = some q1)
    (e2 : deref w.primitives (w.opkernel.outputs 0).prim = some q2) :
    ∃ w1, run_mkldnn_conv_fprop_kernel engine conv_src conv_weights conv_dst w =
      Res.ok () w1 := by
  have e1' : ∃ q, deref (w.primitives.set ((w.opkernel.inputs 0).prim - 1)
      { q0 with data_handle := conv_src }) (w.opkernel.inputs 1).prim = some q := by
    by_cases hp : (w.opkernel.inputs 1).prim = (w.opkernel.inputs 0).prim
    · rw [hp]
      exact ⟨_, deref_set_self _ e0⟩
    · rw [deref_set_other _ e0 hp]
      exact ⟨_, e1⟩
  obtain ⟨q1', e1'⟩ := e1'
  have e2' : ∃ q, deref ((w.primitives.set ((w.opkernel.inputs 0).prim - 1)
      { q0 with data_handle := conv_src }).set ((w.opkernel.inputs 1).prim - 1)
      { q1' with data_handle := conv_weights }) (w.opkernel.outputs 0).prim = some q := by
    by_cases hp : (w.opkernel.outputs 0).prim = (w.opkernel.inputs 1).prim
    · rw [hp]
      exact ⟨_, deref_set_self _ e1'⟩
    · rw [deref_set_other _ e1' hp]
      by_cases hp0 : (w.opkernel.outputs 0).prim = (w.opkernel.inputs 0).prim
      · rw [hp0]
        exact ⟨_, deref_set_self _ e0⟩
      · rw [deref_set_other _ e0 hp0]
        exact ⟨_, e2⟩
  obtain ⟨q2', e2'⟩ := e2'
  unfold run_mkldnn_conv_fprop_kernel
  simp only [opkernel_bind, MKL_CHECK_set_data_handle_bind, e0, e1', e2', hacc, if_true,
    run_mkldnn_opkernel, hsub]
  exact ⟨_, rfl⟩

/-- C10: for a kernel returned by either builder and every triple of buffers:
the runner returns whenever the engine accepts the bindings and the submission;
and whenever either runner returns, the plan was executed once, on bindings in
which the data handles of `inputs[0]`, `inputs[1]` and `outputs[0]` are exactly the
supplied `conv_src`, `conv_weights` and `conv_dst`, whatever was bound before; the
kernel structure (and with it the plan), the allocations and every other
primitive, in particular the internal descriptors with their scratch bindings,
are unchanged; and a later run binds afresh: its bindings are those of the same
run made directly on the built kernel, so they do not depend on the first run's
buffers, and binding the same buffers again changes nothing. -/
theorem run_binds_buffers_then_executes (host : host_t) (engine : mkldnn_engine_t)
    (src_dims weights_dims dst_dims stride_dims pad_dims : Int)
    (conv_src_sizes conv_weights_sizes conv_dst_sizes conv_strides conv_padding : List Int)
    (input_src_pd input_weights_pd : mkldnn_primitive_desc_t)
    (q_src q_dst : mkldnn_query_t) (w0 w : World)
    (conv_src conv_weights conv_dst : void_ptr)
    (hb : built_by host engine src_dims weights_dims dst_dims stride_dims pad_dims
      conv_src_sizes conv_weights_sizes conv_dst_sizes conv_strides conv_padding
      input_src_pd input_weights_pd q_src q_dst w0 w) :
    ((∀ q p, engine.memory_set_data_handle q p = true) →
      (∀ n P, engine.stream_submit n P = true) →
      (∃ w1, run_mkldnn_conv_fprop_kernel engine conv_src conv_weights conv_dst w =
        Res.ok () w1) ∧
      ∃ w1, run_mkldnn_conv_bprop_data_kernel engine conv_src conv_weights conv_dst w =
        Res.ok () w1) ∧
    ∀ w1,
    (run_mkldnn_conv_fprop_kernel engine conv_src conv_weights conv_dst w = Res.ok () w1 ∨
      run_mkldnn_conv_bprop_data_kernel engine conv_src conv_weights conv_dst w =
        Res.ok () w1) →
    w1.submitted = w.submitted ++ [⟨w.opkernel.plan, w1.primitives⟩] ∧
    data_handle_of w1.primitives (w.opkernel.inputs 0).prim = conv_src ∧
    data_handle_of w1.primitives (w.opkernel.inputs 1).prim = conv_weights ∧
    data_handle_of w1.primitives (w.opkernel.outputs 0).prim = conv_dst ∧
    w1.opkernel = w.opkernel ∧ w1.callocs = w.callocs ∧
    (∀ p, p ≠ (w.opkernel.inputs 0).prim → p ≠ (w.opkernel.inputs 1).prim →
      p ≠ (w.opkernel.outputs 0).prim → deref w1.primitives p = deref w.primitives p) ∧
    (w.opkernel.reorder_i 0 ≠ 0 →
      deref w1.primitives (w.opkernel.internal_inputs 0).prim =
        deref w.primitives (w.opkernel.internal_inputs 0).prim ∧
      data_handle_of w1.primitives (w.opkernel.internal_inputs 0).prim =
        (w.opkernel.internal_inputs 0).buffer) ∧
    (w.opkernel.reorder_i 1 ≠ 0 →
      deref w1.primitives (w.opkernel.internal_inputs 1).prim =
        deref w.primitives (w.opkernel.internal_inputs 1).prim ∧
      data_handle_of w1.primitives (w.opkernel.internal_inputs 1).prim =
        (w.opkernel.internal_inputs 1).buffer) ∧
    (∀ b1 b2 b3 w2,
      (run_mkldnn_conv_fprop_kernel engine b1 b2 b3 w1 = Res.ok () w2 ∨
        run_mkldnn_conv_bprop_data_kernel engine b1 b2 b3 w1 = Res.ok () w2) →
      data_handle_of w2.primitives (w.opkernel.inputs 0).prim = b1 ∧
      data_handle_of w2.primitives (w.opkernel.inputs 1).prim = b2 ∧
      data_handle_of w2.primitives (w.opkernel.outputs 0).prim = b3 ∧
      (∀ w2', run_mkldnn_conv_fprop_kernel engine b1 b2 b3 w = Res.ok () w2' →
        w2'.primitives = w2.primitives) ∧
      (b1 = conv_src → b2 = conv_weights → b3 = conv_dst → w2.primitives = w1.primitives)) := by
  obtain ⟨a, ha, hw⟩ := built_by_ok hb
  have i0 := bw_inputs0 hw
  have i1 := bw_inputs1 hw
  have o0 := bw_outputs0 hw
  refine ⟨?_, ?_⟩
  · intro hacc hsub
    have hp := bw_primitives hw
    rw [run_bprop_data_eq_run_fprop, and_self]
    refine run_fprop_returns conv_src conv_weights conv_dst
      ⟨a.desc0, [], [], 0⟩ ⟨a.desc1, [], [], 0⟩ ⟨a.desc_out, [], [], 0⟩ hacc hsub ?_ ?_ ?_
    · rw [i0, hp]
      simp [deref_append, deref_append_zero]
    · rw [i1, hp]
      simp [deref_append, deref_append_zero]
    · rw [o0, hp]
      simp [deref_append, deref_append_zero]
  intro w1 hrun
  rw [run_bprop_data_eq_run_fprop, or_self] at hrun
  have h01 : (w.opkernel.inputs 0).prim ≠ (w.opkernel.inputs 1).prim := by rw [i0, i1]; simp
  have h02 : (w.opkernel.inputs 0).prim ≠ (w.opkernel.outputs 0).prim := by rw [i0, o0]; simp
  have h12 : (w.opkernel.inputs 1).prim ≠ (w.opkernel.outputs 0).prim := by rw [i1, o0]; simp
  obtain ⟨q0, q1, q2, e0, e1, e2, -, ho, hc, hs⟩ := run_fprop_ok hrun
  have e1' : deref w.primitives (w.opkernel.inputs 1).prim = some q1 := by
    rwa [deref_set_other _ e0 (Ne.symm h01)] at e1
  have e2' : deref w.primitives (w.opkernel.outputs 0).prim = some q2 := by
    rw [deref_set_other _ e1 (Ne.symm h12), deref_set_other _ e0 (Ne.symm h02)] at e2
    exact e2
  have k1 := (run_fprop_bindings hrun h01 h02 h12).2
  have hframe : ∀ p, p ≠ (w.opkernel.inputs 0).prim → p ≠ (w.opkernel.inputs 1).prim →
      p ≠ (w.opkernel.outputs 0).prim → deref w1.primitives p = deref w.primitives p := by
    intro p p0 p1 p2
    rw [k1 p]
    cases deref w.primitives p <;> simp [p0, p1, p2]
  refine ⟨hs, ?_, ?_, ?_, ho, hc, hframe, ?_, ?_, ?_⟩
  · rw [data_handle_of, k1, e0]
    simp
  · rw [data_handle_of, k1, e1']
    simp [Ne.symm h01]
  · rw [data_handle_of, k1, e2']
    simp [Ne.symm h02, Ne.symm h12]
  · intro hr
    have hp := bw_primitives hw
    have ii := bw_internal_inputs0 hw
    rw [bw_reorder_i0 hw] at hr
    have hne : (w.opkernel.internal_inputs 0).prim ≠ (w.opkernel.inputs 0).prim ∧
        (w.opkernel.internal_inputs 0).prim ≠ (w.opkernel.inputs 1).prim ∧
        (w.opkernel.internal_inputs 0).prim ≠ (w.opkernel.outputs 0).prim := by
      rw [i0, i1, o0, ii]
      cases hr0 : a.r0 <;> simp [hr0] at hr ⊢
    have hf := hframe _ hne.1 hne.2.1 hne.2.2
    refine ⟨hf, ?_⟩
    rw [data_handle_of, hf, hp, ii]
    obtain ⟨op_desc, desc0, desc1, desc_out, r0, r1⟩ := a
    rcases r0 with _ | ⟨j0, p0⟩ <;> rcases r1 with _ | ⟨j1, p1⟩ <;>
      simp [conv_prims, deref_append, deref_append_zero] at hr ⊢
  · intro hr
    have hp := bw_primitives hw
    have ii := bw_internal_inputs1 hw
    rw [bw_reorder_i1 hw] at hr
    have hne : (w.opkernel.internal_inputs 1).prim ≠ (w.opkernel.inputs 0).prim ∧
        (w.opkernel.internal_inputs 1).prim ≠ (w.opkernel.inputs 1).prim ∧
        (w.opkernel.internal_inputs 1).prim ≠ (w.opkernel.outputs 0).prim := by
      rw [i0, i1, o0, ii]
      cases hr1 : a.r1 <;> cases hr0 : a.r0 <;> simp [hr1, hr0, conv_prims] at hr ⊢
    have hf := hframe _ hne.1 hne.2.1 hne.2.2
    refine ⟨hf, ?_⟩
    rw [data_handle_of, hf, hp, ii]
    obtain ⟨op_desc, desc0, desc1, desc_out, r0, r1⟩ := a
    rcases r0 with _ | ⟨j0, p0⟩ <;> rcases r1 with _ | ⟨j1, p1⟩ <;>
      simp [conv_prims, deref_append, deref_append_zero] at hr ⊢
  · intro b1 b2 b3 w2 h2
    rw [run_bprop_data_eq_run_fprop, or_self] at h2
    have h01' : (w1.opkernel.inputs 0).prim ≠ (w1.opkernel.inputs 1).prim := by rwa [ho]
    have h02' : (w1.opkernel.inputs 0).prim ≠ (w1.opkernel.outputs 0).prim := by rwa [ho]
    have h12' : (w1.opkernel.inputs 1).prim ≠ (w1.opkernel.outputs 0).prim := by rwa [ho]
    have k2 := (run_fprop_bindings h2 h01' h02' h12').2
    rw [ho] at k2
    have d0 : deref w1.primitives (w.opkernel.inputs 0).prim =
        some { q0 with data_handle := conv_src } := by rw [k1, e0]; simp
    have d1 : deref w1.primitives (w.opkernel.inputs 1).prim =
        some { q1 with data_handle := conv_weights } := by rw [k1, e1']; simp [Ne.symm h01]
    have d2 : deref w1.primitives (w.opkernel.outputs 0).prim =
        some { q2 with data_handle := conv_dst } := by
      rw [k1, e2']; simp [Ne.symm h02, Ne.symm h12]
    refine ⟨?_, ?_, ?_, ?_, ?_⟩
    · rw [data_handle_of, k2, d0]
      simp
    · rw [data_handle_of, k2, d1]
      simp [Ne.symm h01]
    · rw [data_handle_of, k2, d2]
      simp [Ne.symm h02, Ne.symm h12]
    · intro w2' h2'
      exact run_fprop_twice hrun h2 h2' h01 h02 h12
    · rintro rfl rfl rfl
      apply primitives_ext
      intro p
      rw [k2 p]
      by_cases p0 : p = (w.opkernel.inputs 0).prim
      · subst p0
        rw [d0]
        simp
      · by_cases p1 : p = (w.opkernel.inputs 1).prim
        · subst p1
          rw [d1]
          simp [Ne.symm h01]
        · by_cases p2 : p = (w.opkernel.outputs 0).prim
          · subst p2
            rw [d2]
            simp [Ne.symm h02, Ne.symm h12]
          · cases deref w1.primitives p <;> simp [p0, p1, p2]

theorem run_binds_buffers_then_executes_witness :
    built_by demo_host engine_b 5 5 5 3 3 [3, 1, 8, 8, 2] [3, 1, 3, 3, 4] [4, 1, 8, 8, 2]
      [1, 1, 1] [0, 1, 1] .null .null .mkldnn_query_diff_dst_pd .mkldnn_query_diff_src_pd
      World.fresh demo_bprop_data.world ∧
    run_mkldnn_conv_bprop_data_kernel engine_b 101 102 103 demo_bprop_data.world =
      Res.ok () demo_run.world ∧
    data_handle_of demo_run.world.primitives (demo_bprop_data.world.opkernel.inputs 0).prim =
      101 :=
  ⟨Or.inr ⟨rfl, rfl, rfl⟩, rfl,
    ((run_binds_buffers_then_executes demo_host engine_b 5 5 5 3 3 [3, 1, 8, 8, 2]
      [3, 1, 3, 3, 4] [4, 1, 8, 8, 2] [1, 1, 1] [0, 1, 1] .null .null .mkldnn_query_diff_dst_pd
      .mkldnn_query_diff_src_pd World.fresh demo_bprop_data.world 101 102 103
      (Or.inr ⟨rfl, rfl, rfl⟩)).2 demo_run.world (Or.inr rfl)).2.1⟩

/-! ## Failure, invariants, frame and the two builders compared -/

/-- C11: in both builders a rejected engine call is fatal and leaves no plan.
A builder exits, instead of returning, exactly when not every engine call on
its path returns success (memory descriptor initialisation, convolution
descriptor initialisation, primitive descriptor creation, reorder descriptor
creation, primitive creation, data handle binding); and in every state in which
a builder exits, `net` and `net_size`, hence the plan, are those on entry. -/
theorem rejected_call_fails_without_plan (host : host_t) (engine : mkldnn_engine_t)
    (src_dims weights_dims dst_dims stride_dims pad_dims : Int)
    (conv_src_sizes conv_weights_sizes conv_dst_sizes conv_strides conv_padding : List Int)
    (input_src_pd input_weights_pd : mkldnn_primitive_desc_t) (w : World) :
    (¬ fprop_calls_accepted host engine src_dims weights_dims conv_src_sizes
        conv_weights_sizes conv_dst_sizes conv_strides conv_padding input_src_pd
        input_weights_pd w ↔
      ∃ w', create_mkldnn_conv_fprop_kernel host engine src_dims weights_dims dst_dims
        stride_dims pad_dims conv_src_sizes conv_weights_sizes conv_dst_sizes conv_strides
        conv_padding input_src_pd input_weights_pd w = Res.exit w') ∧
    (¬ bprop_data_calls_accepted host engine src_dims weights_dims conv_src_sizes
        conv_weights_sizes conv_dst_sizes conv_strides conv_padding input_src_pd
        input_weights_pd w ↔
      ∃ w', create_mkldnn_conv_bprop_data_kernel host engine src_dims weights_dims dst_dims
        stride_dims pad_dims conv_src_sizes conv_weights_sizes conv_dst_sizes conv_strides
        conv_padding input_src_pd input_weights_pd w = Res.exit w') ∧
    (∀ w',
      (create_mkldnn_conv_fprop_kernel host engine src_dims weights_dims dst_dims
          stride_dims pad_dims conv_src_sizes conv_weights_sizes conv_dst_sizes conv_strides
          conv_padding input_src_pd input_weights_pd w = Res.exit w' ∨
        create_mkldnn_conv_bprop_data_kernel host engine src_dims weights_dims dst_dims
          stride_dims pad_dims conv_src_sizes conv_weights_sizes conv_dst_sizes conv_strides
          conv_padding input_src_pd input_weights_pd w = Res.exit w') →
      w'.opkernel.net = w.opkernel.net ∧ w'.opkernel.net_size = w.opkernel.net_size ∧
        w'.opkernel.plan = w.opkernel.plan) := by
  refine ⟨?_, ?_, ?_⟩
  · rw [← fprop_returns_iff host engine src_dims weights_dims dst_dims stride_dims pad_dims]
    constructor
    · intro hn
      rcases Res.ok_or_exit (create_mkldnn_conv_fprop_kernel host engine src_dims weights_dims
          dst_dims stride_dims pad_dims conv_src_sizes conv_weights_sizes conv_dst_sizes
          conv_strides conv_padding input_src_pd input_weights_pd w) with h | h
      · exact absurd h hn
      · exact h
    · rintro ⟨w', h⟩ ⟨w2, h2⟩
      rw [h] at h2
      cases h2
  · rw [← bprop_data_returns_iff host engine src_dims weights_dims dst_dims stride_dims
      pad_dims]
    constructor
    · intro hn
      rcases Res.ok_or_exit (create_mkldnn_conv_bprop_data_kernel host engine src_dims
          weights_dims dst_dims stride_dims pad_dims conv_src_sizes conv_weights_sizes
          conv_dst_sizes conv_strides conv_padding input_src_pd input_weights_pd w) with h | h
      · exact absurd h hn
      · exact h
    · rintro ⟨w', h⟩ ⟨w2, h2⟩
      rw [h] at h2
      cases h2
  · intro w' h
    have hk : keeps_net w w' := by
      rcases h with h | h
      · exact fprop_exit_quiet _ _ _ _ _ _ _ _ _ _ _ _ _ _ w w' h
      · exact bprop_data_exit_quiet _ _ _ _ _ _ _ _ _ _ _ _ _ _ w w' h
    refine ⟨hk.1, hk.2, ?_⟩
    unfold mkldnn_opkernel.plan
    rw [hk.1, hk.2]

theorem rejected_call_fails_without_plan_witness :
    (¬ fprop_calls_accepted demo_host engine_a 5 5 [3, 1, 8, 8, 2] [3, 1, 3, 3, 4]
        [4, 1, 0, 8, 2] [1, 1, 1] [0, 1, 1] .null .null World.fresh) ∧
    (∃ w', create_mkldnn_conv_fprop_kernel demo_host engine_a 5 5 5 3 3 [3, 1, 8, 8, 2]
      [3, 1, 3, 3, 4] [4, 1, 0, 8, 2] [1, 1, 1] [0, 1, 1] .null .null World.fresh =
        Res.exit w') ∧
    demo_fprop_rejected = Res.exit World.fresh ∧
    demo_fprop_strict = Res.exit demo_fprop_strict.world ∧
    demo_fprop_strict.world.primitives.length = 7 ∧
    demo_fprop_strict.world.callocs = [⟨384, sizeof_float, 0⟩] ∧
    (demo_fprop_strict.world.opkernel.net = World.fresh.opkernel.net ∧
      demo_fprop_strict.world.opkernel.net_size = World.fresh.opkernel.net_size ∧
      demo_fprop_strict.world.opkernel.plan = World.fresh.opkernel.plan) := by
  have hn : ¬ fprop_calls_accepted demo_host engine_a 5 5 [3, 1, 8, 8, 2] [3, 1, 3, 3, 4]
      [4, 1, 0, 8, 2] [1, 1, 1] [0, 1, 1] .null .null World.fresh := by
    rintro ⟨_, _, dst_md, _, _, _, _, h3, _⟩
    have hr : engine_a.memory_desc_init 4
        (demo_host.set_mkl_dimensions [3, 1, 8, 8, 2] [4, 1, 0, 8, 2] [3, 1, 3, 3, 4]
          [1, 1, 1] [0, 1, 1]).mkl_dst_sizes .mkldnn_f32 .mkldnn_any = none := by decide
    rw [hr] at h3
    cases h3
  exact ⟨hn,
    (rejected_call_fails_without_plan demo_host engine_a 5 5 5 3 3 [3, 1, 8, 8, 2]
      [3, 1, 3, 3, 4] [4, 1, 0, 8, 2] [1, 1, 1] [0, 1, 1] .null .null World.fresh).1.1 hn,
    rfl, rfl, rfl, rfl,
    (rejected_call_fails_without_plan null_host engine_strict 5 5 5 3 3 [3, 1, 8, 8, 2]
      [3, 1, 3, 3, 4] [4, 1, 8, 8, 2] [1, 1, 1] [0, 1, 1] .null .null World.fresh).2.2
      demo_fprop_strict.world (Or.inl rfl)⟩

/-- C12, as stated, fails: with an allocator that returns NULL and an engine that
accepts the binding, both builders return normally; the two allocation results
are NULL, NULL is recorded as the buffer of both internal descriptors and bound
as their data handle, and both conversion steps are in the plan. -/
theorem failed_allocation_build_completes :
    (demo_fprop_no_memory = Res.ok () demo_fprop_no_memory.world ∧
      demo_fprop_no_memory.world.callocs = [⟨384, sizeof_float, 0⟩, ⟨108, sizeof_float, 0⟩] ∧
      (demo_fprop_no_memory.world.opkernel.internal_inputs 0).buffer = 0 ∧
      (demo_fprop_no_memory.world.opkernel.internal_inputs 1).buffer = 0 ∧
      data_handle_of demo_fprop_no_memory.world.primitives
        (demo_fprop_no_memory.world.opkernel.internal_inputs 0).prim = 0 ∧
      data_handle_of demo_fprop_no_memory.world.primitives
        (demo_fprop_no_memory.world.opkernel.internal_inputs 1).prim = 0 ∧
      demo_fprop_no_memory.world.opkernel.reorder_i 0 = 5 ∧
      demo_fprop_no_memory.world.opkernel.reorder_i 1 = 7 ∧
      demo_fprop_no_memory.world.opkernel.plan = [5, 7, 8]) ∧
    (demo_bprop_data_no_memory = Res.ok () demo_bprop_data_no_memory.world ∧
      demo_bprop_data_no_memory.world.callocs =
        [⟨384, sizeof_float, 0⟩, ⟨108, sizeof_float, 0⟩] ∧
      (demo_bprop_data_no_memory.world.opkernel.internal_inputs 0).buffer = 0 ∧
      (demo_bprop_data_no_memory.world.opkernel.internal_inputs 1).buffer = 0 ∧
      demo_bprop_data_no_memory.world.opkernel.plan = [5, 7, 8]) ∧
    ¬ allocation_failure_fatal null_host engine_b := by
  refine ⟨⟨rfl, rfl, rfl, rfl, rfl, rfl, rfl, rfl, rfl⟩, ⟨rfl, rfl, rfl, rfl, rfl⟩, ?_⟩
  intro hc
  have b : built_by null_host engine_b 5 5 5 3 3 [3, 1, 8, 8, 2] [3, 1, 3, 3, 4]
      [4, 1, 8, 8, 2] [1, 1, 1] [0, 1, 1] .null .null
      .mkldnn_query_src_pd .mkldnn_query_dst_pd World.fresh demo_fprop_no_memory.world :=
    Or.inl ⟨rfl, rfl, rfl⟩
  exact hc _ _ _ _ _ _ _ _ _ _ _ _ _ _ _ _ b 0 (by decide) (by decide) rfl

/-- C12, amended: the builders do not test the allocator's result.  For every
converted input slot of a returned build, the buffer recorded in
`internal_inputs[k]` is the result of this build's `calloc` request, whatever
it is; the build returned because the engine accepted binding that value to
the internal descriptor; the value is the data handle of the internal
descriptor and the conversion step is in the plan.  So a failed allocation is
fatal exactly when the engine rejects a NULL data handle: with such an engine
every converted slot of a returned build has a non-NULL buffer. -/
theorem scratch_result_bound_unchecked (host : host_t) (engine : mkldnn_engine_t)
    (src_dims weights_dims dst_dims stride_dims pad_dims : Int)
    (conv_src_sizes conv_weights_sizes conv_dst_sizes conv_strides conv_padding : List Int)
    (input_src_pd input_weights_pd : mkldnn_primitive_desc_t)
    (q_src q_dst : mkldnn_query_t) (w w' : World)
    (h : built_by host engine src_dims weights_dims dst_dims stride_dims pad_dims
      conv_src_sizes conv_weights_sizes conv_dst_sizes conv_strides conv_padding
      input_src_pd input_weights_pd q_src q_dst w w') :
    (w'.opkernel.reorder_i 0 ≠ 0 →
      (⟨product conv_src_sizes src_dims, sizeof_float,
          (w'.opkernel.internal_inputs 0).buffer⟩ : calloc_record) ∈
        w'.callocs.drop w.callocs.length ∧
      (w'.opkernel.internal_inputs 0).buffer =
        host.calloc w.callocs (product conv_src_sizes src_dims) sizeof_float ∧
      engine.memory_set_data_handle ⟨(w'.opkernel.internal_inputs 0).desc, [], [], 0⟩
        (w'.opkernel.internal_inputs 0).buffer = true ∧
      data_handle_of w'.primitives (w'.opkernel.internal_inputs 0).prim =
        (w'.opkernel.internal_inputs 0).buffer ∧
      w'.opkernel.reorder_i 0 ∈ w'.opkernel.plan) ∧
    (w'.opkernel.reorder_i 1 ≠ 0 →
      (⟨product conv_weights_sizes weights_dims, sizeof_float,
          (w'.opkernel.internal_inputs 1).buffer⟩ : calloc_record) ∈
        w'.callocs.drop w.callocs.length ∧
      (w'.opkernel.internal_inputs 1).buffer =
        host.calloc
          (w.callocs ++
            if w'.opkernel.reorder_i 0 ≠ 0 then
              [⟨product conv_src_sizes src_dims, sizeof_float,
                (w'.opkernel.internal_inputs 0).buffer⟩]
            else [])
          (product conv_weights_sizes weights_dims) sizeof_float ∧
      engine.memory_set_data_handle ⟨(w'.opkernel.internal_inputs 1).desc, [], [], 0⟩
        (w'.opkernel.internal_inputs 1).buffer = true ∧
      data_handle_of w'.primitives (w'.opkernel.internal_inputs 1).prim =
        (w'.opkernel.internal_inputs 1).buffer ∧
      w'.opkernel.reorder_i 1 ∈ w'.opkernel.plan) ∧
    ((∀ q, engine.memory_set_data_handle q 0 = false) →
      ∀ k, k < 2 → w'.opkernel.reorder_i k ≠ 0 →
        (w'.opkernel.internal_inputs k).buffer ≠ 0) := by
  obtain ⟨a, ha, hc, hw⟩ := built_by_ok_calls h
  have hb0 := calls_accepted_bound0 hc hw
  have hb1 := calls_accepted_bound1 hc hw
  have hr0 := bw_reorder_i0 hw
  have hr1 := bw_reorder_i1 hw
  have hi0 := bw_internal_inputs0 hw
  have hi1 := bw_internal_inputs1 hw
  have hca := bw_callocs hw
  have hpl := bw_plan hw
  have hpr := bw_primitives hw
  refine ⟨?_, ?_, ?_⟩
  · intro hr
    have s0 : a.r0.isSome = true := by
      by_contra hs
      simp [hs] at hr0
      exact hr hr0
    refine ⟨?_, ?_, hb0 hr, ?_, ?_⟩
    · rw [hca]
      simp [s0]
    · rw [hi0]
      rcases hs : a.r0 with _ | ⟨i0, p0⟩
      · simp [hs] at s0
      · rfl
    · rcases hs : a.r0 with _ | ⟨i0, p0⟩
      · simp [hs] at s0
      · rw [hpr, hs]
        rw [hi0, hs]
        simp [data_handle_of, deref_append]
    · rw [hpl]
      simp [s0]
  · intro hr
    have s1 : a.r1.isSome = true := by
      by_contra hs
      simp [hs] at hr1
      exact hr hr1
    refine ⟨?_, ?_, hb1 hr, ?_, ?_⟩
    · rw [hca]
      simp [s1]
    · rw [hi1, hr0, hi0]
      rcases hs : a.r1 with _ | ⟨i1, p1⟩
      · simp [hs] at s1
      · rcases hs0 : a.r0 with _ | ⟨i0, p0⟩ <;> simp
    · rcases hs : a.r1 with _ | ⟨i1, p1⟩
      · simp [hs] at s1
      · rw [hpr, hs]
        rw [hi1, hs]
        rcases hs0 : a.r0 with _ | ⟨i0, p0⟩ <;>
          simp [data_handle_of, deref_append, conv_prims, hs0]
    · rw [hpl]
      simp [s1]
  · intro hrej k hk hr hz
    have hk' : k = 0 ∨ k = 1 := by omega
    rcases hk' with rfl | rfl
    · have := hb0 hr
      rw [hz, hrej] at this
      cases this
    · have := hb1 hr
      rw [hz, hrej] at this
      cases this

theorem scratch_result_bound_unchecked_witness :
    built_by null_host engine_b 5 5 5 3 3 [3, 1, 8, 8, 2] [3, 1, 3, 3, 4] [4, 1, 8, 8, 2]
      [1, 1, 1] [0, 1, 1] .null .null .mkldnn_query_src_pd .mkldnn_query_dst_pd
      World.fresh demo_fprop_no_memory.world ∧
    (demo_fprop_no_memory.world.opkernel.reorder_i 0 ≠ 0 →
      (⟨product [3, 1, 8, 8, 2] 5, sizeof_float,
          (demo_fprop_no_memory.world.opkernel.internal_inputs 0).buffer⟩ : calloc_record) ∈
        demo_fprop_no_memory.world.callocs.drop World.fresh.callocs.length ∧
      (demo_fprop_no_memory.world.opkernel.internal_inputs 0).buffer =
        null_host.calloc World.fresh.callocs (product [3, 1, 8, 8, 2] 5) sizeof_float ∧
      engine_b.memory_set_data_handle
        ⟨(demo_fprop_no_memory.world.opkernel.internal_inputs 0).desc, [], [], 0⟩
        (demo_fprop_no_memory.world.opkernel.internal_inputs 0).buffer = true ∧
      data_handle_of demo_fprop_no_memory.world.primitives
          (demo_fprop_no_memory.world.opkernel.internal_inputs 0).prim =
        (demo_fprop_no_memory.world.opkernel.internal_inputs 0).buffer ∧
      demo_fprop_no_memory.world.opkernel.reorder_i 0 ∈
        demo_fprop_no_memory.world.opkernel.plan) :=
  ⟨Or.inl ⟨rfl, rfl, rfl⟩,
    (scratch_result_bound_unchecked null_host engine_b 5 5 5 3 3 [3, 1, 8, 8, 2]
      [3, 1, 3, 3, 4] [4, 1, 8, 8, 2] [1, 1, 1] [0, 1, 1] .null .null .mkldnn_query_src_pd
      .mkldnn_query_dst_pd World.fresh demo_fprop_no_memory.world
      (Or.inl ⟨rfl, rfl, rfl⟩)).1⟩

/-- C13: after every successful build by either builder the kernel has exactly 2
inputs and 1 output.  `num_inputs = 2` and `num_outputs = 1`; `inputs[0]` is the
4-dimensional descriptor of the flattened source sizes (the primary operand),
`inputs[1]` that of the flattened weights sizes and `outputs[0]` that of the
flattened destination sizes (the result), each with its own memory primitive;
no other input or output slot is written; and the forward builder's compute
descriptor is the one the engine creates from the forward convolution
descriptor initialised with no bias descriptor. -/
theorem two_inputs_one_output (host : host_t) (engine : mkldnn_engine_t)
    (src_dims weights_dims dst_dims stride_dims pad_dims : Int)
    (conv_src_sizes conv_weights_sizes conv_dst_sizes conv_strides conv_padding : List Int)
    (input_src_pd input_weights_pd : mkldnn_primitive_desc_t)
    (q_src q_dst : mkldnn_query_t) (w w' : World)
    (h : built_by host engine src_dims weights_dims dst_dims stride_dims pad_dims
      conv_src_sizes conv_weights_sizes conv_dst_sizes conv_strides conv_padding
      input_src_pd input_weights_pd q_src q_dst w w') :
    w'.opkernel.num_inputs = 2 ∧ w'.opkernel.num_outputs = 1 ∧
    ((w'.opkernel.inputs 0).ndims = 4 ∧
      (w'.opkernel.inputs 0).sizes = (host.set_mkl_dimensions conv_src_sizes conv_dst_sizes
        conv_weights_sizes conv_strides conv_padding).mkl_src_sizes ∧
      (w'.opkernel.inputs 0).prim = w.primitives.length + 1) ∧
    ((w'.opkernel.inputs 1).ndims = 4 ∧
      (w'.opkernel.inputs 1).sizes = (host.set_mkl_dimensions conv_src_sizes conv_dst_sizes
        conv_weights_sizes conv_strides conv_padding).mkl_weights_sizes ∧
      (w'.opkernel.inputs 1).prim = w.primitives.length + 2) ∧
    ((w'.opkernel.outputs 0).ndims = 4 ∧
      (w'.opkernel.outputs 0).sizes = (host.set_mkl_dimensions conv_src_sizes conv_dst_sizes
        conv_weights_sizes conv_strides conv_padding).mkl_dst_sizes ∧
      (w'.opkernel.outputs 0).prim = w.primitives.length + 3) ∧
    (∀ k, 2 ≤ k → w'.opkernel.inputs k = w.opkernel.inputs k) ∧
    (∀ k, 1 ≤ k → w'.opkernel.outputs k = w.opkernel.outputs k) ∧
    (q_src = .mkldnn_query_src_pd →
      ∃ src_md weights_md dst_md conv_desc,
        engine.memory_desc_init 4 (host.set_mkl_dimensions conv_src_sizes conv_dst_sizes
          conv_weights_sizes conv_strides conv_padding).mkl_src_sizes .mkldnn_f32
            .mkldnn_any = some src_md ∧
        engine.memory_desc_init 4 (host.set_mkl_dimensions conv_src_sizes conv_dst_sizes
          conv_weights_sizes conv_strides conv_padding).mkl_weights_sizes .mkldnn_f32
            .mkldnn_any = some weights_md ∧
        engine.memory_desc_init 4 (host.set_mkl_dimensions conv_src_sizes conv_dst_sizes
          conv_weights_sizes conv_strides conv_padding).mkl_dst_sizes .mkldnn_f32
            .mkldnn_any = some dst_md ∧
        engine.convolution_forward_desc_init .mkldnn_forward .mkldnn_convolution_direct
          src_md weights_md none dst_md
          (host.set_mkl_dimensions conv_src_sizes conv_dst_sizes
            conv_weights_sizes conv_strides conv_padding).mkl_strides
          (host.set_mkl_dimensions conv_src_sizes conv_dst_sizes
            conv_weights_sizes conv_strides conv_padding).mkl_padding
          (host.set_mkl_dimensions conv_src_sizes conv_dst_sizes
            conv_weights_sizes conv_strides conv_padding).mkl_padding
          .mkldnn_padding_zero = some conv_desc ∧
        engine.primitive_desc_create conv_desc = some w'.opkernel.op_desc) := by
  obtain ⟨a, -, hw⟩ := built_by_ok h
  refine ⟨bw_num_inputs hw, bw_num_outputs hw, ?_, ?_, ?_, ?_, ?_, ?_⟩
  · rw [bw_inputs0 hw]
    exact ⟨rfl, rfl, rfl⟩
  · rw [bw_inputs1 hw]
    exact ⟨rfl, rfl, rfl⟩
  · rw [bw_outputs0 hw]
    exact ⟨rfl, rfl, rfl⟩
  · intro k hk
    exact bw_inputs_frame k (by omega) (by omega) hw
  · intro k hk
    exact bw_outputs_frame k (by omega) hw
  · intro hq
    rcases h with ⟨h, -, -⟩ | ⟨-, hq', -⟩
    · obtain ⟨src_md, weights_md, dst_md, conv_desc, a', h1, h2, h3, h4, h5, -, hw'⟩ :=
        fprop_ok _ _ _ _ _ _ _ _ _ _ _ _ _ _ _ _ h
      refine ⟨src_md, weights_md, dst_md, conv_desc, h1, h2, h3, h4, ?_⟩
      rw [bw_op_desc hw']
      exact h5
    · rw [hq] at hq'
      cases hq'

theorem two_inputs_one_output_witness :
    built_by demo_host engine_b 5 5 5 3 3 [3, 1, 8, 8, 2] [3, 1, 3, 3, 4] [4, 1, 8, 8, 2]
      [1, 1, 1] [0, 1, 1] .null .null .mkldnn_query_diff_dst_pd .mkldnn_query_diff_src_pd
      World.fresh demo_bprop_data.world ∧
    (demo_bprop_data.world.opkernel.num_inputs = 2 ∧
      demo_bprop_data.world.opkernel.num_outputs = 1) ∧
    demo_fprop.world.opkernel.op_desc =
      .convolution
        (.forward .mkldnn_forward .mkldnn_convolution_direct
          ⟨4, [2, 3, 8, 8], .mkldnn_f32, .mkldnn_any⟩
          ⟨4, [4, 3, 3, 3], .mkldnn_f32, .mkldnn_any⟩ none
          ⟨4, [2, 4, 8, 8], .mkldnn_f32, .mkldnn_any⟩ [1, 1] [1, 1] [1, 1]
          .mkldnn_padding_zero)
        ⟨4, [2, 3, 8, 8], .mkldnn_f32, .other_format 8⟩
        ⟨4, [4, 3, 3, 3], .mkldnn_f32, .mkldnn_ihwo⟩
        ⟨4, [2, 4, 8, 8], .mkldnn_f32, .other_format 8⟩ :=
  ⟨Or.inr ⟨rfl, rfl, rfl⟩,
    ⟨(two_inputs_one_output demo_host engine_b 5 5 5 3 3 [3, 1, 8, 8, 2]
      [3, 1, 3, 3, 4] [4, 1, 8, 8, 2] [1, 1, 1] [0, 1, 1] .null .null .mkldnn_query_diff_dst_pd
      .mkldnn_query_diff_src_pd World.fresh demo_bprop_data.world
      (Or.inr ⟨rfl, rfl, rfl⟩)).1,
    (two_inputs_one_output demo_host engine_b 5 5 5 3 3 [3, 1, 8, 8, 2]
      [3, 1, 3, 3, 4] [4, 1, 8, 8, 2] [1, 1, 1] [0, 1, 1] .null .null .mkldnn_query_diff_dst_pd
      .mkldnn_query_diff_src_pd World.fresh demo_bprop_data.world
      (Or.inr ⟨rfl, rfl, rfl⟩)).2.1⟩, rfl⟩

/-- C14: a forward build with no inherited layouts yields exactly one output
descriptor, of the 4-dimensional flattened destination shape.  `num_outputs = 1`,
`outputs[0]` is 4-dimensional with the `mkl_dst_sizes` the layout translation
`set_mkl_dimensions` produces from the caller's sizes, no other output slot is
written, and the plan grows by the conversion count plus one, that count being
at most 2.  In the scenario where the translation yields source [2,3,8,8],
weights [4,3,3,3], destination [2,4,8,8], stride [1,1] and padding [1,1], the
output descriptor has shape [2,4,8,8] and the conversion count is 0, 1 or 2. -/
theorem fprop_default_layouts_output (host : host_t) (engine : mkldnn_engine_t)
    (src_dims weights_dims dst_dims stride_dims pad_dims : Int)
    (conv_src_sizes conv_weights_sizes conv_dst_sizes conv_strides conv_padding : List Int)
    (w w' : World)
    (h : create_mkldnn_conv_fprop_kernel host engine src_dims weights_dims dst_dims stride_dims
      pad_dims conv_src_sizes conv_weights_sizes conv_dst_sizes conv_strides conv_padding
      .null .null w = Res.ok () w') :
    w'.opkernel.num_outputs = 1 ∧
    (w'.opkernel.outputs 0).ndims = 4 ∧
    (w'.opkernel.outputs 0).sizes = (host.set_mkl_dimensions conv_src_sizes conv_dst_sizes
      conv_weights_sizes conv_strides conv_padding).mkl_dst_sizes ∧
    (∀ k, 1 ≤ k → w'.opkernel.outputs k = w.opkernel.outputs k) ∧
    conversion_count w'.opkernel ≤ 2 ∧
    w'.opkernel.plan.length = w.opkernel.plan.length + conversion_count w'.opkernel + 1 ∧
    (host.set_mkl_dimensions conv_src_sizes conv_dst_sizes conv_weights_sizes conv_strides
        conv_padding = ⟨[2, 3, 8, 8], [2, 4, 8, 8], [4, 3, 3, 3], [1, 1], [1, 1]⟩ →
      (w'.opkernel.outputs 0).sizes = [2, 4, 8, 8] ∧
      (conversion_count w'.opkernel = 0 ∨ conversion_count w'.opkernel = 1 ∨
        conversion_count w'.opkernel = 2)) := by
  obtain ⟨a, -, hw⟩ := built_by_ok (Or.inl ⟨h, rfl, rfl⟩)
  have ho := bw_outputs0 hw
  have hc : conversion_count w'.opkernel ≤ 2 := by
    unfold conversion_count
    split <;> split <;> omega
  refine ⟨bw_num_outputs hw, by rw [ho], by rw [ho], ?_, hc, ?_, ?_⟩
  · intro k hk
    exact bw_outputs_frame k (by omega) hw
  · rw [bw_plan hw]
    unfold conversion_count
    rw [bw_reorder_i0 hw, bw_reorder_i1 hw]
    cases a.r0 <;> cases a.r1 <;> simp
  · intro hs
    refine ⟨by rw [ho, hs], ?_⟩
    omega

theorem fprop_default_layouts_output_witness :
    (create_mkldnn_conv_fprop_kernel demo_host engine_a 5 5 5 3 3 [3, 1, 8, 8, 2]
      [3, 1, 3, 3, 4] [4, 1, 8, 8, 2] [1, 1, 1] [0, 1, 1] .null .null World.fresh =
        Res.ok () demo_fprop.world) ∧
    (demo_host.set_mkl_dimensions [3, 1, 8, 8, 2] [4, 1, 8, 8, 2] [3, 1, 3, 3, 4] [1, 1, 1]
      [0, 1, 1] = ⟨[2, 3, 8, 8], [2, 4, 8, 8], [4, 3, 3, 3], [1, 1], [1, 1]⟩) ∧
    ((demo_fprop.world.opkernel.outputs 0).sizes = [2, 4, 8, 8] ∧
      (conversion_count demo_fprop.world.opkernel = 0 ∨
        conversion_count demo_fprop.world.opkernel = 1 ∨
        conversion_count demo_fprop.world.opkernel = 2)) ∧
    conversion_count demo_fprop_c.world.opkernel = 0 ∧
    conversion_count demo_fprop.world.opkernel = 1 ∧
    conversion_count demo_fprop_b.world.opkernel = 2 :=
  ⟨rfl, rfl,
    (fprop_default_layouts_output demo_host engine_a 5 5 5 3 3 [3, 1, 8, 8, 2]
      [3, 1, 3, 3, 4] [4, 1, 8, 8, 2] [1, 1, 1] [0, 1, 1] World.fresh demo_fprop.world
      rfl).2.2.2.2.2.2 rfl,
    rfl, rfl, rfl⟩

/-- C15: construction is deterministic.  For a fixed host and engine, two
successful builds by the same builder with identical shape, stride, padding and
inherited-layout arguments, started from any two kernel states, convert the same
input slots, create the same number of conversion steps, store the same compute,
input, output and internal descriptors, and append the same steps in the same
order: step by step the handles appended to the two plans differ only by the
number of primitives that existed before each build.  Started from the same
state the two builds end in the same state. -/
theorem construction_deterministic (host : host_t) (engine : mkldnn_engine_t)
    (src_dims weights_dims dst_dims stride_dims pad_dims : Int)
    (conv_src_sizes conv_weights_sizes conv_dst_sizes conv_strides conv_padding : List Int)
    (input_src_pd input_weights_pd : mkldnn_primitive_desc_t)
    (q_src q_dst : mkldnn_query_t) (w1 w1' w2 w2' : World)
    (h1 : built_by host engine src_dims weights_dims dst_dims stride_dims pad_dims
      conv_src_sizes conv_weights_sizes conv_dst_sizes conv_strides conv_padding
      input_src_pd input_weights_pd q_src q_dst w1 w1')
    (h2 : built_by host engine src_dims weights_dims dst_dims stride_dims pad_dims
      conv_src_sizes conv_weights_sizes conv_dst_sizes conv_strides conv_padding
      input_src_pd input_weights_pd q_src q_dst w2 w2') :
    (∀ k, k < 2 → (w1'.opkernel.reorder_i k ≠ 0 ↔ w2'.opkernel.reorder_i k ≠ 0)) ∧
    conversion_count w1'.opkernel = conversion_count w2'.opkernel ∧
    w1'.opkernel.net_size - w1.opkernel.net_size =
      w2'.opkernel.net_size - w2.opkernel.net_size ∧
    (w1'.opkernel.plan = w1.opkernel.plan ++ build_steps w1'.opkernel ∧
      w2'.opkernel.plan = w2.opkernel.plan ++ build_steps w2'.opkernel ∧
      (build_steps w1'.opkernel).map (fun p => p - w1.primitives.length) =
        (build_steps w2'.opkernel).map (fun p => p - w2.primitives.length)) ∧
    (w1'.opkernel.op_desc = w2'.opkernel.op_desc ∧
      (w1'.opkernel.inputs 0).desc = (w2'.opkernel.inputs 0).desc ∧
      (w1'.opkernel.inputs 1).desc = (w2'.opkernel.inputs 1).desc ∧
      (w1'.opkernel.outputs 0).desc = (w2'.opkernel.outputs 0).desc ∧
      (∀ k, k < 2 → w1'.opkernel.reorder_i k ≠ 0 →
        (w1'.opkernel.internal_inputs k).desc = (w2'.opkernel.internal_inputs k).desc)) ∧
    (w1 = w2 → w1' = w2') := by
  obtain ⟨a, -, e1, e2⟩ := built_by_same_answers h1 h2
  have r10 := bw_reorder_i0 e1
  have r11 := bw_reorder_i1 e1
  have r20 := bw_reorder_i0 e2
  have r21 := bw_reorder_i1 e2
  have p1 := bw_op_prim e1
  have p2 := bw_op_prim e2
  have s0 : ∀ k, k < 2 → (w1'.opkernel.reorder_i k ≠ 0 ↔ w2'.opkernel.reorder_i k ≠ 0) := by
    intro k hk
    have hk' : k = 0 ∨ k = 1 := by omega
    rcases hk' with rfl | rfl
    · rw [r10, r20]
      cases a.r0 <;> simp
    · rw [r11, r21]
      cases a.r1 <;> simp
  refine ⟨s0, ?_, ?_, ⟨?_, ?_, ?_⟩, ⟨?_, ?_, ?_, ?_, ?_⟩, ?_⟩
  · unfold conversion_count
    rw [r10, r11, r20, r21]
    cases a.r0 <;> cases a.r1 <;> simp
  · rw [bw_net_size e1, bw_net_size e2]
    omega
  · rw [bw_plan e1]
    unfold build_steps
    rw [r10, r11]
    cases a.r0 <;> cases a.r1 <;> simp
  · rw [bw_plan e2]
    unfold build_steps
    rw [r20, r21]
    cases a.r0 <;> cases a.r1 <;> simp
  · unfold build_steps
    rw [r10, r11, r20, r21, p1, p2]
    cases a.r0 <;> cases a.r1 <;> simp [conv_prims] <;> omega
  · rw [bw_op_desc e1, bw_op_desc e2]
  · rw [bw_inputs0 e1, bw_inputs0 e2]
  · rw [bw_inputs1 e1, bw_inputs1 e2]
  · rw [bw_outputs0 e1, bw_outputs0 e2]
  · intro k hk hr
    have hk' : k = 0 ∨ k = 1 := by omega
    rcases hk' with rfl | rfl
    · rw [bw_internal_inputs0 e1, bw_internal_inputs0 e2]
      rw [r10] at hr
      rcases hs : a.r0 with _ | ⟨i0, p0⟩
      · simp [hs] at hr
      · rfl
    · rw [bw_internal_inputs1 e1, bw_internal_inputs1 e2]
      rw [r11] at hr
      rcases hs : a.r1 with _ | ⟨i1, p1⟩
      · simp [hs] at hr
      · rfl
  · intro hw
    subst hw
    rw [e1, e2]

theorem construction_deterministic_witness :
    built_by demo_host engine_a 5 5 5 3 3 [3, 1, 8, 8, 2] [3, 1, 3, 3, 4] [4, 1, 8, 8, 2]
      [1, 1, 1] [0, 1, 1] .null .null .mkldnn_query_src_pd .mkldnn_query_dst_pd
      World.fresh demo_fprop.world ∧
    built_by demo_host engine_a 5 5 5 3 3 [3, 1, 8, 8, 2] [3, 1, 3, 3, 4] [4, 1, 8, 8, 2]
      [1, 1, 1] [0, 1, 1] .null .null .mkldnn_query_src_pd .mkldnn_query_dst_pd
      demo_fprop.world demo_fprop_again.world ∧
    conversion_count demo_fprop.world.opkernel =
      conversion_count demo_fprop_again.world.opkernel ∧
    demo_fprop.world.opkernel.plan = [5, 6] ∧
    demo_fprop_again.world.opkernel.plan = [5, 6, 11, 12] :=
  ⟨Or.inl ⟨rfl, rfl, rfl⟩, Or.inl ⟨rfl, rfl, rfl⟩,
    (construction_deterministic demo_host engine_a 5 5 5 3 3 [3, 1, 8, 8, 2]
      [3, 1, 3, 3, 4] [4, 1, 8, 8, 2] [1, 1, 1] [0, 1, 1] .null .null .mkldnn_query_src_pd
      .mkldnn_query_dst_pd World.fresh demo_fprop.world demo_fprop.world
      demo_fprop_again.world (Or.inl ⟨rfl, rfl, rfl⟩) (Or.inl ⟨rfl, rfl, rfl⟩)).2.1,
    rfl, rfl⟩

/-- C16: both builders append to the plan at the kernel's current `net_size`
without resetting it.  For every state on entry, with `net_size = n`, a
successful build leaves `net[0..n-1]` unchanged, writes its steps (the
conversion steps present, in slot order, then the compute step) at `net[n]`,
`net[n+1]`, ..., and sets `net_size` to `n` plus the number of conversion steps
plus one; the plan is the old plan followed by this build's steps, so it
consists of this build's steps alone exactly when `n = 0`. -/
theorem build_appends_at_net_size (host : host_t) (engine : mkldnn_engine_t)
    (src_dims weights_dims dst_dims stride_dims pad_dims : Int)
    (conv_src_sizes conv_weights_sizes conv_dst_sizes conv_strides conv_padding : List Int)
    (input_src_pd input_weights_pd : mkldnn_primitive_desc_t)
    (q_src q_dst : mkldnn_query_t) (w w' : World)
    (h : built_by host engine src_dims weights_dims dst_dims stride_dims pad_dims
      conv_src_sizes conv_weights_sizes conv_dst_sizes conv_strides conv_padding
      input_src_pd input_weights_pd q_src q_dst w w') :
    (∀ i, i < w.opkernel.net_size → w'.opkernel.net i = w.opkernel.net i) ∧
    w'.opkernel.net_size = w.opkernel.net_size + conversion_count w'.opkernel + 1 ∧
    (List.range (conversion_count w'.opkernel + 1)).map
        (fun i => w'.opkernel.net (w.opkernel.net_size + i)) = build_steps w'.opkernel ∧
    w'.opkernel.plan = w.opkernel.plan ++ build_steps w'.opkernel ∧
    (w'.opkernel.plan = build_steps w'.opkernel ↔ w.opkernel.net_size = 0) := by
  obtain ⟨a, -, hw⟩ := built_by_ok h
  have r0 := bw_reorder_i0 hw
  have r1 := bw_reorder_i1 hw
  have hc : conversion_count w'.opkernel =
      (if a.r0.isSome then 1 else 0) + (if a.r1.isSome then 1 else 0) := by
    unfold conversion_count
    rw [r0, r1]
    cases a.r0 <;> cases a.r1 <;> simp
  have hb : build_steps w'.opkernel =
      (if a.r0.isSome then [w'.opkernel.reorder_i 0] else []) ++
      (if a.r1.isSome then [w'.opkernel.reorder_i 1] else []) ++ [w'.opkernel.op_prim] := by
    unfold build_steps
    rw [r0, r1]
    cases a.r0 <;> cases a.r1 <;> simp
  have hn : w'.opkernel.net_size = w.opkernel.net_size + conversion_count w'.opkernel + 1 := by
    rw [hc, bw_net_size hw]
    omega
  have hp : w'.opkernel.plan = w.opkernel.plan ++ build_steps w'.opkernel := by
    rw [hb, bw_plan hw]
    simp
  refine ⟨fun i hi => bw_net_frame i hi hw, hn, ?_, hp, ?_⟩
  · have hs := bw_net_steps hw
    rw [hn] at hs
    rw [hb, ← hs]
    congr 2
    omega
  · have hl : w.opkernel.plan.length = w.opkernel.net_size := by
      simp [mkldnn_opkernel.plan]
    constructor
    · intro he
      rw [he] at hp
      have := congrArg List.length hp
      rw [List.length_append, hl] at this
      omega
    · intro hz
      have : w.opkernel.plan = [] := by
        simp [mkldnn_opkernel.plan, hz]
      rw [hp, this, List.nil_append]

theorem build_appends_at_net_size_witness :
    built_by demo_host engine_a 5 5 5 3 3 [3, 1, 8, 8, 2] [3, 1, 3, 3, 4] [4, 1, 8, 8, 2]
      [1, 1, 1] [0, 1, 1] .null .null .mkldnn_query_src_pd .mkldnn_query_dst_pd
      demo_fprop.world demo_fprop_again.world ∧
    demo_fprop.world.opkernel.net_size = 2 ∧
    demo_fprop.world.opkernel.plan = [5, 6] ∧
    build_steps demo_fprop_again.world.opkernel = [11, 12] ∧
    demo_fprop_again.world.opkernel.net_size = 4 ∧
    demo_fprop_again.world.opkernel.plan =
      demo_fprop.world.opkernel.plan ++ build_steps demo_fprop_again.world.opkernel :=
  ⟨Or.inl ⟨rfl, rfl, rfl⟩, rfl, rfl, rfl, rfl,
    (build_appends_at_net_size demo_host engine_a 5 5 5 3 3 [3, 1, 8, 8, 2]
      [3, 1, 3, 3, 4] [4, 1, 8, 8, 2] [1, 1, 1] [0, 1, 1] .null .null .mkldnn_query_src_pd
      .mkldnn_query_dst_pd demo_fprop.world demo_fprop_again.world
      (Or.inl ⟨rfl, rfl, rfl⟩)).2.2.2.1⟩

/-- C17: the forward and backward-data builders run the same negotiation and
plan assembly and differ only in the engine query.  For identical arguments and
the same initial state, when both return and the engine reports for the
backward-data descriptor's `diff_dst`, `weights`, `diff_src` slots the layouts
it reports for the forward descriptor's `src`, `weights`, `dst` slots, the two
final kernel structures agree in every field except `op_desc`: the same input,
internal and output descriptors, `reorder_i` and `reorder_o` entries, compute
handle, `net` and `net_size`.  The allocation logs agree (the same scratch
requests and results), every primitive created has the same operands and
buffer in both, so the compute steps select the same operands, all primitives
but the compute primitive are identical, and the plans are equal. -/
theorem bprop_data_builds_as_fprop (host : host_t) (engine : mkldnn_engine_t)
    (src_dims weights_dims dst_dims stride_dims pad_dims : Int)
    (conv_src_sizes conv_weights_sizes conv_dst_sizes conv_strides conv_padding : List Int)
    (input_src_pd input_weights_pd : mkldnn_primitive_desc_t) (w wf wb : World)
    (hf : create_mkldnn_conv_fprop_kernel host engine src_dims weights_dims dst_dims
      stride_dims pad_dims conv_src_sizes conv_weights_sizes conv_dst_sizes conv_strides
      conv_padding input_src_pd input_weights_pd w = Res.ok () wf)
    (hb : create_mkldnn_conv_bprop_data_kernel host engine src_dims weights_dims dst_dims
      stride_dims pad_dims conv_src_sizes conv_weights_sizes conv_dst_sizes conv_strides
      conv_padding input_src_pd input_weights_pd w = Res.ok () wb)
    (hq_src : engine.primitive_desc_query_pd wb.opkernel.op_desc .mkldnn_query_diff_dst_pd 0 =
      engine.primitive_desc_query_pd wf.opkernel.op_desc .mkldnn_query_src_pd 0)
    (hq_weights : engine.primitive_desc_query_pd wb.opkernel.op_desc .mkldnn_query_weights_pd 0 =
      engine.primitive_desc_query_pd wf.opkernel.op_desc .mkldnn_query_weights_pd 0)
    (hq_dst : engine.primitive_desc_query_pd wb.opkernel.op_desc .mkldnn_query_diff_src_pd 0 =
      engine.primitive_desc_query_pd wf.opkernel.op_desc .mkldnn_query_dst_pd 0) :
    wb.opkernel = { wf.opkernel with op_desc := wb.opkernel.op_desc } ∧
    wb.callocs = wf.callocs ∧
    wb.primitives.map (fun q => (q.inputs, q.outputs, q.data_handle)) =
      wf.primitives.map (fun q => (q.inputs, q.outputs, q.data_handle)) ∧
    wb.primitives.dropLast = wf.primitives.dropLast ∧
    wb.opkernel.plan = wf.opkernel.plan ∧
    wb.submitted = wf.submitted := by
  obtain ⟨af, haf, ef⟩ := built_by_ok (Or.inl ⟨hf, rfl, rfl⟩)
  obtain ⟨ab, hab, eb⟩ := built_by_ok (Or.inr ⟨hb, rfl, rfl⟩)
  rw [bw_op_desc ef, bw_op_desc eb] at hq_src hq_weights hq_dst
  have e : ab = { af with op_desc := ab.op_desc } := by
    obtain ⟨b0, b1, bo, c0, c1⟩ := haf
    obtain ⟨b0', b1', bo', c0', c1'⟩ := hab
    rw [hq_dst] at bo'
    rw [hq_src] at c0'
    rw [hq_weights] at c1'
    obtain ⟨op_desc, desc0, desc1, desc_out, r0, r1⟩ := af
    obtain ⟨op_desc', desc0', desc1', desc_out', r0', r1'⟩ := ab
    simp only at b0 b1 bo c0 c1 b0' b1' bo' c0' c1'
    have e0 := layout_bound_unique b0 b0'
    have e1 := layout_bound_unique b1 b1'
    subst e0 e1
    rw [bo] at bo'
    cases bo'
    have f0 := conversion_decided_unique c0 c0'
    have f1 := conversion_decided_unique c1 c1'
    subst f0 f1
    rfl
  have hk := built_world_op_desc host src_dims weights_dims conv_src_sizes conv_weights_sizes
    (host.set_mkl_dimensions conv_src_sizes conv_dst_sizes conv_weights_sizes conv_strides
      conv_padding) af ab.op_desc w
  rw [← e, ← ef, ← eb] at hk
  obtain ⟨k1, k2, k3, k4, k5⟩ := hk
  rw [← bw_op_desc eb] at k1
  refine ⟨k1, k2, k5, k4, ?_, k3⟩
  rw [k1]
  rfl

theorem bprop_data_builds_as_fprop_witness :
    (create_mkldnn_conv_fprop_kernel demo_host engine_a 5 5 5 3 3 [3, 1, 8, 8, 2]
      [3, 1, 3, 3, 4] [4, 1, 8, 8, 2] [1, 1, 1] [0, 1, 1] .null .null World.fresh =
        Res.ok () demo_fprop.world) ∧
    (create_mkldnn_conv_bprop_data_kernel demo_host engine_a 5 5 5 3 3 [3, 1, 8, 8, 2]
      [3, 1, 3, 3, 4] [4, 1, 8, 8, 2] [1, 1, 1] [0, 1, 1] .null .null World.fresh =
        Res.ok () demo_bprop_data_a.world) ∧
    demo_bprop_data_a.world.opkernel.op_desc ≠ demo_fprop.world.opkernel.op_desc ∧
    demo_bprop_data_a.world.opkernel =
      { demo_fprop.world.opkernel with op_desc := demo_bprop_data_a.world.opkernel.op_desc } ∧
    demo_bprop_data_a.world.opkernel.plan = [5, 6] :=
  ⟨rfl, rfl, by decide,
    (bprop_data_builds_as_fprop demo_host engine_a 5 5 5 3 3 [3, 1, 8, 8, 2]
      [3, 1, 3, 3, 4] [4, 1, 8, 8, 2] [1, 1, 1] [0, 1, 1] .null .null World.fresh
      demo_fprop.world demo_bprop_data_a.world rfl rfl rfl rfl rfl).1, rfl⟩

end Conv
